import Mathlib

/-!
# ZED wrapper nodelet: transform bookkeeping and the acquisition loop

A shallow embedding of `src/nodelet/src/zed_wrapper_nodelet.cpp`: the pose services, the
loop of `device_poll`, the coordinate selection and the settings reads of `onInit`, the
point cloud, disparity and IMU messages, `fillCamInfo`, `dynamicReconfCallback`, and runs
of the node in which reconfiguration requests and loop iterations alternate.

* Scalars (`float`, `double`, `tf2Scalar`) are exact rationals.  The conversion of a
  double product to `int` in the resize case of `dynamicReconfCallback` is a parameter.
* Times are integer nanoseconds, as the SDK timestamps from which `slTime2Ros` builds a
  `ros::Time`; five seconds are `5000000000`.
* `tf2::Transform` is a rotation part `m_basis` and a translation part
  `m_origin`.  The rotation type `Rot` and the vector type `V` are parameters:
  a group acting on an additive group.  Composition and inversion follow the
  tf2 formulas, with the transposed basis read as the inverse rotation.
* Calls into the SDK, the parameter server and the tf buffer return values that
  are inputs of the embedded functions; calls with an effect are recorded, in
  program order, in a list of `Event`s.
* Logging, sleeping, the data mutex, message stamps, the frame-id strings and the sequence
  counter of `publishCamInfo` are not modelled.  A reconfiguration request is handled
  between two loop iterations, never inside one.
-/

namespace ZedWrapper

/-! ## tf2 data types -/

/-- Components of a `tf2::Quaternion` / `sl::Orientation`: three axis components and the
scalar `w`. -/
structure Quat where
  x : ℚ
  y : ℚ
  z : ℚ
  w : ℚ
deriving DecidableEq, Repr

/-- Message `geometry_msgs::Transform`: a translation and a rotation quaternion. -/
structure TransformMsg where
  tx : ℚ
  ty : ℚ
  tz : ℚ
  rotation : Quat
deriving DecidableEq, Repr

/-- Class `tf2::Transform`: the pair of `m_basis` and `m_origin`. -/
structure Transform (V Rot : Type) where
  basis : Rot
  origin : V
deriving DecidableEq, Repr

/-- The tf2 operations whose bodies lie outside the repository, taken as parameters. -/
structure Tf2 (V Rot : Type) where
  /-- Constructor `tf2::Vector3(x, y, z)`. -/
  vector3 : ℚ → ℚ → ℚ → V
  /-- Method `tf2::Quaternion::setRPY(roll, pitch, yaw)`. -/
  setRPY : ℚ → ℚ → ℚ → Quat
  /-- Method `tf2::Matrix3x3::setRotation(q)`: the rotation of a quaternion. -/
  rotation : Quat → Rot

namespace Transform

variable {V Rot : Type}

/-- Method `tf2::Transform::setOrigin`. -/
def setOrigin (t : Transform V Rot) (o : V) : Transform V Rot :=
  { t with origin := o }

/-- Method `tf2::Transform::setRotation`: only the basis is replaced. -/
def setRotation (lib : Tf2 V Rot) (t : Transform V Rot) (q : Quat) : Transform V Rot :=
  { t with basis := lib.rotation q }

variable [Group Rot] [AddGroup V] [DistribMulAction Rot V]

/-- Result of `tf2::Transform::setIdentity` / `getIdentity`. -/
def identity : Transform V Rot := ⟨1, 0⟩

/-- Operator `tf2::Transform::operator*`: `(b1 * b2, o1 + b1 * o2)`. -/
def comp (a b : Transform V Rot) : Transform V Rot :=
  ⟨a.basis * b.basis, a.origin + a.basis • b.origin⟩

/-- Method `tf2::Transform::inverse`: `(inv, inv * -o)` with `inv` the transposed basis. -/
def inverse (a : Transform V Rot) : Transform V Rot :=
  ⟨a.basis⁻¹, a.basis⁻¹ • (-a.origin)⟩

instance : Mul (Transform V Rot) := ⟨comp⟩
instance : One (Transform V Rot) := ⟨identity⟩
instance : Inv (Transform V Rot) := ⟨inverse⟩

/-- Rigid transforms under tf2 composition form a group. -/
instance : Group (Transform V Rot) where
  mul_assoc a b c := by
    show comp (comp a b) c = comp a (comp b c)
    simp only [comp, mul_assoc, smul_add, mul_smul, add_assoc]
  one_mul a := by
    show comp identity a = a
    cases a; simp [comp, identity]
  mul_one a := by
    show comp a identity = a
    cases a; simp [comp, identity]
  inv_mul_cancel a := by
    show comp (inverse a) a = identity
    cases a; simp [comp, inverse, identity]

end Transform

/-- Function `tf2::fromMsg(geometry_msgs::Transform, tf2::Transform&)`: origin and rotation
are both set from the message. -/
def fromMsg {V Rot : Type} (lib : Tf2 V Rot) (m : TransformMsg) : Transform V Rot :=
  ⟨lib.rotation m.rotation, lib.vector3 m.tx m.ty m.tz⟩

/-! ## SDK data types -/

/-- Class `sl::Transform`, as used for `initial_pose_sl`: a translation and an orientation. -/
structure SlTransform where
  tx : ℚ
  ty : ℚ
  tz : ℚ
  orientation : Quat
deriving DecidableEq, Repr

namespace SlTransform

/-- Method `sl::Transform::setIdentity`. -/
def identity : SlTransform := ⟨0, 0, 0, ⟨0, 0, 0, 1⟩⟩

/-- Method `sl::Transform::setTranslation`. -/
def setTranslation (p : SlTransform) (x y z : ℚ) : SlTransform :=
  { p with tx := x, ty := y, tz := z }

/-- Method `sl::Transform::setOrientation`. -/
def setOrientation (p : SlTransform) (r : Quat) : SlTransform :=
  { p with orientation := r }

end SlTransform

/-- Class `sl::Pose` as read by the node: `getTranslation()(i)` and `getOrientation()(i)`. -/
structure SlPose where
  translation : Nat → ℚ
  orientation : Nat → ℚ

/-- Result of `zed.grab`: `sl::SUCCESS`, `sl::ERROR_CODE_NOT_A_NEW_FRAME`, or any other code. -/
inductive GrabStatus where
  | success
  | notANewFrame
  | failure
deriving DecidableEq, Repr

/-- Camera settings written through `zed.setCameraSettings`. -/
inductive Setting where
  | exposure
  | gain
  | brightness
  | contrast
  | hue
  | saturation
  | whitebalance
deriving DecidableEq, Repr

/-- Views fetched with `zed.retrieveImage`. -/
inductive View where
  | left
  | leftUnrectified
  | right
  | rightUnrectified
  | confidence
deriving DecidableEq, Repr

/-- Measures fetched with `zed.retrieveMeasure`. -/
inductive Measure where
  | depth
  | disparity
  | confidence
  | xyzbgra
deriving DecidableEq, Repr

/-- Reference frames of `zed.getPosition`. -/
inductive RefFrame where
  | camera
  | world
deriving DecidableEq, Repr

/-! ## Channels and recorded effects -/

/-- The thirteen data channels whose subscriber counts `device_poll` samples. -/
inductive Channel where
  | rgb
  | rgb_raw
  | left
  | left_raw
  | right
  | right_raw
  | depth
  | disparity
  | cloud
  | pose
  | odom
  | conf_img
  | conf_map
deriving DecidableEq, Repr

/-- The camera-info publishers. -/
inductive InfoChannel where
  | left
  | rgb
  | left_raw
  | rgb_raw
  | right
  | right_raw
  | depth
deriving DecidableEq, Repr

/-- Effects of the node, recorded in program order: SDK calls that change the session,
published messages and broadcast frames. -/
inductive Event (V Rot : Type) where
  /-- Call `zed.disableTracking()`. -/
  | disableTracking
  /-- Call `zed.enableTracking(trackParams)`, with its `initial_world_transform`. -/
  | enableTracking (initial_world_transform : SlTransform)
  /-- Call `zed.resetTracking(initial_pose_sl)`. -/
  | resetTracking (pose : SlTransform)
  /-- Call `zed.setConfidenceThreshold(confidence)`. -/
  | setConfidenceThreshold (value : Int)
  /-- Call `zed.grab(runParams)`. -/
  | grab (enable_depth enable_point_cloud : Bool)
  /-- Call `zed.close()`. -/
  | close
  /-- Call `zed.open(param)` with `param.camera_linux_id`. -/
  | openCamera (camera_linux_id : Int)
  /-- Call `zed.setCameraSettings(setting, value, use_default)`. -/
  | setCameraSettings (setting : Setting) (value : Int) (use_default : Bool)
  /-- Call `zed.retrieveImage`. -/
  | retrieveImage (view : View)
  /-- Call `zed.retrieveMeasure`. -/
  | retrieveMeasure (measure : Measure)
  /-- Call `zed.getPosition`. -/
  | getPosition (frame : RefFrame)
  /-- Call `publishCamInfo` on a camera-info publisher. -/
  | publishCamInfo (ch : InfoChannel)
  /-- A message built from an SDK buffer and handed to the publisher of channel `ch`
  (`publishImage`, `publishDepth`, `publishDisparity`, `pub_conf_map.publish`,
  `publishPointCloud`). -/
  | publish (ch : Channel)
  /-- Call `publishOdom`: an odometry message on `pub_odom`. -/
  | publishOdom (tf : Transform V Rot)
  /-- Call `publishPose`: a pose message on `pub_pose`. -/
  | publishPose (tf : Transform V Rot)
  /-- Call `publishOdomFrame`: broadcast of the odom -> base frame. -/
  | publishOdomFrame (tf : Transform V Rot)
  /-- Call `publishPoseFrame`: broadcast of the map -> odom frame. -/
  | publishPoseFrame (tf : Transform V Rot)
deriving DecidableEq, Repr

namespace Event

variable {V Rot : Type}

/-- The data channel on which an event publishes a message, if it publishes one. -/
def channel : Event V Rot → Option Channel
  | publish ch => some ch
  | publishOdom _ => some Channel.odom
  | publishPose _ => some Channel.pose
  | _ => none

/-- The camera-info publisher an event publishes on, if any. -/
def infoChannel : Event V Rot → Option InfoChannel
  | publishCamInfo ch => some ch
  | _ => none

/-- The runtime parameters of a grab call, if the event is one. -/
def grabParams : Event V Rot → Option (Bool × Bool)
  | grab d c => some (d, c)
  | _ => none

/-- Is the event a frame broadcast? -/
def isBroadcast : Event V Rot → Bool
  | publishOdomFrame _ => true
  | publishPoseFrame _ => true
  | _ => false

/-- Does the event close or open the SDK session? -/
def isSession : Event V Rot → Bool
  | close => true
  | openCamera _ => true
  | _ => false

/-- Does the event start or stop tracking? -/
def isTrackingSwitch : Event V Rot → Bool
  | enableTracking _ => true
  | disableTracking => true
  | _ => false

/-- Is the event a call of `zed.enableTracking`? -/
def isEnableTracking : Event V Rot → Bool
  | enableTracking _ => true
  | _ => false

end Event

/-! ## Node state -/

/-- The member variables of `ZEDWrapperNodelet` (and the loop-carried local `old_t` of
`device_poll`) that the embedded functions read or write. -/
structure State (V Rot : Type) where
  -- Coordinate convention chosen in `onInit`; the indices are 0, 1 or 2.
  x_idx : Nat
  y_idx : Nat
  z_idx : Nat
  x_sign : Int
  y_sign : Int
  z_sign : Int
  -- Launch parameters.
  depth_stabilization : Bool
  publish_tf : Bool
  /-- Field `param.camera_linux_id`. -/
  camera_linux_id : Int
  -- Tracking.
  tracking_activated : Bool
  initial_track_pose : List ℚ
  initial_pose_sl : SlTransform
  base_to_odom_transform : Transform V Rot
  odom_to_map_transform : Transform V Rot
  -- Desired camera settings.
  confidence : Int
  exposure : Int
  gain : Int
  brightness : Int
  contrast : Int
  hue : Int
  saturation : Int
  whitebalance : Int
  autoExposure : Bool
  autoWhitebalance : Bool
  triggerAutoExposure : Bool
  triggerAutoWhitebalance : Bool
  -- Output size.
  mat_resize_factor : ℚ
  cam_width : Int
  cam_height : Int
  mat_width : Int
  mat_height : Int
  -- Flags and times.
  computeDepth : Bool
  grabbing : Bool
  old_t : Int
  imu_time : Int
  point_cloud_time : Int

/-- A state together with the effects recorded while reaching it. -/
structure Step (V Rot : Type) where
  state : State V Rot
  events : List (Event V Rot)

/-! ## Pose services and tracking start -/

section Services

variable {V Rot : Type}

/-- Method `ZEDWrapperNodelet::set_pose` (lines 501-526). -/
def set_pose (lib : Tf2 V Rot) (s : State V Rot) (xt yt zt rr pr yr : ℚ) : State V Rot :=
  let q := lib.setRPY rr pr yr
  let orig := lib.vector3 xt yt zt
  let q_vec : Quat := ⟨q.x, q.y, q.z, q.w⟩
  { s with
    base_to_odom_transform := (s.base_to_odom_transform.setOrigin orig).setRotation lib q
    odom_to_map_transform := (s.odom_to_map_transform.setOrigin orig).setRotation lib q
    initial_pose_sl := (s.initial_pose_sl.setTranslation xt yt zt).setOrientation q_vec }

/-- Request of the `set_initial_pose` service. -/
structure SetPoseRequest where
  x : ℚ
  y : ℚ
  z : ℚ
  R : ℚ
  P : ℚ
  Y : ℚ

/-- Response of the `set_initial_pose` service. -/
structure SetPoseResponse where
  done : Bool
deriving DecidableEq, Repr

/-- Response of the `reset_tracking` service. -/
structure ResetTrackingResponse where
  reset_done : Bool
deriving DecidableEq, Repr

/-- What a service handler leaves behind: its return value, the response, the state and
the recorded effects. -/
structure ServiceResult (R V Rot : Type) where
  ret : Bool
  res : R
  state : State V Rot
  events : List (Event V Rot)

/-- Method `ZEDWrapperNodelet::on_set_pose` (lines 528-550). -/
def on_set_pose (lib : Tf2 V Rot) (s : State V Rot) (req : SetPoseRequest)
    (res : SetPoseResponse) : ServiceResult SetPoseResponse V Rot :=
  let s1 := { s with initial_track_pose := [req.x, req.y, req.z, req.R, req.P, req.Y] }
  let p := s1.initial_track_pose
  let s2 := set_pose lib s1 (p.getD 0 0) (p.getD 1 0) (p.getD 2 0) (p.getD 3 0) (p.getD 4 0)
    (p.getD 5 0)
  let ev : List (Event V Rot) :=
    if s2.tracking_activated then [Event.resetTracking s2.initial_pose_sl] else []
  { ret := true, res := { res with done := true }, state := s2, events := ev }

/-- Method `ZEDWrapperNodelet::on_reset_tracking` (lines 553-576).  `param` is what the
parameter server holds for `initial_tracking_pose`; `none` leaves the vector as it is. -/
def on_reset_tracking [Group Rot] [AddGroup V] [DistribMulAction Rot V] (lib : Tf2 V Rot)
    (s : State V Rot) (param : Option (List ℚ))
    (res : ResetTrackingResponse) : ServiceResult ResetTrackingResponse V Rot :=
  if !s.tracking_activated then
    { ret := false, res := { res with reset_done := false }, state := s, events := [] }
  else
    let s1 := { s with initial_track_pose := param.getD s.initial_track_pose }
    let p := s1.initial_track_pose
    let s2 :=
      if p.length ≠ 6 then
        let a := { s1 with initial_pose_sl := SlTransform.identity }
        let b := { a with odom_to_map_transform := Transform.identity }
        { b with base_to_odom_transform := Transform.identity }
      else
        set_pose lib s1 (p.getD 0 0) (p.getD 1 0) (p.getD 2 0) (p.getD 3 0) (p.getD 4 0)
          (p.getD 5 0)
    { ret := true, res := res, state := s2, events := [Event.resetTracking s2.initial_pose_sl] }

/-- Method `ZEDWrapperNodelet::start_tracking` (lines 578-612).  The reads of `odometry_DB`,
`pose_smoothing` and `spatial_memory` fill only the other fields of the tracking
parameters and are left out. -/
def start_tracking [Group Rot] [AddGroup V] [DistribMulAction Rot V] (lib : Tf2 V Rot)
    (s : State V Rot) : Step V Rot :=
  let p := s.initial_track_pose
  let s1 :=
    if p.length ≠ 6 then
      let a := { s with initial_pose_sl := SlTransform.identity }
      let b := { a with odom_to_map_transform := Transform.identity }
      { b with odom_to_map_transform := Transform.identity }
    else
      set_pose lib s (p.getD 0 0) (p.getD 1 0) (p.getD 2 0) (p.getD 3 0) (p.getD 4 0)
        (p.getD 5 0)
  { state := { s1 with tracking_activated := true },
    events := [Event.enableTracking s1.initial_pose_sl] }

end Services

/-! ## The acquisition loop -/

/-- The thirteen subscriber counts sampled at the top of a loop iteration (lines 1089-1101). -/
structure Subs where
  rgb : Int
  rgb_raw : Int
  left : Int
  left_raw : Int
  right : Int
  right_raw : Int
  depth : Int
  disparity : Int
  cloud : Int
  pose : Int
  odom : Int
  conf_img : Int
  conf_map : Int
deriving DecidableEq, Repr

namespace Subs

/-- No subscriber on any channel. -/
def zero : Subs := ⟨0, 0, 0, 0, 0, 0, 0, 0, 0, 0, 0, 0, 0⟩

/-- The sampled count of a channel. -/
def count (n : Subs) : Channel → Int
  | Channel.rgb => n.rgb
  | Channel.rgb_raw => n.rgb_raw
  | Channel.left => n.left
  | Channel.left_raw => n.left_raw
  | Channel.right => n.right
  | Channel.right_raw => n.right_raw
  | Channel.depth => n.depth
  | Channel.disparity => n.disparity
  | Channel.cloud => n.cloud
  | Channel.pose => n.pose
  | Channel.odom => n.odom
  | Channel.conf_img => n.conf_img
  | Channel.conf_map => n.conf_map

/-- Local `runLoop` (lines 1102-1103). -/
def runLoop (n : Subs) : Bool :=
  decide (n.rgb + n.rgb_raw + n.left + n.left_raw + n.right + n.right_raw + n.depth
    + n.disparity + n.cloud + n.pose + n.odom + n.conf_img + n.conf_map > 0)

/-- Value assigned to `computeDepth` (line 1116). -/
def needDepth (n : Subs) : Bool :=
  decide (n.depth + n.disparity + n.cloud + n.pose + n.odom + n.conf_img + n.conf_map > 0)

/-- Value of `runParams.enable_point_cloud` (lines 1105-1107). -/
def needCloud (n : Subs) : Bool :=
  decide (n.cloud > 0)

end Subs

/-- One pass of the re-open loop (lines 1149-1164): `nh_ns.ok()`, the id returned by
`sl_tools::checkCameraReady`, and whether `zed.open` (called only when `id > 0`) succeeds. -/
structure Attempt where
  ok : Bool
  id : Int
  opened : Bool
deriving DecidableEq, Repr

/-- How the re-open loop ended: camera reopened, node shut down (`device_poll` returns),
or still looping after the listed attempts. -/
inductive Reopen where
  | reopened
  | shutdown
  | waiting
deriving DecidableEq, Repr

/-- How a loop iteration ended: the loop goes on, `device_poll` has returned, or the
iteration is still inside the re-open loop. -/
inductive Flow where
  | next
  | returned
  | waiting
deriving DecidableEq, Repr

/-- Everything a loop iteration reads from outside the node. -/
structure TickInput (V Rot : Type) where
  subs : Subs
  /-- Image timestamp `t` (line 1119). -/
  t : Int
  /-- Result of `zed.getConfidenceThreshold()`. -/
  actual_confidence : Int
  grab_status : GrabStatus
  /-- Passes of the re-open loop, read only when it is entered. -/
  attempts : List Attempt
  /-- Current timestamp read after a successful grab (line 1174). -/
  now : Int
  actual_exposure : Int
  actual_gain : Int
  actual_brightness : Int
  actual_contrast : Int
  actual_hue : Int
  actual_saturation : Int
  actual_whitebalance : Int
  /-- Result of the tf lookup base <- sensor; `none` when it throws. -/
  s2b : Option (Transform V Rot)
  /-- Pose from `getPosition(REFERENCE_FRAME_CAMERA)`. -/
  deltaOdom : SlPose
  /-- Pose from `getPosition(REFERENCE_FRAME_WORLD)`. -/
  zed_pose : SlPose

/-- Result of one loop iteration. -/
structure TickResult (V Rot : Type) where
  state : State V Rot
  events : List (Event V Rot)
  flow : Flow

section Loop

variable {V Rot : Type}

/-- Axis remap of an SDK pose into a transform message (lines 1338-1348 and 1371-1381). -/
def remapPose (s : State V Rot) (p : SlPose) : TransformMsg :=
  { tx := s.x_sign * p.translation s.x_idx
    ty := s.y_sign * p.translation s.y_idx
    tz := s.z_sign * p.translation s.z_idx
    rotation :=
      { x := s.x_sign * p.orientation s.x_idx
        y := s.y_sign * p.orientation s.y_idx
        z := s.z_sign * p.orientation s.z_idx
        w := p.orientation 3 } }

/-- Start or stop of tracking before the grab (lines 1110-1115). -/
def tracking_switch [Group Rot] [AddGroup V] [DistribMulAction Rot V] (lib : Tf2 V Rot)
    (s : State V Rot) (n : Subs) : Step V Rot :=
  if (s.depth_stabilization ∨ n.pose > 0 ∨ n.odom > 0 ∨ n.cloud > 0 ∨ n.depth > 0)
      ∧ ¬ s.tracking_activated then
    start_tracking lib s
  else if ¬ s.depth_stabilization ∧ n.pose = 0 ∧ n.odom = 0 ∧ s.tracking_activated then
    { state := { s with tracking_activated := false }, events := [Event.disableTracking] }
  else
    { state := s, events := [] }

/-- The grab call with its runtime parameters (lines 1116-1132). -/
def grab_call (s : State V Rot) (i : TickInput V Rot) : Step V Rot :=
  let s1 := { s with computeDepth := i.subs.needDepth }
  let conf : List (Event V Rot) :=
    if s1.computeDepth then
      if i.actual_confidence ≠ s1.confidence then [Event.setConfidenceThreshold s1.confidence]
      else []
    else []
  let enable_depth := if s1.computeDepth then true else false
  { state := { s1 with grabbing := false },
    events := conf ++ [Event.grab enable_depth i.subs.needCloud] }

/-- The re-open loop (lines 1149-1164) over the listed passes. -/
def reopen_loop (s : State V Rot) : List Attempt → Step V Rot × Reopen
  | [] => (⟨s, []⟩, Reopen.waiting)
  | a :: rest =>
    if ¬ a.ok then
      (⟨s, [Event.close]⟩, Reopen.shutdown)
    else if a.id > 0 then
      let s1 := { s with camera_linux_id := a.id }
      if a.opened then
        (⟨s1, [Event.openCamera a.id]⟩, Reopen.reopened)
      else
        let r := reopen_loop s1 rest
        (⟨r.1.state, Event.openCamera a.id :: r.1.events⟩, r.2)
    else
      reopen_loop s rest

/-- What follows the re-open loop (lines 1151-1155 and 1165-1170): `device_poll` returns when
the node shut down; otherwise tracking is marked inactive and restarted when depth
stabilization is on or the pose or odometry channel is subscribed. -/
def after_reopen [Group Rot] [AddGroup V] [DistribMulAction Rot V] (lib : Tf2 V Rot)
    (i : TickInput V Rot) (r : Step V Rot) : Reopen → TickResult V Rot
  | Reopen.shutdown =>
    { state := r.state, events := r.events, flow := Flow.returned }
  | Reopen.waiting =>
    { state := r.state, events := r.events, flow := Flow.waiting }
  | Reopen.reopened =>
    let s1 := { r.state with tracking_activated := false }
    let tr : Step V Rot :=
      if s1.depth_stabilization ∨ i.subs.pose > 0 ∨ i.subs.odom > 0 then
        start_tracking lib s1
      else ⟨s1, []⟩
    { state := tr.state, events := r.events ++ tr.events, flow := Flow.next }

/-- Handling of a failed grab (lines 1135-1171): nothing unless `(t - old_t).toSec() > 5`,
else `zed.close()` (line 1145), the re-open loop and what follows it. -/
def grab_failed [Group Rot] [AddGroup V] [DistribMulAction Rot V] (lib : Tf2 V Rot)
    (s : State V Rot) (i : TickInput V Rot) :
    TickResult V Rot :=
  if i.t - s.old_t > 5000000000 then
    let r := after_reopen lib i (reopen_loop s i.attempts).1 (reopen_loop s i.attempts).2
    { state := r.state, events := Event.close :: r.events, flow := r.flow }
  else
    { state := s, events := [], flow := Flow.next }

/-- Push of a desired setting when the camera reports another value. -/
def push_setting (setting : Setting) (actual desired : Int) : List (Event V Rot) :=
  if actual ≠ desired then [Event.setCameraSettings setting desired false] else []

/-- Exposure and gain control (lines 1176-1191). -/
def apply_exposure (s : State V Rot) (i : TickInput V Rot) : Step V Rot :=
  if s.autoExposure then
    if s.triggerAutoExposure then
      { state := { s with triggerAutoExposure := false },
        events := [Event.setCameraSettings Setting.exposure 0 true] }
    else ⟨s, []⟩
  else
    ⟨s, push_setting Setting.exposure i.actual_exposure s.exposure
      ++ push_setting Setting.gain i.actual_gain s.gain⟩

/-- Brightness, contrast, hue and saturation control (lines 1195-1208). -/
def apply_color (s : State V Rot) (i : TickInput V Rot) : List (Event V Rot) :=
  push_setting Setting.brightness i.actual_brightness s.brightness
    ++ push_setting Setting.contrast i.actual_contrast s.contrast
    ++ push_setting Setting.hue i.actual_hue s.hue
    ++ push_setting Setting.saturation i.actual_saturation s.saturation

/-- White balance control (lines 1225-1236). -/
def apply_whitebalance (s : State V Rot) (i : TickInput V Rot) : Step V Rot :=
  if s.autoWhitebalance then
    if s.triggerAutoWhitebalance then
      { state := { s with triggerAutoWhitebalance := false },
        events := [Event.setCameraSettings Setting.whitebalance 0 true] }
    else ⟨s, []⟩
  else
    ⟨s, push_setting Setting.whitebalance i.actual_whitebalance s.whitebalance⟩

/-- Rectified left / rgb image (lines 1211-1223). -/
def publish_left (n : Subs) : List (Event V Rot) :=
  if n.left > 0 ∨ n.rgb > 0 then
    [Event.retrieveImage View.left]
      ++ (if n.left > 0 then
            [Event.publishCamInfo InfoChannel.left, Event.publish Channel.left] else [])
      ++ (if n.rgb > 0 then
            [Event.publishCamInfo InfoChannel.rgb, Event.publish Channel.rgb] else [])
  else []

/-- Raw left / rgb image (lines 1239-1251). -/
def publish_left_raw (n : Subs) : List (Event V Rot) :=
  if n.left_raw > 0 ∨ n.rgb_raw > 0 then
    [Event.retrieveImage View.leftUnrectified]
      ++ (if n.left_raw > 0 then
            [Event.publishCamInfo InfoChannel.left_raw, Event.publish Channel.left_raw]
          else [])
      ++ (if n.rgb_raw > 0 then
            [Event.publishCamInfo InfoChannel.rgb_raw, Event.publish Channel.rgb_raw]
          else [])
  else []

/-- Right image, rectified and raw (lines 1254-1269). -/
def publish_right (n : Subs) : List (Event V Rot) :=
  (if n.right > 0 then
    [Event.retrieveImage View.right, Event.publishCamInfo InfoChannel.right,
      Event.publish Channel.right]
   else [])
  ++ (if n.right_raw > 0 then
    [Event.retrieveImage View.rightUnrectified, Event.publishCamInfo InfoChannel.right_raw,
      Event.publish Channel.right_raw]
   else [])

/-- Depth, disparity, confidence image and confidence map (lines 1272-1298). -/
def publish_depth (n : Subs) : List (Event V Rot) :=
  (if n.depth > 0 ∨ n.disparity > 0 then
    [Event.retrieveMeasure Measure.depth, Event.publishCamInfo InfoChannel.depth,
      Event.publish Channel.depth]
   else [])
  ++ (if n.disparity > 0 then
    [Event.retrieveMeasure Measure.disparity, Event.publish Channel.disparity] else [])
  ++ (if n.conf_img > 0 then
    [Event.retrieveImage View.confidence, Event.publish Channel.conf_img] else [])
  ++ (if n.conf_map > 0 then
    [Event.retrieveMeasure Measure.confidence, Event.publish Channel.conf_map] else [])

/-- Point cloud (lines 1301-1308). -/
def publish_cloud (s : State V Rot) (i : TickInput V Rot) : Step V Rot :=
  if i.subs.cloud > 0 then
    { state := { s with point_cloud_time := i.t },
      events := [Event.retrieveMeasure Measure.xyzbgra, Event.publish Channel.cloud] }
  else ⟨s, []⟩

/-- Local `sensor_to_base_transf` (lines 1313-1328): the looked-up transform, identity when
the lookup throws. -/
def sensor_to_base [Group Rot] [AddGroup V] [DistribMulAction Rot V]
    (i : TickInput V Rot) : Transform V Rot :=
  match i.s2b with
  | some tf => tf
  | none => Transform.identity

/-- Odometry update and message (lines 1331-1361). -/
def odom_update [Group Rot] [AddGroup V] [DistribMulAction Rot V] (lib : Tf2 V Rot)
    (s : State V Rot) (i : TickInput V Rot) : Step V Rot :=
  let n := i.subs
  if n.pose > 0 ∨ n.odom > 0 ∨ n.cloud > 0 ∨ n.depth > 0 then
    let deltaOdomTf := fromMsg lib (remapPose s i.deltaOdom)
    let deltaOdomTf_base := sensor_to_base i * deltaOdomTf * (sensor_to_base i)⁻¹
    let s1 := { s with base_to_odom_transform := s.base_to_odom_transform * deltaOdomTf_base }
    { state := s1,
      events := [Event.getPosition RefFrame.camera, Event.publishOdom s1.base_to_odom_transform] }
  else ⟨s, []⟩

/-- Pose update and message (lines 1364-1394). -/
def pose_update [Group Rot] [AddGroup V] [DistribMulAction Rot V] (lib : Tf2 V Rot)
    (s : State V Rot) (i : TickInput V Rot) : Step V Rot :=
  let n := i.subs
  if n.pose > 0 ∨ n.cloud > 0 ∨ n.depth > 0 then
    let sens_to_map_transf := fromMsg lib (remapPose s i.zed_pose)
    let base_to_map_transform := sensor_to_base i * sens_to_map_transf * (sensor_to_base i)⁻¹
    let s1 := { s with
      odom_to_map_transform := base_to_map_transform * s.base_to_odom_transform⁻¹ }
    { state := s1,
      events := [Event.getPosition RefFrame.world, Event.publishPose s1.odom_to_map_transform] }
  else ⟨s, []⟩

/-- Frame broadcast at the end of an active iteration (lines 1397-1404). -/
def publish_frames (s : State V Rot) (i : TickInput V Rot) : Step V Rot :=
  if s.publish_tf then
    { state := { s with imu_time := i.t },
      events := [Event.publishOdomFrame s.base_to_odom_transform,
        Event.publishPoseFrame s.odom_to_map_transform] }
  else ⟨s, []⟩

/-- The part of an iteration after a successful grab (lines 1173-1406). -/
def grab_succeeded [Group Rot] [AddGroup V] [DistribMulAction Rot V] (lib : Tf2 V Rot)
    (s : State V Rot) (i : TickInput V Rot) : Step V Rot :=
  let s1 := { s with old_t := i.now }
  let ex := apply_exposure s1 i
  let color := apply_color ex.state i
  let left := publish_left i.subs
  let wb := apply_whitebalance ex.state i
  let raw := publish_left_raw i.subs
  let right := publish_right i.subs
  let depth := publish_depth i.subs
  let cloud := publish_cloud wb.state i
  let od := odom_update lib cloud.state i
  let po := pose_update lib od.state i
  let fr := publish_frames po.state i
  { state := fr.state,
    events := ex.events ++ color ++ left ++ wb.events ++ raw ++ right ++ depth
      ++ cloud.events ++ od.events ++ po.events ++ fr.events }

/-- The idle branch (lines 1407-1415). -/
def idle (s : State V Rot) : List (Event V Rot) :=
  if s.publish_tf then
    [Event.publishOdomFrame s.base_to_odom_transform,
      Event.publishPoseFrame s.odom_to_map_transform]
  else []

/-- One iteration of the main loop of `ZEDWrapperNodelet::device_poll` (lines 1087-1416). -/
def device_poll_tick [Group Rot] [AddGroup V] [DistribMulAction Rot V] (lib : Tf2 V Rot)
    (s : State V Rot) (i : TickInput V Rot) :
    TickResult V Rot :=
  if i.subs.runLoop then
    let tr := tracking_switch lib s i.subs
    let gr := grab_call tr.state i
    if i.grab_status ≠ GrabStatus.success then
      let f := grab_failed lib gr.state i
      { state := f.state, events := tr.events ++ gr.events ++ f.events, flow := f.flow }
    else
      let ok := grab_succeeded lib gr.state i
      { state := ok.state, events := tr.events ++ gr.events ++ ok.events, flow := Flow.next }
  else
    { state := s, events := idle s, flow := Flow.next }

/-- The loop around one iteration: go on with the remaining iterations `k` while the loop
goes on, stop otherwise. -/
def loop_step (r : TickResult V Rot) (k : State V Rot → Step V Rot) : Step V Rot :=
  match r.flow with
  | Flow.next => ⟨(k r.state).state, r.events ++ (k r.state).events⟩
  | _ => ⟨r.state, r.events⟩

/-- Consecutive iterations of the loop, one per input, while the loop goes on. -/
def device_poll_run [Group Rot] [AddGroup V] [DistribMulAction Rot V] (lib : Tf2 V Rot) :
    State V Rot → List (TickInput V Rot) → Step V Rot
  | s, [] => ⟨s, []⟩
  | s, i :: rest =>
    loop_step (device_poll_tick lib s i) (fun s1 => device_poll_run lib s1 rest)

end Loop


/-! ## Coordinate convention -/

/-- The values of `sl::COORDINATE_SYSTEM` that `onInit` selects. -/
inductive CoordinateSystem where
  | image
  | rightHandedZUp
  | rightHandedZUpXFwd
deriving DecidableEq, Repr

section Coordinates

variable {V Rot : Type}

/-- The remap tuple `(x_idx, y_idx, z_idx, x_sign, y_sign, z_sign)` held by a state. -/
def State.axes (s : State V Rot) : Nat × Nat × Nat × Int × Int × Int :=
  (s.x_idx, s.y_idx, s.z_idx, s.x_sign, s.y_sign, s.z_sign)

/-- Coordinate selection of `ZEDWrapperNodelet::onInit` (lines 287-316) from the SDK version:
the value given to `param.coordinate_system` and the state with the six remap members
set. -/
def onInit_coordinates (s : State V Rot) (ver_major ver_minor : Int) :
    CoordinateSystem × State V Rot :=
  if ver_major < 2 then
    (CoordinateSystem.image,
      { s with x_idx := 2, y_idx := 0, z_idx := 1, x_sign := 1, y_sign := -1, z_sign := -1 })
  else if ver_major = 2 ∧ ver_minor < 5 then
    (CoordinateSystem.rightHandedZUp,
      { s with x_idx := 1, y_idx := 0, z_idx := 2, x_sign := 1, y_sign := -1, z_sign := 1 })
  else
    (CoordinateSystem.rightHandedZUpXFwd,
      { s with x_idx := 0, y_idx := 1, z_idx := 2, x_sign := 1, y_sign := 1, z_sign := 1 })

/-- The signed permutation matrix of the remap tuple of a state, as the specification
words it: row 0 holds `x_sign` in column `x_idx`, row 1 holds `y_sign` in column `y_idx`,
row 2 holds `z_sign` in column `z_idx`, and every other entry is zero. -/
def remapMatrix (s : State V Rot) : Matrix (Fin 3) (Fin 3) ℚ :=
  Matrix.of fun r c =>
    if r = 0 then (if (c : Nat) = s.x_idx then (s.x_sign : ℚ) else 0)
    else if r = 1 then (if (c : Nat) = s.y_idx then (s.y_sign : ℚ) else 0)
    else (if (c : Nat) = s.z_idx then (s.z_sign : ℚ) else 0)

/-! ## Point cloud -/

/-- Point type `pcl::PointXYZRGB`. -/
structure PointXYZRGB where
  x : ℚ
  y : ℚ
  z : ℚ
  rgb : ℚ
deriving DecidableEq, Repr

/-- Message `sensor_msgs::PointCloud2` as `publishPointCloud` fills it. -/
structure PointCloudMsg where
  points : List PointXYZRGB
  height : Int
  width : Int
  is_bigendian : Bool
  is_dense : Bool
deriving DecidableEq, Repr

/-- Body of the point loop of `publishPointCloud` (lines 727-730) for one SDK point
`cpu_cloud[i]`, read by component index. -/
def cloud_point (s : State V Rot) (p : Nat → ℚ) : PointXYZRGB :=
  { x := s.x_sign * p s.x_idx
    y := s.y_sign * p s.y_idx
    z := s.z_sign * p s.z_idx
    rgb := p 3 }

/-- Method `ZEDWrapperNodelet::publishPointCloud` (lines 715-774): the message handed to
`pub_cloud`, from the SDK buffer `cloud` read by point index. -/
def publishPointCloud (s : State V Rot) (cloud : Nat → Nat → ℚ) (width height : Int) :
    PointCloudMsg :=
  let size := width * height
  { points := (List.range size.toNat).map fun i => cloud_point s (cloud i)
    height := height
    width := width
    is_bigendian := false
    is_dense := false }

end Coordinates

/-! ## IMU -/

/-- Class `sl::IMUData` as read by the node: `getOrientation()[k]`, the two vectors by
component, and the `r` arrays of the three covariance matrices. -/
structure IMUData where
  orientation : Nat → ℚ
  angular_velocity : Nat → ℚ
  linear_acceleration : Nat → ℚ
  orientation_covariance : Nat → ℚ
  linear_acceleration_convariance : Nat → ℚ
  angular_velocity_convariance : Nat → ℚ

/-- Message `geometry_msgs::Vector3`. -/
structure Vector3Msg where
  x : ℚ
  y : ℚ
  z : ℚ
deriving DecidableEq, Repr

/-- Message `sensor_msgs::Imu` without its header. -/
structure ImuMsg where
  orientation : Quat
  orientation_covariance : List ℚ
  angular_velocity : Vector3Msg
  angular_velocity_covariance : List ℚ
  linear_acceleration : Vector3Msg
  linear_acceleration_covariance : List ℚ
deriving DecidableEq, Repr

/-- A default-constructed `sensor_msgs::Imu`: every number is zero. -/
def ImuMsg.default : ImuMsg :=
  { orientation := ⟨0, 0, 0, 0⟩
    orientation_covariance := List.replicate 9 0
    angular_velocity := ⟨0, 0, 0⟩
    angular_velocity_covariance := List.replicate 9 0
    linear_acceleration := ⟨0, 0, 0⟩
    linear_acceleration_covariance := List.replicate 9 0 }

/-- The tf2 quaternion operations used by `imuPubCallback`, taken as parameters. -/
structure Tf2Quat (Rot : Type) where
  /-- Method `tf2::Transform::getRotation`: the quaternion of a basis. -/
  getRotation : Rot → Quat
  /-- Operator `tf2::Quaternion::operator*`. -/
  mul : Quat → Quat → Quat
  /-- Method `tf2::Quaternion::inverse`. -/
  inverse : Quat → Quat

/-- Effects of `imuPubCallback`, in program order. -/
inductive ImuEvent (V Rot : Type) where
  /-- Call `pub_imu.publish(imu_msg)`. -/
  | publishImu (msg : ImuMsg)
  /-- Call `pub_imu_raw.publish(imu_raw_msg)`. -/
  | publishImuRaw (msg : ImuMsg)
  /-- Call `publishImuFrame`: broadcast of the base -> imu frame. -/
  | publishImuFrame (tf : Transform V Rot)
deriving DecidableEq, Repr

/-- The values taken by `i` in `for (int i = 0; i < bound; i += step)`. -/
def for_indices (bound step : Nat) : List Nat :=
  (List.range bound).filter fun i => i % step = 0

section Imu

variable {V Rot : Type}

/-- One pass of the covariance loop (lines 963-976 and 994-1003) on one 3x3 array:
`out[i*3+0] = in.r[i*3+x_idx]`, `out[i*3+1] = in.r[i*3+y_idx]`,
`out[i*3+2] = in.r[i*3+z_idx]`. -/
def cov_pass (s : State V Rot) (inp : Nat → ℚ) (out : List ℚ) (i : Nat) : List ℚ :=
  ((out.set (i * 3 + 0) (inp (i * 3 + s.x_idx))).set (i * 3 + 1) (inp (i * 3 + s.y_idx))).set
    (i * 3 + 2) (inp (i * 3 + s.z_idx))

/-- The covariance loop `for(int i = 0; i < 3; i+=3)` on one 3x3 array.  The source fills
the three arrays of a message in the same loop; they do not interact. -/
def cov_loop (s : State V Rot) (inp : Nat → ℚ) (out : List ℚ) : List ℚ :=
  (for_indices 3 3).foldl (cov_pass s inp) out

/-- The remapped IMU orientation (lines 950-953 and 1032-1035). -/
def imu_orientation (s : State V Rot) (d : IMUData) : Quat :=
  { x := s.x_sign * d.orientation s.x_idx
    y := s.y_sign * d.orientation s.y_idx
    z := s.z_sign * d.orientation s.z_idx
    w := d.orientation 3 }

/-- The remapped angular velocity (lines 955-957 and 986-988). -/
def imu_angular_velocity (s : State V Rot) (d : IMUData) : Vector3Msg :=
  { x := s.x_sign * d.angular_velocity s.x_idx
    y := s.y_sign * d.angular_velocity s.y_idx
    z := s.z_sign * d.angular_velocity s.z_idx }

/-- The remapped linear acceleration (lines 959-961 and 990-992). -/
def imu_linear_acceleration (s : State V Rot) (d : IMUData) : Vector3Msg :=
  { x := s.x_sign * d.linear_acceleration s.x_idx
    y := s.y_sign * d.linear_acceleration s.y_idx
    z := s.z_sign * d.linear_acceleration s.z_idx }

/-- The message `imu_msg` built in `imuPubCallback` (lines 946-976). -/
def imu_msg (s : State V Rot) (d : IMUData) : ImuMsg :=
  let m := ImuMsg.default
  { m with
    orientation := imu_orientation s d
    angular_velocity := imu_angular_velocity s d
    linear_acceleration := imu_linear_acceleration s d
    orientation_covariance := cov_loop s d.orientation_covariance m.orientation_covariance
    linear_acceleration_covariance :=
      cov_loop s d.linear_acceleration_convariance m.linear_acceleration_covariance
    angular_velocity_covariance :=
      cov_loop s d.angular_velocity_convariance m.angular_velocity_covariance }

/-- The message `imu_raw_msg` built in `imuPubCallback` (lines 982-1005). -/
def imu_raw_msg (s : State V Rot) (d : IMUData) : ImuMsg :=
  let m := ImuMsg.default
  let m1 := { m with
    angular_velocity := imu_angular_velocity s d
    linear_acceleration := imu_linear_acceleration s d
    linear_acceleration_covariance :=
      cov_loop s d.linear_acceleration_convariance m.linear_acceleration_covariance
    angular_velocity_covariance :=
      cov_loop s d.angular_velocity_convariance m.angular_velocity_covariance }
  { m1 with orientation_covariance := m1.orientation_covariance.set 0 (-1) }

/-- The transform `imu_pose` broadcast by `imuPubCallback` (lines 1014-1045); `b2m` is the
result of the tf lookup map <- base, `none` when it throws. -/
def imu_pose [Group Rot] [AddGroup V] [DistribMulAction Rot V] (lib : Tf2 V Rot)
    (ql : Tf2Quat Rot) (s : State V Rot) (d : IMUData) (b2m : Option (Transform V Rot)) :
    Transform V Rot :=
  let base_to_map : Transform V Rot :=
    match b2m with
    | some tf => tf
    | none => Transform.identity
  let imu_q := imu_orientation s d
  let map_q := ql.getRotation base_to_map.basis
  let delta_q := ql.mul imu_q (ql.inverse map_q)
  Transform.setRotation lib Transform.identity delta_q

/-- Method `ZEDWrapperNodelet::imuPubCallback` (lines 931-1050). -/
def imuPubCallback [Group Rot] [AddGroup V] [DistribMulAction Rot V] (lib : Tf2 V Rot)
    (ql : Tf2Quat Rot) (s : State V Rot) (imu_SubNumber imu_RawSubNumber : Int)
    (imu_data : IMUData) (b2m : Option (Transform V Rot)) : List (ImuEvent V Rot) :=
  if imu_SubNumber < 1 ∧ imu_RawSubNumber < 1 then []
  else
    (if imu_SubNumber > 0 then [ImuEvent.publishImu (imu_msg s imu_data)] else [])
    ++ (if imu_RawSubNumber > 0 then [ImuEvent.publishImuRaw (imu_raw_msg s imu_data)]
        else [])
    ++ (if s.publish_tf then [ImuEvent.publishImuFrame (imu_pose lib ql s imu_data b2m)]
        else [])

end Imu

/-! ## Camera information and reconfiguration -/

/-- Class `sl::CameraParameters` as read by `fillCamInfo`. -/
structure CameraParameters where
  fx : ℚ
  fy : ℚ
  cx : ℚ
  cy : ℚ
  disto : Nat → ℚ

/-- Class `sl::CalibrationParameters` as read by `fillCamInfo`: the two cameras, the
translation `T` and the rotation vector `R`. -/
structure CalibrationParameters where
  left_cam : CameraParameters
  right_cam : CameraParameters
  T : Nat → ℚ
  R : Nat → ℚ

/-- Class `sl::CameraInformation`: rectified and raw calibration. -/
structure CameraInformation where
  calibration_parameters : CalibrationParameters
  calibration_parameters_raw : CalibrationParameters

/-- Field `distortion_model` of a camera-info message: empty, or `PLUMB_BOB`. -/
inductive DistortionModel where
  | unset
  | plumb_bob
deriving DecidableEq, Repr

/-- Message `sensor_msgs::CameraInfo` without its header. -/
structure CameraInfo where
  distortion_model : DistortionModel
  D : List ℚ
  K : List ℚ
  R : List ℚ
  P : List ℚ
  width : Int
  height : Int
deriving DecidableEq, Repr

/-- A default-constructed `sensor_msgs::CameraInfo`. -/
def CameraInfo.default : CameraInfo :=
  { distortion_model := DistortionModel.unset
    D := []
    K := List.replicate 9 0
    R := List.replicate 9 0
    P := List.replicate 12 0
    width := 0
    height := 0 }

/-- The camera-info messages held by the node.  A pointer is modelled by the message it
points to; the assignments that make the rgb and depth pointers share the left message
are copies. -/
structure CamInfoMsgs where
  left_cam_info_msg : CameraInfo
  right_cam_info_msg : CameraInfo
  left_cam_info_raw_msg : CameraInfo
  right_cam_info_raw_msg : CameraInfo
  rgb_cam_info_msg : CameraInfo
  rgb_cam_info_raw_msg : CameraInfo
  depth_cam_info_msg : CameraInfo
deriving DecidableEq, Repr

/-- Generated type `zed_wrapper::ZedConfig` as read by `dynamicReconfCallback`. -/
structure ZedConfig where
  confidence : Int
  exposure : Int
  gain : Int
  auto_exposure : Bool
  mat_resize_factor : ℚ
  brightness : Int
  contrast : Int
  hue : Int
  saturation : Int
  whitebalance : Int
  auto_whitebalance : Bool

/-- What `dynamicReconfCallback` leaves behind: the members, the camera-info messages, and
the SDK calls with an effect that it made. -/
structure Reconfigured (V Rot : Type) where
  state : State V Rot
  infos : CamInfoMsgs
  events : List (Event V Rot)

/-- Method `std::vector::resize(n)` on a vector of numbers: cut, or fill with zeros. -/
def resize (l : List ℚ) (n : Nat) : List ℚ :=
  (l ++ List.replicate n 0).take n

section CamInfo

variable {V Rot : Type}

/-- Method `ZEDWrapperNodelet::fillCamInfo` (lines 784-860) on the two pointed-to messages.
`zed` is `zed.getCameraInformation(sl::Resolution(width, height))` and `convertRodrigues`
gives the nine floats of `sl_tools::convertRodrigues`; both are parameters. -/
def fillCamInfo (convertRodrigues : (Nat → ℚ) → Nat → ℚ) (s : State V Rot)
    (zed : Int → Int → CameraInformation) (left_cam_info_msg right_cam_info_msg : CameraInfo)
    (raw_param : Bool) : CameraInfo × CameraInfo :=
  let zedParam :=
    if raw_param then (zed s.mat_width s.mat_height).calibration_parameters_raw
    else (zed s.mat_width s.mat_height).calibration_parameters
  let baseline := zedParam.T 0
  let lD := (((((resize left_cam_info_msg.D 5).set 0 (zedParam.left_cam.disto 0)).set 1
    (zedParam.left_cam.disto 1)).set 2 (zedParam.left_cam.disto 4)).set 3
    (zedParam.left_cam.disto 2)).set 4 (zedParam.left_cam.disto 3)
  let rD := (((((resize right_cam_info_msg.D 5).set 0 (zedParam.right_cam.disto 0)).set 1
    (zedParam.right_cam.disto 1)).set 2 (zedParam.right_cam.disto 4)).set 3
    (zedParam.right_cam.disto 2)).set 4 (zedParam.right_cam.disto 3)
  let lK := (((((List.replicate 9 (0 : ℚ)).set 0 zedParam.left_cam.fx).set 2
    zedParam.left_cam.cx).set 4 zedParam.left_cam.fy).set 5 zedParam.left_cam.cy).set 8 1
  let rK := (((((List.replicate 9 (0 : ℚ)).set 8 1).set 0 zedParam.right_cam.fx).set 2
    zedParam.right_cam.cx).set 4 zedParam.right_cam.fy).set 5 zedParam.right_cam.cy
  let identityR := (for_indices 3 1).foldl (fun r i => r.set (i + i * 3) 1)
    (List.replicate 9 (0 : ℚ))
  let lR := identityR
  let rR :=
    if raw_param then
      (for_indices 9 1).foldl (fun r i => r.set i (convertRodrigues zedParam.R i)) identityR
    else identityR
  let lP := (((((List.replicate 12 (0 : ℚ)).set 0 zedParam.left_cam.fx).set 2
    zedParam.left_cam.cx).set 5 zedParam.left_cam.fy).set 6 zedParam.left_cam.cy).set 10 1
  let rP := ((((((List.replicate 12 (0 : ℚ)).set 10 1).set 3
    (-1 * zedParam.left_cam.fx * baseline)).set 0 zedParam.right_cam.fx).set 2
    zedParam.right_cam.cx).set 5 zedParam.right_cam.fy).set 6 zedParam.right_cam.cy
  ({ distortion_model := DistortionModel.plumb_bob, D := lD, K := lK, R := lR, P := lP,
     width := s.mat_width, height := s.mat_height },
   { distortion_model := DistortionModel.plumb_bob, D := rD, K := rK, R := rR, P := rP,
     width := s.mat_width, height := s.mat_height })

/-- The resize case of `dynamicReconfCallback` (lines 883-898).  `scaled w f` is
`static_cast<int>(w * f)`, the product of an `int` and a `double` formed in double
arithmetic and converted to `int`: a parameter, since neither the rounding of the product
nor the range of `int` is that of exact rationals. -/
def reconf_resize (convertRodrigues : (Nat → ℚ) → Nat → ℚ)
    (zed : Int → Int → CameraInformation) (scaled : Int → ℚ → Int) (config : ZedConfig)
    (s : State V Rot) (m : CamInfoMsgs) : Reconfigured V Rot :=
  let s1 := { s with mat_resize_factor := config.mat_resize_factor }
  let s2 := { s1 with mat_width := scaled s1.cam_width s1.mat_resize_factor }
  let s3 := { s2 with mat_height := scaled s2.cam_height s2.mat_resize_factor }
  let rect := fillCamInfo convertRodrigues s3 zed m.left_cam_info_msg m.right_cam_info_msg
    false
  let raw := fillCamInfo convertRodrigues s3 zed m.left_cam_info_raw_msg
    m.right_cam_info_raw_msg true
  { state := s3
    infos :=
      { left_cam_info_msg := rect.1
        right_cam_info_msg := rect.2
        left_cam_info_raw_msg := raw.1
        right_cam_info_raw_msg := raw.2
        rgb_cam_info_msg := rect.1
        depth_cam_info_msg := rect.1
        rgb_cam_info_raw_msg := raw.1 }
    events := [] }

/-- Method `ZEDWrapperNodelet::dynamicReconfCallback` (lines 862-929).  No case of the
switch calls the SDK with an effect; the resize case reads the camera information. -/
def dynamicReconfCallback (convertRodrigues : (Nat → ℚ) → Nat → ℚ)
    (zed : Int → Int → CameraInformation) (scaled : Int → ℚ → Int) (config : ZedConfig)
    (level : Nat) (s : State V Rot) (m : CamInfoMsgs) : Reconfigured V Rot :=
  match level with
  | 0 => { state := { s with confidence := config.confidence }, infos := m, events := [] }
  | 1 => { state := { s with exposure := config.exposure }, infos := m, events := [] }
  | 2 => { state := { s with gain := config.gain }, infos := m, events := [] }
  | 3 =>
    let s1 := { s with autoExposure := config.auto_exposure }
    { state := if s1.autoExposure then { s1 with triggerAutoExposure := true } else s1
      infos := m
      events := [] }
  | 4 => reconf_resize convertRodrigues zed scaled config s m
  | 5 => { state := { s with brightness := config.brightness }, infos := m, events := [] }
  | 6 => { state := { s with contrast := config.contrast }, infos := m, events := [] }
  | 7 => { state := { s with hue := config.hue }, infos := m, events := [] }
  | 8 => { state := { s with saturation := config.saturation }, infos := m, events := [] }
  | 9 => { state := { s with whitebalance := config.whitebalance }, infos := m, events := [] }
  | 10 =>
    let s1 := { s with autoWhitebalance := config.auto_whitebalance }
    { state :=
        if s1.autoWhitebalance then { s1 with triggerAutoWhitebalance := true } else s1
      infos := m
      events := [] }
  | _ => { state := s, infos := m, events := [] }

end CamInfo

/-! ## Disparity -/

/-- Message `stereo_msgs::DisparityImage` without its image and header. -/
structure DisparityImage where
  f : ℚ
  T : ℚ
  min_disparity : ℚ
  max_disparity : ℚ
deriving DecidableEq, Repr

/-- Method `ZEDWrapperNodelet::publishDisparity` (lines 701-713): the message handed to
`pub_disparity`.  `zed` is `zed.getCameraInformation(sl::Resolution(width, height))`, the
two ranges are `zed.getDepthMaxRangeValue()` and `zed.getDepthMinRangeValue()`, and `T.x`
is component 0 of the translation. -/
def publishDisparity {V Rot : Type} (s : State V Rot) (zed : Int → Int → CameraInformation)
    (depthMaxRangeValue depthMinRangeValue : ℚ) : DisparityImage :=
  let zedParam := zed s.mat_width s.mat_height
  let f := zedParam.calibration_parameters.left_cam.fx
  let T := zedParam.calibration_parameters.T 0
  { f := f
    T := T
    min_disparity := f * T / depthMaxRangeValue
    max_disparity := f * T / depthMinRangeValue }

/-! ## Settings at start-up, and the node between reconfigurations and iterations -/

/-- What the parameter server holds for the settings read in `onInit` (lines 376-388);
`none` for a parameter that is not set, which leaves the member as it is. -/
structure SettingsParams where
  brightness : Option Int
  contrast : Option Int
  hue : Option Int
  saturation : Option Int
  confidence : Option Int
  exposure : Option Int
  gain : Option Int
  auto_exposure : Option Bool
  whitebalance : Option Int
  auto_whitebalance : Option Bool

/-- The settings part of `ZEDWrapperNodelet::onInit` (lines 376-389). -/
def onInit_settings {V Rot : Type} (s : State V Rot) (p : SettingsParams) : State V Rot :=
  let s1 := { s with
    brightness := p.brightness.getD s.brightness
    contrast := p.contrast.getD s.contrast
    hue := p.hue.getD s.hue
    saturation := p.saturation.getD s.saturation
    confidence := p.confidence.getD s.confidence
    exposure := p.exposure.getD s.exposure
    gain := p.gain.getD s.gain
    autoExposure := p.auto_exposure.getD s.autoExposure }
  let s2 := if s1.autoExposure then { s1 with triggerAutoExposure := true } else s1
  let s3 := { s2 with
    whitebalance := p.whitebalance.getD s2.whitebalance
    autoWhitebalance := p.auto_whitebalance.getD s2.autoWhitebalance }
  if s3.autoWhitebalance then { s3 with triggerAutoWhitebalance := true } else s3

/-- Is the event the call `zed.setCameraSettings(setting, 0, true)` that switches `setting`
to automatic control? -/
def Event.isAutoSwitch {V Rot : Type} (setting : Setting) : Event V Rot → Bool
  | Event.setCameraSettings k value use_default =>
    decide (k = setting) && decide (value = 0) && use_default
  | _ => false

/-- What reaches the node after start-up, taken one at a time: a reconfiguration request
handled by `dynamicReconfCallback`, or one iteration of the loop of `device_poll`. -/
inductive NodeEvent (V Rot : Type) where
  | reconfigure (config : ZedConfig) (level : Nat)
  | tick (i : TickInput V Rot)

/-- The node between two such events: the members, the camera-info messages, and whether
the loop of `device_poll` is still running. -/
structure Node (V Rot : Type) where
  state : State V Rot
  infos : CamInfoMsgs
  polling : Bool

/-- Is the event a reconfiguration request, or an iteration that is active and whose grab
succeeds? -/
def NodeEvent.grabSucceeds {V Rot : Type} : NodeEvent V Rot → Bool
  | NodeEvent.reconfigure _ _ => true
  | NodeEvent.tick i => i.subs.runLoop && decide (i.grab_status = GrabStatus.success)

section NodeRun

variable {V Rot : Type}

/-- One event on the node, with the effects it records.  An iteration is run only while
the loop goes on. -/
def node_step [Group Rot] [AddGroup V] [DistribMulAction Rot V] (lib : Tf2 V Rot)
    (convertRodrigues : (Nat → ℚ) → Nat → ℚ) (zed : Int → Int → CameraInformation)
    (scaled : Int → ℚ → Int) (n : Node V Rot) :
    NodeEvent V Rot → Node V Rot × List (Event V Rot)
  | NodeEvent.reconfigure config level =>
    ({ n with
        state :=
          (dynamicReconfCallback convertRodrigues zed scaled config level n.state
            n.infos).state
        infos :=
          (dynamicReconfCallback convertRodrigues zed scaled config level n.state
            n.infos).infos },
      (dynamicReconfCallback convertRodrigues zed scaled config level n.state n.infos).events)
  | NodeEvent.tick i =>
    if n.polling then
      ({ n with
          state := (device_poll_tick lib n.state i).state
          polling := decide ((device_poll_tick lib n.state i).flow = Flow.next) },
        (device_poll_tick lib n.state i).events)
    else (n, [])

/-- A sequence of events on the node: after each event, the node and the effects of that
event. -/
def node_run [Group Rot] [AddGroup V] [DistribMulAction Rot V] (lib : Tf2 V Rot)
    (convertRodrigues : (Nat → ℚ) → Nat → ℚ) (zed : Int → Int → CameraInformation)
    (scaled : Int → ℚ → Int) :
    Node V Rot → List (NodeEvent V Rot) → List (Node V Rot × List (Event V Rot))
  | _, [] => []
  | n, e :: rest =>
    node_step lib convertRodrigues zed scaled n e
      :: node_run lib convertRodrigues zed scaled
          (node_step lib convertRodrigues zed scaled n e).1 rest

/-- How often each event of a run switches `setting` to automatic control. -/
def auto_switch_counts (setting : Setting) (run : List (Node V Rot × List (Event V Rot))) :
    List Nat :=
  run.map fun r => (r.2.filter (Event.isAutoSwitch setting)).length

/-- The latch rule in words: a reconfiguration of the given level stores the requested
flag and, when the flag is true, sets the latch, whatever the flag was before; an
iteration with a successful grab switches to automatic control, once, when the flag is true
and the latch is set, and then clears the latch; nothing else touches either.  The result
lists, per event, how many switches it makes. -/
def latch_rule (level : Nat) (flag : ZedConfig → Bool) :
    Bool × Bool → List (NodeEvent V Rot) → List Nat
  | _, [] => []
  | (auto, latch), NodeEvent.reconfigure config l :: rest =>
    0 :: latch_rule level flag
      (if l = level then (flag config, latch || flag config) else (auto, latch)) rest
  | (auto, latch), NodeEvent.tick _ :: rest =>
    (if auto && latch then 1 else 0) :: latch_rule level flag (auto, latch && !auto) rest

end NodeRun

/-! ## A small concrete model

Rotations are the two units of the integers, acting on rational vectors by their sign.
It serves to evaluate the definitions on concrete inputs. -/

namespace Demo

/-- Rotations of the model. -/
abbrev Rot : Type := ℤˣ

/-- Vectors of the model. -/
abbrev Vec : Type := ℚ × ℚ × ℚ

/-- Library operations of the model. -/
def lib : Tf2 Vec Rot where
  vector3 := fun x y z => (x, y, z)
  setRPY := fun r p y => ⟨r, p, y, 1⟩
  rotation := fun q => if q.w < 0 then -1 else 1

/-- A state as left by start-up with the newest coordinate convention: tracking off,
no depth stabilization, frames broadcast, initial pose zero. -/
def state : State Vec Rot where
  x_idx := 0
  y_idx := 1
  z_idx := 2
  x_sign := 1
  y_sign := 1
  z_sign := 1
  depth_stabilization := false
  publish_tf := true
  camera_linux_id := 0
  tracking_activated := false
  initial_track_pose := [0, 0, 0, 0, 0, 0]
  initial_pose_sl := SlTransform.identity
  base_to_odom_transform := 1
  odom_to_map_transform := 1
  confidence := 80
  exposure := 0
  gain := 0
  brightness := 4
  contrast := 4
  hue := 0
  saturation := 4
  whitebalance := 42
  autoExposure := true
  autoWhitebalance := true
  triggerAutoExposure := false
  triggerAutoWhitebalance := false
  mat_resize_factor := 1
  cam_width := 1280
  cam_height := 720
  mat_width := 1280
  mat_height := 720
  computeDepth := false
  grabbing := false
  old_t := 0
  imu_time := 0
  point_cloud_time := 0

/-- The same state with tracking running. -/
def tracking : State Vec Rot :=
  { state with tracking_activated := true }

/-- One subscriber on the point-cloud channel, none elsewhere. -/
def cloudOnly : Subs := { Subs.zero with cloud := 1 }

/-- One subscriber on the odometry channel, none elsewhere. -/
def odomOnly : Subs := { Subs.zero with odom := 1 }

/-- One subscriber on the pose channel, none elsewhere. -/
def poseOnly : Subs := { Subs.zero with pose := 1 }

/-- An SDK pose: translation `(1, 2, 3)`, orientation `(0, 0, 0, 1)`. -/
def pose : SlPose where
  translation := fun k => k + 1
  orientation := fun k => if k = 3 then 1 else 0

/-- A tick input with the given subscriber counts, grab result and image time; the camera
reports the desired settings, the tf lookup fails, and one re-open pass succeeds. -/
def input (n : Subs) (st : GrabStatus) (t : Int) : TickInput Vec Rot where
  subs := n
  t := t
  actual_confidence := 80
  grab_status := st
  attempts := [⟨true, 1, true⟩]
  now := t
  actual_exposure := 0
  actual_gain := 0
  actual_brightness := 4
  actual_contrast := 4
  actual_hue := 0
  actual_saturation := 4
  actual_whitebalance := 42
  s2b := none
  deltaOdom := pose
  zed_pose := pose

/-- Two successful ticks, the first with an odometry subscriber, the second with a pose
subscriber. -/
def twoTicks : List (TickInput Vec Rot) :=
  [input odomOnly GrabStatus.success 1000000000,
    input poseOnly GrabStatus.success 2000000000]

/-- One subscriber each on the point-cloud and disparity channels, none elsewhere. -/
def cloudAndDisparity : Subs := { Subs.zero with cloud := 1, disparity := 1 }

/-- A successful grab with only the pose channel subscribed. -/
def poseTick : TickInput Vec Rot := input poseOnly GrabStatus.success 1000000000

/-- A successful grab with only the odometry channel subscribed. -/
def odomTick : TickInput Vec Rot := input odomOnly GrabStatus.success 1000000000

/-- An iteration without any subscriber. -/
def idleTick : TickInput Vec Rot := input Subs.zero GrabStatus.success 1000000000

/-- A grab that returns "not a new frame" one second after the last successful one, with
only the pose channel subscribed. -/
def freshNoFramePose : TickInput Vec Rot := input poseOnly GrabStatus.notANewFrame 1000000000

/-- A configured initial pose: translation `(1, 2, 3)`, no rotation. -/
def configuredPose : List ℚ := [1, 2, 3, 0, 0, 0]

/-- A successful grab with only the point-cloud channel subscribed. -/
def cloudTick : TickInput Vec Rot := input cloudOnly GrabStatus.success 1000000000

/-- A failed grab, ten seconds after the last successful one, with only the point-cloud
channel subscribed; the first re-open pass succeeds. -/
def staleFailure : TickInput Vec Rot := input cloudOnly GrabStatus.failure 10000000000

/-- A successful grab with the point-cloud and disparity channels subscribed. -/
def cloudDisparityTick : TickInput Vec Rot := input cloudAndDisparity GrabStatus.success 1000000000

/-- A grab that returns "not a new frame" ten seconds after the last successful one, with
only the pose channel subscribed. -/
def staleNoFrame : TickInput Vec Rot := input poseOnly GrabStatus.notANewFrame 10000000000

/-- A grab that returns "not a new frame" one second after the last successful one, with
only the point-cloud channel subscribed. -/
def freshNoFrame : TickInput Vec Rot := input cloudOnly GrabStatus.notANewFrame 1000000000

/-- A state whose initial pose vector has three entries and whose `base_to_odom` has
moved to `(1, 2, 3)`. -/
def shortPose : State Vec Rot :=
  { state with initial_track_pose := [0, 0, 0], base_to_odom_transform := ⟨1, (1, 2, 3)⟩ }

/-- An IMU sample: orientation `(0, 0, 0, 1)`, vectors `(1, 2, 3)`, and covariance arrays
holding `1 .. 9` row by row. -/
def imuData : IMUData where
  orientation := fun k => [0, 0, 0, 1].getD k 0
  angular_velocity := fun k => [1, 2, 3].getD k 0
  linear_acceleration := fun k => [1, 2, 3].getD k 0
  orientation_covariance := fun k => [1, 2, 3, 4, 5, 6, 7, 8, 9].getD k 0
  linear_acceleration_convariance := fun k => [1, 2, 3, 4, 5, 6, 7, 8, 9].getD k 0
  angular_velocity_convariance := fun k => [1, 2, 3, 4, 5, 6, 7, 8, 9].getD k 0

/-- Quaternion operations of the model: the Hamilton product, the conjugate as inverse,
and a unit quaternion for each of the two rotations. -/
def quatLib : Tf2Quat Rot where
  getRotation := fun r => if r = 1 then ⟨0, 0, 0, 1⟩ else ⟨1, 0, 0, 0⟩
  mul := fun a b =>
    ⟨a.w * b.x + a.x * b.w + a.y * b.z - a.z * b.y,
      a.w * b.y + a.y * b.w + a.z * b.x - a.x * b.z,
      a.w * b.z + a.z * b.w + a.x * b.y - a.y * b.x,
      a.w * b.w - a.x * b.x - a.y * b.y - a.z * b.z⟩
  inverse := fun q => ⟨-q.x, -q.y, -q.z, q.w⟩

/-- Camera parameters of the model. -/
def cameraParameters : CameraParameters where
  fx := 700
  fy := 700
  cx := 640
  cy := 360
  disto := fun k => [1, 2, 3, 4, 5].getD k 0

/-- Calibration of the model, the same at every resolution, rectified and raw. -/
def camera : Int → Int → CameraInformation := fun _ _ =>
  { calibration_parameters :=
      { left_cam := cameraParameters, right_cam := cameraParameters,
        T := fun k => [120, 0, 0].getD k 0, R := fun _ => 0 }
    calibration_parameters_raw :=
      { left_cam := cameraParameters, right_cam := cameraParameters,
        T := fun k => [120, 0, 0].getD k 0, R := fun _ => 0 } }

/-- Rotation-vector conversion of the model: the identity matrix. -/
def convertRodrigues : (Nat → ℚ) → Nat → ℚ := fun _ k => [1, 0, 0, 0, 1, 0, 0, 0, 1].getD k 0

/-- Default-constructed camera-info messages. -/
def camInfos : CamInfoMsgs :=
  ⟨CameraInfo.default, CameraInfo.default, CameraInfo.default, CameraInfo.default,
    CameraInfo.default, CameraInfo.default, CameraInfo.default⟩

/-- A reconfiguration request that differs from the state of the model only by its
resize factor. -/
def config (f : ℚ) : ZedConfig where
  confidence := 80
  exposure := 0
  gain := 0
  auto_exposure := true
  mat_resize_factor := f
  brightness := 4
  contrast := 4
  hue := 0
  saturation := 4
  whitebalance := 42
  auto_whitebalance := true

/-- Tracking off, with `odom_to_map` left at `(1, 2, 3)` by an earlier session. -/
def movedMap : State Vec Rot :=
  { state with odom_to_map_transform := ⟨1, (1, 2, 3)⟩ }

/-- Tracking running, with `odom_to_map` at `(1, 2, 3)`. -/
def trackingMoved : State Vec Rot :=
  { tracking with odom_to_map_transform := ⟨1, (1, 2, 3)⟩ }

/-- A parameter server that holds the settings of the model state, both automatic controls
on. -/
def params : SettingsParams where
  brightness := some 4
  contrast := some 4
  hue := some 0
  saturation := some 4
  confidence := some 80
  exposure := some 0
  gain := some 0
  auto_exposure := some true
  whitebalance := some 42
  auto_whitebalance := some true

/-- The node after start-up with these parameters: both latches set. -/
def node : Node Vec Rot :=
  ⟨onInit_settings state params, camInfos, true⟩

/-- The node after start-up with automatic exposure control off. -/
def manualNode : Node Vec Rot :=
  ⟨onInit_settings state { params with auto_exposure := some false }, camInfos, true⟩

/-- A request that asks for manual exposure control. -/
def manualConfig : ZedConfig := { config 1 with auto_exposure := false }

/-- A successful iteration, a level-3 request for automatic exposure while it is already
automatic, and a second successful iteration. -/
def repeatedRequest : List (NodeEvent Vec Rot) :=
  [NodeEvent.tick poseTick, NodeEvent.reconfigure (config 1) 3, NodeEvent.tick poseTick]

/-- A level-3 request for automatic exposure, a level-3 request back to manual, and a
successful iteration. -/
def withdrawnRequest : List (NodeEvent Vec Rot) :=
  [NodeEvent.reconfigure (config 1) 3, NodeEvent.reconfigure manualConfig 3,
    NodeEvent.tick poseTick]

/-- Tracking running, an initial pose vector of three entries, `base_to_odom` at
`(1, 2, 3)`. -/
def shortTracking : State Vec Rot :=
  { shortPose with tracking_activated := true }

/-- Scaling of the model: the exact product, rounded down. -/
def scaled : Int → ℚ → Int := fun w f => ⌊(w : ℚ) * f⌋

end Demo


/-! ## Shape of the state after each block -/

section StateLemmas

variable {V Rot : Type}

theorem apply_exposure_state (s : State V Rot) (i : TickInput V Rot) :
    (apply_exposure s i).state
      = { s with triggerAutoExposure := s.triggerAutoExposure && !s.autoExposure } := by
  cases s
  unfold apply_exposure
  split_ifs <;> simp_all

theorem apply_whitebalance_state (s : State V Rot) (i : TickInput V Rot) :
    (apply_whitebalance s i).state
      = { s with
          triggerAutoWhitebalance := s.triggerAutoWhitebalance && !s.autoWhitebalance } := by
  cases s
  unfold apply_whitebalance
  split_ifs <;> simp_all

theorem publish_cloud_state (s : State V Rot) (i : TickInput V Rot) :
    (publish_cloud s i).state
      = { s with
          point_cloud_time := if i.subs.cloud > 0 then i.t else s.point_cloud_time } := by
  cases s
  unfold publish_cloud
  split_ifs <;> simp_all

theorem publish_frames_state (s : State V Rot) (i : TickInput V Rot) :
    (publish_frames s i).state
      = { s with imu_time := if s.publish_tf then i.t else s.imu_time } := by
  cases s
  unfold publish_frames
  split_ifs <;> simp_all

theorem grab_call_state (s : State V Rot) (i : TickInput V Rot) :
    (grab_call s i).state = { s with computeDepth := i.subs.needDepth, grabbing := false } :=
  rfl

theorem remapPose_congr (s s' : State V Rot) (p : SlPose)
    (h1 : s'.x_idx = s.x_idx) (h2 : s'.y_idx = s.y_idx) (h3 : s'.z_idx = s.z_idx)
    (h4 : s'.x_sign = s.x_sign) (h5 : s'.y_sign = s.y_sign) (h6 : s'.z_sign = s.z_sign) :
    remapPose s' p = remapPose s p := by
  simp [remapPose, h1, h2, h3, h4, h5, h6]

variable [Group Rot] [AddGroup V] [DistribMulAction Rot V]

theorem start_tracking_state (lib : Tf2 V Rot) (s : State V Rot) :
    (start_tracking lib s).state
      = if s.initial_track_pose.length ≠ 6 then
          { s with
            initial_pose_sl := SlTransform.identity
            odom_to_map_transform := Transform.identity
            tracking_activated := true }
        else
          { set_pose lib s (s.initial_track_pose.getD 0 0) (s.initial_track_pose.getD 1 0)
              (s.initial_track_pose.getD 2 0) (s.initial_track_pose.getD 3 0)
              (s.initial_track_pose.getD 4 0) (s.initial_track_pose.getD 5 0) with
            tracking_activated := true } := by
  unfold start_tracking
  dsimp only
  split_ifs <;> rfl

theorem start_tracking_events (lib : Tf2 V Rot) (s : State V Rot) :
    (start_tracking lib s).events
      = [Event.enableTracking (start_tracking lib s).state.initial_pose_sl] :=
  rfl

theorem remapPose_start_tracking (lib : Tf2 V Rot) (s : State V Rot) (p : SlPose) :
    remapPose (start_tracking lib s).state p = remapPose s p := by
  rw [start_tracking_state]
  split_ifs <;> rfl

theorem remapPose_tracking_switch (lib : Tf2 V Rot) (s : State V Rot) (n : Subs) (p : SlPose) :
    remapPose (tracking_switch lib s n).state p = remapPose s p := by
  unfold tracking_switch
  split_ifs
  · exact remapPose_start_tracking lib s p
  · rfl
  · rfl

/-- State fields after the odometry block. -/
theorem odom_update_state (lib : Tf2 V Rot) (s : State V Rot) (i : TickInput V Rot) :
    (odom_update lib s i).state
      = { s with
          base_to_odom_transform :=
            if i.subs.pose > 0 ∨ i.subs.odom > 0 ∨ i.subs.cloud > 0 ∨ i.subs.depth > 0 then
              s.base_to_odom_transform
                * (sensor_to_base i * fromMsg lib (remapPose s i.deltaOdom)
                    * (sensor_to_base i)⁻¹)
            else s.base_to_odom_transform } := by
  cases s
  by_cases h : i.subs.pose > 0 ∨ i.subs.odom > 0 ∨ i.subs.cloud > 0 ∨ i.subs.depth > 0
  · simp only [odom_update, if_pos h]
  · simp only [odom_update, if_neg h]

/-- State fields after the pose block. -/
theorem pose_update_state (lib : Tf2 V Rot) (s : State V Rot) (i : TickInput V Rot) :
    (pose_update lib s i).state
      = { s with
          odom_to_map_transform :=
            if i.subs.pose > 0 ∨ i.subs.cloud > 0 ∨ i.subs.depth > 0 then
              sensor_to_base i * fromMsg lib (remapPose s i.zed_pose) * (sensor_to_base i)⁻¹
                * s.base_to_odom_transform⁻¹
            else s.odom_to_map_transform } := by
  cases s
  by_cases h : i.subs.pose > 0 ∨ i.subs.cloud > 0 ∨ i.subs.depth > 0
  · simp only [pose_update, if_pos h]
  · simp only [pose_update, if_neg h]

theorem grab_succeeded_state (lib : Tf2 V Rot) (s : State V Rot) (i : TickInput V Rot) :
    (grab_succeeded lib s i).state
      = (publish_frames (pose_update lib (odom_update lib (publish_cloud
          (apply_whitebalance (apply_exposure { s with old_t := i.now } i).state i).state
            i).state i).state i).state i).state :=
  rfl

theorem tick_success_state (lib : Tf2 V Rot) (s : State V Rot) (i : TickInput V Rot)
    (hrun : i.subs.runLoop = true) (hok : i.grab_status = GrabStatus.success) :
    (device_poll_tick lib s i).state
      = (grab_succeeded lib (grab_call (tracking_switch lib s i.subs).state i).state i).state := by
  simp [device_poll_tick, hrun, hok]

/-- After a successful grab, `base_to_odom` is the start value, advanced when the odometry
block runs. -/
theorem grab_succeeded_base_to_odom (lib : Tf2 V Rot) (s : State V Rot) (i : TickInput V Rot) :
    (grab_succeeded lib s i).state.base_to_odom_transform
      = if i.subs.pose > 0 ∨ i.subs.odom > 0 ∨ i.subs.cloud > 0 ∨ i.subs.depth > 0 then
          s.base_to_odom_transform
            * (sensor_to_base i * fromMsg lib (remapPose s i.deltaOdom) * (sensor_to_base i)⁻¹)
        else s.base_to_odom_transform := by
  simp only [grab_succeeded_state, publish_frames_state, pose_update_state, odom_update_state,
    publish_cloud_state, apply_whitebalance_state, apply_exposure_state, remapPose]

/-- After a successful grab with the pose block running, `odom_to_map` is recomputed from
the new `base_to_odom`. -/
theorem grab_succeeded_odom_to_map (lib : Tf2 V Rot) (s : State V Rot) (i : TickInput V Rot)
    (hpose : i.subs.pose > 0 ∨ i.subs.cloud > 0 ∨ i.subs.depth > 0) :
    (grab_succeeded lib s i).state.odom_to_map_transform
      = sensor_to_base i * fromMsg lib (remapPose s i.zed_pose) * (sensor_to_base i)⁻¹
          * ((grab_succeeded lib s i).state.base_to_odom_transform)⁻¹ := by
  rw [grab_succeeded_base_to_odom]
  simp only [grab_succeeded_state, publish_frames_state, pose_update_state, odom_update_state,
    publish_cloud_state, apply_whitebalance_state, apply_exposure_state, if_pos hpose, remapPose]

theorem remapPose_pre_grab (lib : Tf2 V Rot) (s : State V Rot) (i : TickInput V Rot)
    (p : SlPose) :
    remapPose (grab_call (tracking_switch lib s i.subs).state i).state p = remapPose s p :=
  (remapPose_congr _ _ _ rfl rfl rfl rfl rfl rfl).trans
    (remapPose_tracking_switch lib s i.subs _)

/-- In a successful tick `base_to_odom` is the value left by the tracking switch, advanced
by the conjugated incremental pose when the odometry block runs. -/
theorem tick_base_to_odom (lib : Tf2 V Rot) (s : State V Rot) (i : TickInput V Rot)
    (hrun : i.subs.runLoop = true) (hok : i.grab_status = GrabStatus.success) :
    (device_poll_tick lib s i).state.base_to_odom_transform
      = if i.subs.pose > 0 ∨ i.subs.odom > 0 ∨ i.subs.cloud > 0 ∨ i.subs.depth > 0 then
          (tracking_switch lib s i.subs).state.base_to_odom_transform
            * (sensor_to_base i * fromMsg lib (remapPose s i.deltaOdom) * (sensor_to_base i)⁻¹)
        else (tracking_switch lib s i.subs).state.base_to_odom_transform := by
  rw [tick_success_state lib s i hrun hok, grab_succeeded_base_to_odom, remapPose_pre_grab]
  rfl

/-- The value of `base_to_odom` after the tracking switch does not depend on
`odom_to_map`. -/
theorem tracking_switch_base_to_odom_indep (lib : Tf2 V Rot) (s : State V Rot) (n : Subs)
    (m : Transform V Rot) :
    (tracking_switch lib { s with odom_to_map_transform := m } n).state.base_to_odom_transform
      = (tracking_switch lib s n).state.base_to_odom_transform := by
  simp only [tracking_switch, start_tracking_state]
  split_ifs <;> rfl

theorem tick_success_flow (lib : Tf2 V Rot) (s : State V Rot) (i : TickInput V Rot)
    (hrun : i.subs.runLoop = true) (hok : i.grab_status = GrabStatus.success) :
    (device_poll_tick lib s i).flow = Flow.next := by
  simp [device_poll_tick, hrun, hok]

theorem tick_success_events (lib : Tf2 V Rot) (s : State V Rot) (i : TickInput V Rot)
    (hrun : i.subs.runLoop = true) (hok : i.grab_status = GrabStatus.success) :
    (device_poll_tick lib s i).events
      = (tracking_switch lib s i.subs).events
        ++ (grab_call (tracking_switch lib s i.subs).state i).events
        ++ (grab_succeeded lib (grab_call (tracking_switch lib s i.subs).state i).state i).events := by
  simp [device_poll_tick, hrun, hok]

theorem remapPose_grab_succeeded (lib : Tf2 V Rot) (s : State V Rot) (i : TickInput V Rot)
    (p : SlPose) :
    remapPose (grab_succeeded lib s i).state p = remapPose s p := by
  simp only [grab_succeeded_state, publish_frames_state, pose_update_state, odom_update_state,
    publish_cloud_state, apply_whitebalance_state, apply_exposure_state, remapPose]

theorem remapPose_tick (lib : Tf2 V Rot) (s : State V Rot) (i : TickInput V Rot)
    (hrun : i.subs.runLoop = true) (hok : i.grab_status = GrabStatus.success) (p : SlPose) :
    remapPose (device_poll_tick lib s i).state p = remapPose s p := by
  rw [tick_success_state lib s i hrun hok, remapPose_grab_succeeded, remapPose_pre_grab]

/-- A tracking switch that does not call `enableTracking` leaves `base_to_odom` alone. -/
theorem tracking_switch_base_to_odom (lib : Tf2 V Rot) (s : State V Rot) (n : Subs)
    (h : ∀ e ∈ (tracking_switch lib s n).events, e.isEnableTracking = false) :
    (tracking_switch lib s n).state.base_to_odom_transform = s.base_to_odom_transform := by
  unfold tracking_switch at h ⊢
  split_ifs at h ⊢
  · rw [start_tracking_events] at h
    have := h _ (List.mem_singleton_self _)
    simp [Event.isEnableTracking] at this
  · rfl
  · rfl

/-- One successful tick whose odometry block runs and which does not restart tracking
multiplies `base_to_odom` by the conjugated incremental pose. -/
theorem tick_accumulates (lib : Tf2 V Rot) (s : State V Rot) (i : TickInput V Rot)
    (hrun : i.subs.runLoop = true) (hok : i.grab_status = GrabStatus.success)
    (hodom : i.subs.pose > 0 ∨ i.subs.odom > 0 ∨ i.subs.cloud > 0 ∨ i.subs.depth > 0)
    (hno : ∀ e ∈ (device_poll_tick lib s i).events, e.isEnableTracking = false) :
    (device_poll_tick lib s i).state.base_to_odom_transform
      = s.base_to_odom_transform
        * (sensor_to_base i * fromMsg lib (remapPose s i.deltaOdom) * (sensor_to_base i)⁻¹) := by
  rw [tick_base_to_odom lib s i hrun hok, if_pos hodom, tracking_switch_base_to_odom]
  intro e he
  apply hno
  rw [tick_success_events lib s i hrun hok]
  simp [he]

theorem device_poll_run_nil (lib : Tf2 V Rot) (s : State V Rot) :
    device_poll_run lib s [] = ⟨s, []⟩ :=
  rfl

theorem device_poll_run_cons (lib : Tf2 V Rot) (s : State V Rot) (i : TickInput V Rot)
    (rest : List (TickInput V Rot)) :
    device_poll_run lib s (i :: rest)
      = loop_step (device_poll_tick lib s i) (fun s1 => device_poll_run lib s1 rest) :=
  rfl

end StateLemmas

section EventLemmas

variable {V Rot : Type}

theorem apply_exposure_events (s : State V Rot) (i : TickInput V Rot) :
    (apply_exposure s i).events
      = if s.autoExposure then
          (if s.triggerAutoExposure then [Event.setCameraSettings Setting.exposure 0 true]
           else [])
        else push_setting Setting.exposure i.actual_exposure s.exposure
          ++ push_setting Setting.gain i.actual_gain s.gain := by
  unfold apply_exposure
  split_ifs <;> rfl

theorem apply_whitebalance_events (s : State V Rot) (i : TickInput V Rot) :
    (apply_whitebalance s i).events
      = if s.autoWhitebalance then
          (if s.triggerAutoWhitebalance then
            [Event.setCameraSettings Setting.whitebalance 0 true]
           else [])
        else push_setting Setting.whitebalance i.actual_whitebalance s.whitebalance := by
  unfold apply_whitebalance
  split_ifs <;> rfl

theorem publish_cloud_events (s : State V Rot) (i : TickInput V Rot) :
    (publish_cloud s i).events
      = if i.subs.cloud > 0 then
          [Event.retrieveMeasure Measure.xyzbgra, Event.publish Channel.cloud]
        else [] := by
  unfold publish_cloud
  split_ifs <;> rfl

theorem publish_frames_events (s : State V Rot) (i : TickInput V Rot) :
    (publish_frames s i).events
      = if s.publish_tf then
          [Event.publishOdomFrame s.base_to_odom_transform,
            Event.publishPoseFrame s.odom_to_map_transform]
        else [] := by
  unfold publish_frames
  split_ifs <;> rfl

theorem grab_call_events (s : State V Rot) (i : TickInput V Rot) :
    (grab_call s i).events
      = (if i.subs.needDepth then
          (if i.actual_confidence ≠ s.confidence then
            [Event.setConfidenceThreshold s.confidence] else [])
         else [])
        ++ [Event.grab i.subs.needDepth i.subs.needCloud] := by
  unfold grab_call
  cases h : i.subs.needDepth <;> simp [h]

/-- The re-open loop only closes and opens the session. -/
theorem reopen_loop_kind (s : State V Rot) (l : List Attempt) :
    ∀ e ∈ (reopen_loop s l).1.events, e.isSession = true := by
  induction l generalizing s with
  | nil => intro e he; simp [reopen_loop] at he
  | cons a rest ih =>
    intro e he
    rw [reopen_loop] at he
    split_ifs at he <;>
      try simp only [List.mem_singleton, List.mem_cons, List.not_mem_nil, or_false] at he
    all_goals first
      | (subst he; rfl)
      | (rcases he with he | he
         · subst he; rfl
         · exact ih _ e he)
      | exact ih _ e he

variable [Group Rot] [AddGroup V] [DistribMulAction Rot V]

theorem odom_update_events (lib : Tf2 V Rot) (s : State V Rot) (i : TickInput V Rot) :
    (odom_update lib s i).events
      = if i.subs.pose > 0 ∨ i.subs.odom > 0 ∨ i.subs.cloud > 0 ∨ i.subs.depth > 0 then
          [Event.getPosition RefFrame.camera,
            Event.publishOdom (odom_update lib s i).state.base_to_odom_transform]
        else [] := by
  by_cases h : i.subs.pose > 0 ∨ i.subs.odom > 0 ∨ i.subs.cloud > 0 ∨ i.subs.depth > 0
  · simp only [odom_update, if_pos h]
  · simp only [odom_update, if_neg h]

theorem pose_update_events (lib : Tf2 V Rot) (s : State V Rot) (i : TickInput V Rot) :
    (pose_update lib s i).events
      = if i.subs.pose > 0 ∨ i.subs.cloud > 0 ∨ i.subs.depth > 0 then
          [Event.getPosition RefFrame.world,
            Event.publishPose (pose_update lib s i).state.odom_to_map_transform]
        else [] := by
  by_cases h : i.subs.pose > 0 ∨ i.subs.cloud > 0 ∨ i.subs.depth > 0
  · simp only [pose_update, if_pos h]
  · simp only [pose_update, if_neg h]

theorem tracking_switch_events (lib : Tf2 V Rot) (s : State V Rot) (n : Subs) :
    (tracking_switch lib s n).events
      = if (s.depth_stabilization ∨ n.pose > 0 ∨ n.odom > 0 ∨ n.cloud > 0 ∨ n.depth > 0)
            ∧ ¬ s.tracking_activated then
          [Event.enableTracking (start_tracking lib s).state.initial_pose_sl]
        else if ¬ s.depth_stabilization ∧ n.pose = 0 ∧ n.odom = 0 ∧ s.tracking_activated then
          [Event.disableTracking]
        else [] := by
  unfold tracking_switch
  split_ifs <;> rfl

theorem grab_succeeded_events (lib : Tf2 V Rot) (s : State V Rot) (i : TickInput V Rot) :
    (grab_succeeded lib s i).events
      = (apply_exposure { s with old_t := i.now } i).events
        ++ apply_color (apply_exposure { s with old_t := i.now } i).state i
        ++ publish_left i.subs
        ++ (apply_whitebalance (apply_exposure { s with old_t := i.now } i).state i).events
        ++ publish_left_raw i.subs ++ publish_right i.subs ++ publish_depth i.subs
        ++ (publish_cloud
            (apply_whitebalance (apply_exposure { s with old_t := i.now } i).state i).state
            i).events
        ++ (odom_update lib (publish_cloud
            (apply_whitebalance (apply_exposure { s with old_t := i.now } i).state i).state
            i).state i).events
        ++ (pose_update lib (odom_update lib (publish_cloud
            (apply_whitebalance (apply_exposure { s with old_t := i.now } i).state i).state
            i).state i).state i).events
        ++ (publish_frames (pose_update lib (odom_update lib (publish_cloud
            (apply_whitebalance (apply_exposure { s with old_t := i.now } i).state i).state
            i).state i).state i).state i).events :=
  rfl

theorem guarded_pair {α : Type} (a b : Prop) [Decidable a] [Decidable b] (x y : List α) :
    (if a ∨ b then (if a then x else []) ++ (if b then y else []) else [])
      = (if a then x else []) ++ (if b then y else []) := by
  by_cases ha : a <;> by_cases hb : b <;> simp [ha, hb]

/-- The data channels on which a successful iteration publishes, in program order. -/
theorem grab_succeeded_channels (lib : Tf2 V Rot) (s : State V Rot) (i : TickInput V Rot) :
    (grab_succeeded lib s i).events.filterMap Event.channel
      = (if i.subs.left > 0 then [Channel.left] else [])
        ++ (if i.subs.rgb > 0 then [Channel.rgb] else [])
        ++ (if i.subs.left_raw > 0 then [Channel.left_raw] else [])
        ++ (if i.subs.rgb_raw > 0 then [Channel.rgb_raw] else [])
        ++ (if i.subs.right > 0 then [Channel.right] else [])
        ++ (if i.subs.right_raw > 0 then [Channel.right_raw] else [])
        ++ (if i.subs.depth > 0 ∨ i.subs.disparity > 0 then [Channel.depth] else [])
        ++ (if i.subs.disparity > 0 then [Channel.disparity] else [])
        ++ (if i.subs.conf_img > 0 then [Channel.conf_img] else [])
        ++ (if i.subs.conf_map > 0 then [Channel.conf_map] else [])
        ++ (if i.subs.cloud > 0 then [Channel.cloud] else [])
        ++ (if i.subs.pose > 0 ∨ i.subs.odom > 0 ∨ i.subs.cloud > 0 ∨ i.subs.depth > 0 then
              [Channel.odom] else [])
        ++ (if i.subs.pose > 0 ∨ i.subs.cloud > 0 ∨ i.subs.depth > 0 then
              [Channel.pose] else []) := by
  simp only [grab_succeeded_events, apply_exposure_events, apply_whitebalance_events,
    publish_cloud_events, odom_update_events, pose_update_events, publish_frames_events,
    apply_color, push_setting, publish_left, publish_left_raw, publish_right, publish_depth,
    List.filterMap_append, apply_ite (List.filterMap Event.channel), List.filterMap_cons,
    List.filterMap_nil, Event.channel, ite_self, List.append_nil, List.nil_append]
  rw [guarded_pair, guarded_pair]
  simp only [List.append_assoc]

/-- The camera-info publishers used by a successful iteration, in program order. -/
theorem grab_succeeded_infoChannels (lib : Tf2 V Rot) (s : State V Rot) (i : TickInput V Rot) :
    (grab_succeeded lib s i).events.filterMap Event.infoChannel
      = (if i.subs.left > 0 then [InfoChannel.left] else [])
        ++ (if i.subs.rgb > 0 then [InfoChannel.rgb] else [])
        ++ (if i.subs.left_raw > 0 then [InfoChannel.left_raw] else [])
        ++ (if i.subs.rgb_raw > 0 then [InfoChannel.rgb_raw] else [])
        ++ (if i.subs.right > 0 then [InfoChannel.right] else [])
        ++ (if i.subs.right_raw > 0 then [InfoChannel.right_raw] else [])
        ++ (if i.subs.depth > 0 ∨ i.subs.disparity > 0 then [InfoChannel.depth] else []) := by
  simp only [grab_succeeded_events, apply_exposure_events, apply_whitebalance_events,
    publish_cloud_events, odom_update_events, pose_update_events, publish_frames_events,
    apply_color, push_setting, publish_left, publish_left_raw, publish_right, publish_depth,
    List.filterMap_append, apply_ite (List.filterMap Event.infoChannel), List.filterMap_cons,
    List.filterMap_nil, Event.infoChannel, ite_self, List.append_nil, List.nil_append]
  rw [guarded_pair, guarded_pair]
  simp only [List.append_assoc]

/-- After the grab, a successful iteration calls neither `grab` again nor the tracking
switches, and leaves the session open. -/
theorem grab_succeeded_quiet (lib : Tf2 V Rot) (s : State V Rot) (i : TickInput V Rot) :
    (grab_succeeded lib s i).events.filterMap Event.grabParams = []
      ∧ (grab_succeeded lib s i).events.filter Event.isTrackingSwitch = []
      ∧ (grab_succeeded lib s i).events.filter Event.isSession = [] := by
  refine ⟨?_, ?_, ?_⟩
  · simp only [grab_succeeded_events, apply_exposure_events, apply_whitebalance_events,
      publish_cloud_events, odom_update_events, pose_update_events, publish_frames_events,
      apply_color, push_setting, publish_left, publish_left_raw, publish_right, publish_depth,
      List.filterMap_append, apply_ite (List.filterMap Event.grabParams), List.filterMap_cons,
      List.filterMap_nil, Event.grabParams, ite_self, List.append_nil, List.nil_append]
  · simp only [grab_succeeded_events, apply_exposure_events, apply_whitebalance_events,
      publish_cloud_events, odom_update_events, pose_update_events, publish_frames_events,
      apply_color, push_setting, publish_left, publish_left_raw, publish_right, publish_depth,
      List.filter_append, apply_ite (List.filter Event.isTrackingSwitch), List.filter_cons,
      List.filter_nil, Event.isTrackingSwitch, ite_self, List.append_nil, List.nil_append,
      Bool.false_eq_true, if_false]
  · simp only [grab_succeeded_events, apply_exposure_events, apply_whitebalance_events,
      publish_cloud_events, odom_update_events, pose_update_events, publish_frames_events,
      apply_color, push_setting, publish_left, publish_left_raw, publish_right, publish_depth,
      List.filter_append, apply_ite (List.filter Event.isSession), List.filter_cons,
      List.filter_nil, Event.isSession, ite_self, List.append_nil, List.nil_append,
      Bool.false_eq_true, if_false]

/-- Events before the grab result is known: tracking switch, confidence threshold, grab. -/
theorem pre_grab_kind (lib : Tf2 V Rot) (s s1 : State V Rot) (i : TickInput V Rot)
    (e : Event V Rot)
    (he : e ∈ (tracking_switch lib s i.subs).events ++ (grab_call s1 i).events) :
    e.isSession = false ∧ e.isBroadcast = false ∧ e.channel = none
      ∧ e.infoChannel = none := by
  rw [tracking_switch_events, grab_call_events] at he
  simp only [List.mem_append] at he
  rcases he with he | he | he
  · split_ifs at he <;> simp at he <;> (subst he; simp [Event.isSession, Event.isBroadcast,
      Event.channel, Event.infoChannel])
  · split_ifs at he <;> simp at he
    subst he
    simp [Event.isSession, Event.isBroadcast, Event.channel, Event.infoChannel]
  · simp at he
    subst he
    simp [Event.isSession, Event.isBroadcast, Event.channel, Event.infoChannel]

theorem pre_grab_projections (lib : Tf2 V Rot) (s s1 : State V Rot) (i : TickInput V Rot) :
    ((tracking_switch lib s i.subs).events ++ (grab_call s1 i).events).filterMap Event.channel
        = []
      ∧ ((tracking_switch lib s i.subs).events ++ (grab_call s1 i).events).filterMap
          Event.infoChannel = []
      ∧ ((tracking_switch lib s i.subs).events ++ (grab_call s1 i).events).filterMap
          Event.grabParams = [(i.subs.needDepth, i.subs.needCloud)] := by
  refine ⟨?_, ?_, ?_⟩
  · simp only [tracking_switch_events, grab_call_events, List.filterMap_append,
      apply_ite (List.filterMap Event.channel), List.filterMap_cons, List.filterMap_nil,
      Event.channel, ite_self, List.append_nil, List.nil_append]
  · simp only [tracking_switch_events, grab_call_events, List.filterMap_append,
      apply_ite (List.filterMap Event.infoChannel), List.filterMap_cons, List.filterMap_nil,
      Event.infoChannel, ite_self, List.append_nil, List.nil_append]
  · simp only [tracking_switch_events, grab_call_events, List.filterMap_append,
      apply_ite (List.filterMap Event.grabParams), List.filterMap_cons, List.filterMap_nil,
      Event.grabParams, ite_self, List.append_nil, List.nil_append]

theorem after_reopen_kind (lib : Tf2 V Rot) (i : TickInput V Rot) (r : Step V Rot)
    (hr : ∀ e ∈ r.events, e.isSession = true) (o : Reopen) :
    ∀ e ∈ (after_reopen lib i r o).events, e.isSession = true ∨ e.isEnableTracking = true := by
  intro e he
  cases o with
  | shutdown => exact Or.inl (hr e he)
  | waiting => exact Or.inl (hr e he)
  | reopened =>
    simp only [after_reopen, List.mem_append] at he
    rcases he with he | he
    · exact Or.inl (hr e he)
    · split_ifs at he
      · rw [start_tracking_events, List.mem_singleton] at he
        subst he; exact Or.inr rfl
      · simp at he

/-- A failed grab is followed only by session and tracking calls. -/
theorem grab_failed_kind (lib : Tf2 V Rot) (s : State V Rot) (i : TickInput V Rot) :
    ∀ e ∈ (grab_failed lib s i).events, e.isSession = true ∨ e.isEnableTracking = true := by
  intro e he
  unfold grab_failed at he
  split_ifs at he
  · simp only [List.mem_cons] at he
    rcases he with he | he
    · subst he; exact Or.inl rfl
    · exact after_reopen_kind lib i _ (reopen_loop_kind s i.attempts) _ e he
  · simp at he

theorem grab_failed_grabParams (lib : Tf2 V Rot) (s : State V Rot) (i : TickInput V Rot) :
    (grab_failed lib s i).events.filterMap Event.grabParams = [] := by
  rw [List.filterMap_eq_nil_iff]
  intro e he
  rcases grab_failed_kind lib s i e he with h | h <;> cases e <;>
    simp_all [Event.isSession, Event.isEnableTracking, Event.grabParams]

/-- The events of an active iteration: tracking switch, grab call, and what follows, which
holds no further grab. -/
theorem tick_active_events (lib : Tf2 V Rot) (s : State V Rot) (i : TickInput V Rot)
    (hrun : i.subs.runLoop = true) :
    ∃ rest, (device_poll_tick lib s i).events
        = ((tracking_switch lib s i.subs).events
            ++ (grab_call (tracking_switch lib s i.subs).state i).events) ++ rest
      ∧ rest.filterMap Event.grabParams = [] := by
  by_cases hok : i.grab_status = GrabStatus.success
  · exact ⟨_, by rw [tick_success_events lib s i hrun hok], (grab_succeeded_quiet lib _ i).1⟩
  · exact ⟨(grab_failed lib (grab_call (tracking_switch lib s i.subs).state i).state i).events,
      by simp [device_poll_tick, hrun, hok], grab_failed_grabParams lib _ i⟩

theorem grab_succeeded_tracking (lib : Tf2 V Rot) (s : State V Rot) (i : TickInput V Rot) :
    (grab_succeeded lib s i).state.tracking_activated = s.tracking_activated := by
  simp only [grab_succeeded_state, publish_frames_state, pose_update_state, odom_update_state,
    publish_cloud_state, apply_whitebalance_state, apply_exposure_state]

theorem tracking_switch_old_t (lib : Tf2 V Rot) (s : State V Rot) (n : Subs) :
    (tracking_switch lib s n).state.old_t = s.old_t := by
  unfold tracking_switch
  split_ifs
  · rw [start_tracking_state]
    split_ifs <;> rfl
  · rfl
  · rfl

/-- A failed grab at most five seconds after the last successful one ends the iteration
with the state and the effects of the tracking switch and the grab call. -/
theorem tick_failure_fresh (lib : Tf2 V Rot) (s : State V Rot) (i : TickInput V Rot)
    (hrun : i.subs.runLoop = true) (hfail : i.grab_status ≠ GrabStatus.success)
    (hfresh : i.t - s.old_t ≤ 5000000000) :
    device_poll_tick lib s i
      = { state := (grab_call (tracking_switch lib s i.subs).state i).state
          events := (tracking_switch lib s i.subs).events
            ++ (grab_call (tracking_switch lib s i.subs).state i).events
          flow := Flow.next } := by
  have hold :
      ¬ (i.t - (grab_call (tracking_switch lib s i.subs).state i).state.old_t > 5000000000) := by
    rw [grab_call_state]
    show ¬ (i.t - (tracking_switch lib s i.subs).state.old_t > 5000000000)
    rw [tracking_switch_old_t]
    exact not_lt.mpr hfresh
  simp only [device_poll_tick, hrun, if_true, hfail, ne_eq, not_false_eq_true, grab_failed,
    if_neg hold, List.append_nil]

end EventLemmas

section Claims

variable {V Rot : Type} [Group Rot] [AddGroup V] [DistribMulAction Rot V]

/-- C1. In a successful tick whose pose block runs, the new `odom_to_map` equals
`(S * W * S⁻¹) * B'⁻¹`, where `S` is the sensor-to-base transform of the tick, `W` the remapped
world pose and `B'` the value of `base_to_odom` after the tick; hence
`odom_to_map * B' = S * W * S⁻¹`, and the result is the same for every previous value of
`odom_to_map`. -/
theorem odom_to_map_recomputed (lib : Tf2 V Rot) (s : State V Rot) (i : TickInput V Rot)
    (hrun : i.subs.runLoop = true) (hok : i.grab_status = GrabStatus.success)
    (hpose : i.subs.pose > 0 ∨ i.subs.cloud > 0 ∨ i.subs.depth > 0) :
    (device_poll_tick lib s i).state.odom_to_map_transform
        = (sensor_to_base i * fromMsg lib (remapPose s i.zed_pose) * (sensor_to_base i)⁻¹)
          * ((device_poll_tick lib s i).state.base_to_odom_transform)⁻¹
      ∧ (device_poll_tick lib s i).state.odom_to_map_transform
          * (device_poll_tick lib s i).state.base_to_odom_transform
        = sensor_to_base i * fromMsg lib (remapPose s i.zed_pose) * (sensor_to_base i)⁻¹
      ∧ ∀ m : Transform V Rot,
          (device_poll_tick lib { s with odom_to_map_transform := m } i).state.odom_to_map_transform
            = (device_poll_tick lib s i).state.odom_to_map_transform := by
  have key : ∀ s0 : State V Rot,
      (device_poll_tick lib s0 i).state.odom_to_map_transform
        = (sensor_to_base i * fromMsg lib (remapPose s0 i.zed_pose) * (sensor_to_base i)⁻¹)
          * ((device_poll_tick lib s0 i).state.base_to_odom_transform)⁻¹ := by
    intro s0
    rw [tick_success_state lib s0 i hrun hok, grab_succeeded_odom_to_map lib _ i hpose]
    rw [remapPose_pre_grab]
  refine ⟨key s, ?_, ?_⟩
  · rw [key s, inv_mul_cancel_right]
  · intro m
    rw [key s, key, tick_base_to_odom lib s i hrun hok, tick_base_to_odom lib _ i hrun hok,
      tracking_switch_base_to_odom_indep]
    rfl

/-- C2. With a fixed sensor-to-base transform `S`, after successful ticks whose odometry block
runs with remapped incremental poses `d1 .. dn` and without a tracking restart,
`base_to_odom` is `B0 * S * (d1 * ... * dn) * S⁻¹`; and every such single tick performs
`base_to_odom <- base_to_odom * (S * d * S⁻¹)`. -/
theorem base_to_odom_accumulates (lib : Tf2 V Rot) (S : Transform V Rot) (s : State V Rot)
    (inputs : List (TickInput V Rot))
    (hin : ∀ i ∈ inputs, i.subs.runLoop = true ∧ i.grab_status = GrabStatus.success
      ∧ (i.subs.pose > 0 ∨ i.subs.odom > 0 ∨ i.subs.cloud > 0 ∨ i.subs.depth > 0)
      ∧ sensor_to_base i = S)
    (hno : ∀ e ∈ (device_poll_run lib s inputs).events, e.isEnableTracking = false) :
    (device_poll_run lib s inputs).state.base_to_odom_transform
        = s.base_to_odom_transform * S
          * (inputs.map (fun i => fromMsg lib (remapPose s i.deltaOdom))).prod * S⁻¹
      ∧ ∀ (s1 : State V Rot) (i : TickInput V Rot),
          i.subs.runLoop = true → i.grab_status = GrabStatus.success →
          (i.subs.pose > 0 ∨ i.subs.odom > 0 ∨ i.subs.cloud > 0 ∨ i.subs.depth > 0) →
          sensor_to_base i = S →
          (∀ e ∈ (device_poll_tick lib s1 i).events, e.isEnableTracking = false) →
          (device_poll_tick lib s1 i).state.base_to_odom_transform
            = s1.base_to_odom_transform * (S * fromMsg lib (remapPose s1 i.deltaOdom) * S⁻¹) := by
  constructor
  · induction inputs generalizing s with
    | nil => simp [device_poll_run_nil]
    | cons i rest ih =>
      obtain ⟨hrun, hok, hodom, hS⟩ := hin i (List.mem_cons_self _ _)
      have hflow := tick_success_flow lib s i hrun hok
      have hrunEq : device_poll_run lib s (i :: rest)
          = ⟨(device_poll_run lib (device_poll_tick lib s i).state rest).state,
              (device_poll_tick lib s i).events
                ++ (device_poll_run lib (device_poll_tick lib s i).state rest).events⟩ := by
        rw [device_poll_run_cons, loop_step, hflow]
      rw [hrunEq] at hno
      rw [hrunEq]
      have hno1 : ∀ e ∈ (device_poll_tick lib s i).events, e.isEnableTracking = false :=
        fun e he => hno e (List.mem_append_left _ he)
      have hno2 : ∀ e ∈ (device_poll_run lib (device_poll_tick lib s i).state rest).events,
          e.isEnableTracking = false :=
        fun e he => hno e (List.mem_append_right _ he)
      have hrest := ih (device_poll_tick lib s i).state
        (fun j hj => hin j (List.mem_cons_of_mem _ hj)) hno2
      have hmap : (rest.map (fun j =>
            fromMsg lib (remapPose (device_poll_tick lib s i).state j.deltaOdom)))
          = rest.map (fun j => fromMsg lib (remapPose s j.deltaOdom)) := by
        apply List.map_congr_left
        intro j _
        rw [remapPose_tick lib s i hrun hok]
      show (device_poll_run lib (device_poll_tick lib s i).state rest).state.base_to_odom_transform
        = _
      rw [hrest, hmap, tick_accumulates lib s i hrun hok hodom hno1, hS, List.map_cons,
        List.prod_cons]
      simp only [mul_assoc, inv_mul_cancel_left]
  · intro s1 i hrun hok hodom hS hno1
    rw [tick_accumulates lib s1 i hrun hok hodom hno1, hS]

/-- Witness of C1: a successful tick with one pose subscriber. -/
theorem odom_to_map_recomputed_witness :
    Demo.poseTick.subs.runLoop = true
    ∧ Demo.poseTick.grab_status = GrabStatus.success
    ∧ (Demo.poseTick.subs.pose > 0 ∨ Demo.poseTick.subs.cloud > 0
        ∨ Demo.poseTick.subs.depth > 0)
    ∧ (device_poll_tick Demo.lib Demo.tracking Demo.poseTick).state.odom_to_map_transform
        = (sensor_to_base Demo.poseTick
            * fromMsg Demo.lib (remapPose Demo.tracking Demo.poseTick.zed_pose)
            * (sensor_to_base Demo.poseTick)⁻¹)
          * ((device_poll_tick Demo.lib Demo.tracking
              Demo.poseTick).state.base_to_odom_transform)⁻¹
    ∧ (device_poll_tick Demo.lib Demo.tracking Demo.poseTick).state.odom_to_map_transform
        * (device_poll_tick Demo.lib Demo.tracking Demo.poseTick).state.base_to_odom_transform
        = sensor_to_base Demo.poseTick
          * fromMsg Demo.lib (remapPose Demo.tracking Demo.poseTick.zed_pose)
          * (sensor_to_base Demo.poseTick)⁻¹ :=
  ⟨by decide, rfl, Or.inl (by decide),
    (odom_to_map_recomputed Demo.lib Demo.tracking Demo.poseTick (by decide) rfl
      (Or.inl (by decide))).1,
    (odom_to_map_recomputed Demo.lib Demo.tracking Demo.poseTick (by decide) rfl
      (Or.inl (by decide))).2.1⟩

/-- Witness of C2: two successful ticks from a tracking state, and the first of them alone. -/
theorem base_to_odom_accumulates_witness :
    (∀ i ∈ Demo.twoTicks, i.subs.runLoop = true ∧ i.grab_status = GrabStatus.success
      ∧ (i.subs.pose > 0 ∨ i.subs.odom > 0 ∨ i.subs.cloud > 0 ∨ i.subs.depth > 0)
      ∧ sensor_to_base i = Transform.identity)
    ∧ (∀ e ∈ (device_poll_run Demo.lib Demo.tracking Demo.twoTicks).events,
        e.isEnableTracking = false)
    ∧ (device_poll_run Demo.lib Demo.tracking Demo.twoTicks).state.base_to_odom_transform
        = Demo.tracking.base_to_odom_transform * Transform.identity
          * (Demo.twoTicks.map
              (fun i => fromMsg Demo.lib (remapPose Demo.tracking i.deltaOdom))).prod
          * Transform.identity⁻¹
    ∧ (∀ e ∈ (device_poll_tick Demo.lib Demo.tracking Demo.odomTick).events,
        e.isEnableTracking = false)
    ∧ (device_poll_tick Demo.lib Demo.tracking Demo.odomTick).state.base_to_odom_transform
        = Demo.tracking.base_to_odom_transform
          * (Transform.identity
              * fromMsg Demo.lib (remapPose Demo.tracking Demo.odomTick.deltaOdom)
              * Transform.identity⁻¹) :=
  ⟨by decide, by decide,
    (base_to_odom_accumulates Demo.lib Transform.identity Demo.tracking Demo.twoTicks
      (by decide) (by decide)).1,
    by decide,
    (base_to_odom_accumulates Demo.lib Transform.identity Demo.tracking Demo.twoTicks
      (by decide) (by decide)).2 Demo.tracking Demo.odomTick (by decide) rfl
      (Or.inr (Or.inl (by decide))) rfl (by decide)⟩

/-- C3 (failing input). Tracking runs, depth stabilization is off and only the point-cloud
channel is subscribed: the tick is Active and the demand asks for tracking, yet the tick
calls `disableTracking` first and issues the grab with `tracking_activated` false. -/
theorem tracking_off_at_grab_under_cloud_demand :
    Demo.cloudTick.subs.runLoop = true
    ∧ Demo.tracking.tracking_activated = true
    ∧ (Demo.tracking.depth_stabilization = true ∨ Demo.cloudTick.subs.pose > 0
        ∨ Demo.cloudTick.subs.odom > 0 ∨ Demo.cloudTick.subs.depth > 0
        ∨ Demo.cloudTick.subs.cloud > 0)
    ∧ (tracking_switch Demo.lib Demo.tracking Demo.cloudTick.subs).state.tracking_activated
        = false
    ∧ (device_poll_tick Demo.lib Demo.tracking Demo.cloudTick).events.take 2
        = [Event.disableTracking, Event.grab true true] := by
  decide

/-- C4 (counterexample). Tracking off, depth stabilization off, one point-cloud subscriber
and no other, successful grab: the messages published on data channels are not the point
cloud alone; an odometry and a pose message follow it. -/
theorem odom_and_pose_follow_cloud :
    Demo.cloudTick.subs = { Subs.zero with cloud := 1 }
    ∧ Demo.state.tracking_activated = false
    ∧ Demo.state.depth_stabilization = false
    ∧ Demo.cloudTick.grab_status = GrabStatus.success
    ∧ (device_poll_tick Demo.lib Demo.state Demo.cloudTick).events.filterMap Event.channel
        ≠ [Channel.cloud]
    ∧ (device_poll_tick Demo.lib Demo.state Demo.cloudTick).events.filterMap Event.channel
        = [Channel.cloud, Channel.odom, Channel.pose] := by
  decide

/-- C4 (amended). With one point-cloud subscriber and no other, tracking off, depth
stabilization off and a successful grab, the tick first starts tracking, issues one grab
with depth and point-cloud computation enabled, and publishes on the data channels the
point cloud, then an odometry message, then a pose message, and no camera-info message. -/
theorem cloud_only_tick (lib : Tf2 V Rot) (s : State V Rot) (i : TickInput V Rot)
    (hcloud : i.subs = { Subs.zero with cloud := 1 })
    (htr : s.tracking_activated = false) (_hst : s.depth_stabilization = false)
    (hok : i.grab_status = GrabStatus.success) :
    (∃ rest, (device_poll_tick lib s i).events
        = Event.enableTracking (start_tracking lib s).state.initial_pose_sl :: rest)
      ∧ (device_poll_tick lib s i).events.filter Event.isTrackingSwitch
        = [Event.enableTracking (start_tracking lib s).state.initial_pose_sl]
      ∧ (device_poll_tick lib s i).state.tracking_activated = true
      ∧ (device_poll_tick lib s i).events.filterMap Event.grabParams = [(true, true)]
      ∧ (device_poll_tick lib s i).events.filterMap Event.channel
        = [Channel.cloud, Channel.odom, Channel.pose]
      ∧ (device_poll_tick lib s i).events.filterMap Event.infoChannel = [] := by
  have hsubs : i.subs = ⟨0, 0, 0, 0, 0, 0, 0, 0, 1, 0, 0, 0, 0⟩ := hcloud
  have hrun : i.subs.runLoop = true := by rw [hsubs]; decide
  have hnd : i.subs.needDepth = true := by rw [hsubs]; decide
  have hnc : i.subs.needCloud = true := by rw [hsubs]; decide
  have hsw : (tracking_switch lib s i.subs).events
      = [Event.enableTracking (start_tracking lib s).state.initial_pose_sl] := by
    rw [tracking_switch_events, hsubs]
    simp [htr]
  have hswst : (tracking_switch lib s i.subs).state.tracking_activated = true := by
    unfold tracking_switch
    rw [hsubs]
    simp [htr, start_tracking_state]
    split_ifs <;> rfl
  have hev := tick_success_events lib s i hrun hok
  obtain ⟨q1, q2, q3⟩ := grab_succeeded_quiet lib
    (grab_call (tracking_switch lib s i.subs).state i).state i
  obtain ⟨p1, p2, p3⟩ := pre_grab_projections lib s (tracking_switch lib s i.subs).state i
  refine ⟨?_, ?_, ?_, ?_, ?_, ?_⟩
  · exact ⟨_, by rw [hev, hsw]; rfl⟩
  · rw [hev, List.filter_append, List.filter_append, q2, hsw, grab_call_events]
    simp [Event.isTrackingSwitch, List.filter_append, apply_ite (List.filter Event.isTrackingSwitch)]
  · rw [tick_success_state lib s i hrun hok, grab_succeeded_tracking, grab_call_state]
    exact hswst
  · rw [hev, List.filterMap_append, p3, q1, hnd, hnc]
    rfl
  · rw [hev, List.filterMap_append, p1, grab_succeeded_channels, hsubs]
    simp
  · rw [hev, List.filterMap_append, p2, grab_succeeded_infoChannels, hsubs]
    simp

/-- Witness of C4 (amended). -/
theorem cloud_only_tick_witness :
    Demo.cloudTick.subs = { Subs.zero with cloud := 1 }
    ∧ Demo.state.tracking_activated = false
    ∧ Demo.state.depth_stabilization = false
    ∧ Demo.cloudTick.grab_status = GrabStatus.success
    ∧ (device_poll_tick Demo.lib Demo.state Demo.cloudTick).events.filterMap Event.grabParams
        = [(true, true)]
    ∧ (device_poll_tick Demo.lib Demo.state Demo.cloudTick).events.filterMap Event.infoChannel
        = [] :=
  ⟨rfl, rfl, rfl, rfl,
    (cloud_only_tick Demo.lib Demo.state Demo.cloudTick rfl rfl rfl rfl).2.2.2.1,
    (cloud_only_tick Demo.lib Demo.state Demo.cloudTick rfl rfl rfl rfl).2.2.2.2.2⟩

/-- C5. When all thirteen sampled subscriber counts are zero, the tick leaves the whole state
unchanged, and its only effects are, when `publish_tf` is set, the broadcast of the
odom -> base frame carrying `base_to_odom` followed by the map -> odom frame carrying
`odom_to_map`; there is no effect at all when `publish_tf` is off. -/
theorem idle_tick (lib : Tf2 V Rot) (s : State V Rot) (i : TickInput V Rot)
    (hsubs : i.subs = Subs.zero) :
    (device_poll_tick lib s i).state = s
      ∧ (device_poll_tick lib s i).flow = Flow.next
      ∧ (s.publish_tf = true → (device_poll_tick lib s i).events
          = [Event.publishOdomFrame s.base_to_odom_transform,
              Event.publishPoseFrame s.odom_to_map_transform])
      ∧ (s.publish_tf = false → (device_poll_tick lib s i).events = []) := by
  have hrun : i.subs.runLoop = false := by rw [hsubs]; decide
  refine ⟨?_, ?_, ?_, ?_⟩
  · simp [device_poll_tick, hrun]
  · simp [device_poll_tick, hrun]
  · intro h
    simp [device_poll_tick, hrun, idle, h]
  · intro h
    simp [device_poll_tick, hrun, idle, h]

/-- Witness of C5. -/
theorem idle_tick_witness :
    Demo.idleTick.subs = Subs.zero
    ∧ Demo.state.publish_tf = true
    ∧ (device_poll_tick Demo.lib Demo.state Demo.idleTick).state = Demo.state
    ∧ (device_poll_tick Demo.lib Demo.state Demo.idleTick).events
        = [Event.publishOdomFrame Demo.state.base_to_odom_transform,
            Event.publishPoseFrame Demo.state.odom_to_map_transform] :=
  ⟨rfl, rfl, (idle_tick Demo.lib Demo.state Demo.idleTick rfl).1,
    (idle_tick Demo.lib Demo.state Demo.idleTick rfl).2.2.1 rfl⟩

/-- C6 (counterexample). With one subscriber each on the point-cloud and disparity channels and
a successful grab, messages are published on the depth, odometry and pose channels although
none of the three has a subscriber. -/
theorem publish_without_own_subscriber :
    Demo.cloudDisparityTick.grab_status = GrabStatus.success
    ∧ ¬ (∀ ch ∈ (device_poll_tick Demo.lib Demo.state Demo.cloudDisparityTick).events.filterMap
          Event.channel, Demo.cloudDisparityTick.subs.count ch ≥ 1)
    ∧ (device_poll_tick Demo.lib Demo.state Demo.cloudDisparityTick).events.filterMap
          Event.channel
        = [Channel.depth, Channel.disparity, Channel.cloud, Channel.odom, Channel.pose]
    ∧ Demo.cloudDisparityTick.subs.count Channel.depth = 0
    ∧ Demo.cloudDisparityTick.subs.count Channel.odom = 0
    ∧ Demo.cloudDisparityTick.subs.count Channel.pose = 0 := by
  decide

/-- C6 (amended). In an Active tick whose grab succeeds, a message is published on a channel
exactly when: its own count is positive, for the ten channels left, rgb, left raw, rgb raw,
right, right raw, disparity, confidence image, confidence map and point cloud; the depth or
disparity count is positive, for depth; the pose, odom, cloud or depth count is positive,
for odometry; the pose, cloud or depth count is positive, for pose. -/
theorem publish_guards (lib : Tf2 V Rot) (s : State V Rot) (i : TickInput V Rot)
    (hrun : i.subs.runLoop = true) (hok : i.grab_status = GrabStatus.success) :
    (Channel.left ∈ (device_poll_tick lib s i).events.filterMap Event.channel
        ↔ i.subs.left > 0)
      ∧ (Channel.rgb ∈ (device_poll_tick lib s i).events.filterMap Event.channel
        ↔ i.subs.rgb > 0)
      ∧ (Channel.left_raw ∈ (device_poll_tick lib s i).events.filterMap Event.channel
        ↔ i.subs.left_raw > 0)
      ∧ (Channel.rgb_raw ∈ (device_poll_tick lib s i).events.filterMap Event.channel
        ↔ i.subs.rgb_raw > 0)
      ∧ (Channel.right ∈ (device_poll_tick lib s i).events.filterMap Event.channel
        ↔ i.subs.right > 0)
      ∧ (Channel.right_raw ∈ (device_poll_tick lib s i).events.filterMap Event.channel
        ↔ i.subs.right_raw > 0)
      ∧ (Channel.depth ∈ (device_poll_tick lib s i).events.filterMap Event.channel
        ↔ i.subs.depth > 0 ∨ i.subs.disparity > 0)
      ∧ (Channel.disparity ∈ (device_poll_tick lib s i).events.filterMap Event.channel
        ↔ i.subs.disparity > 0)
      ∧ (Channel.conf_img ∈ (device_poll_tick lib s i).events.filterMap Event.channel
        ↔ i.subs.conf_img > 0)
      ∧ (Channel.conf_map ∈ (device_poll_tick lib s i).events.filterMap Event.channel
        ↔ i.subs.conf_map > 0)
      ∧ (Channel.cloud ∈ (device_poll_tick lib s i).events.filterMap Event.channel
        ↔ i.subs.cloud > 0)
      ∧ (Channel.odom ∈ (device_poll_tick lib s i).events.filterMap Event.channel
        ↔ i.subs.pose > 0 ∨ i.subs.odom > 0 ∨ i.subs.cloud > 0 ∨ i.subs.depth > 0)
      ∧ (Channel.pose ∈ (device_poll_tick lib s i).events.filterMap Event.channel
        ↔ i.subs.pose > 0 ∨ i.subs.cloud > 0 ∨ i.subs.depth > 0) := by
  have hch : (device_poll_tick lib s i).events.filterMap Event.channel
      = (grab_succeeded lib (grab_call (tracking_switch lib s i.subs).state i).state
          i).events.filterMap Event.channel := by
    rw [tick_success_events lib s i hrun hok, List.filterMap_append,
      (pre_grab_projections lib s (tracking_switch lib s i.subs).state i).1, List.nil_append]
  rw [hch, grab_succeeded_channels]
  simp only [List.mem_append, List.mem_ite_nil_right, List.mem_singleton, reduceCtorEq,
    and_false, false_or, or_false, and_true]

/-- Witness of C6 (amended). -/
theorem publish_guards_witness :
    Demo.cloudDisparityTick.subs.runLoop = true
    ∧ Demo.cloudDisparityTick.grab_status = GrabStatus.success
    ∧ (Channel.depth ∈ (device_poll_tick Demo.lib Demo.state
          Demo.cloudDisparityTick).events.filterMap Event.channel
        ↔ Demo.cloudDisparityTick.subs.depth > 0 ∨ Demo.cloudDisparityTick.subs.disparity > 0) :=
  ⟨by decide, rfl,
    (publish_guards Demo.lib Demo.state Demo.cloudDisparityTick (by decide) rfl).2.2.2.2.2.2.1⟩

/-- C7. In every Active tick with non-negative subscriber counts exactly one grab is issued;
its `enable_depth` is true exactly when one of the depth, disparity, cloud, pose, odom,
confidence-image and confidence-map channels has at least one subscriber, and its
`enable_point_cloud` is true exactly when the cloud channel has at least one. -/
theorem grab_runtime_parameters (lib : Tf2 V Rot) (s : State V Rot) (i : TickInput V Rot)
    (hrun : i.subs.runLoop = true)
    (h1 : 0 ≤ i.subs.depth) (h2 : 0 ≤ i.subs.disparity) (h3 : 0 ≤ i.subs.cloud)
    (h4 : 0 ≤ i.subs.pose) (h5 : 0 ≤ i.subs.odom) (h6 : 0 ≤ i.subs.conf_img)
    (h7 : 0 ≤ i.subs.conf_map) :
    ∃ enable_depth enable_point_cloud,
      (device_poll_tick lib s i).events.filterMap Event.grabParams
          = [(enable_depth, enable_point_cloud)]
        ∧ (enable_depth = true ↔
            i.subs.depth ≥ 1 ∨ i.subs.disparity ≥ 1 ∨ i.subs.cloud ≥ 1 ∨ i.subs.pose ≥ 1
              ∨ i.subs.odom ≥ 1 ∨ i.subs.conf_img ≥ 1 ∨ i.subs.conf_map ≥ 1)
        ∧ (enable_point_cloud = true ↔ i.subs.cloud ≥ 1) := by
  obtain ⟨rest, hev, hrest⟩ := tick_active_events lib s i hrun
  refine ⟨i.subs.needDepth, i.subs.needCloud, ?_, ?_, ?_⟩
  · rw [hev, List.filterMap_append, hrest,
      (pre_grab_projections lib s (tracking_switch lib s i.subs).state i).2.2]
    rfl
  · simp only [Subs.needDepth, decide_eq_true_eq]
    omega
  · simp only [Subs.needCloud, decide_eq_true_eq]
    omega

/-- Witness of C7. -/
theorem grab_runtime_parameters_witness :
    Demo.cloudTick.subs.runLoop = true
    ∧ 0 ≤ Demo.cloudTick.subs.depth ∧ 0 ≤ Demo.cloudTick.subs.disparity
    ∧ 0 ≤ Demo.cloudTick.subs.cloud ∧ 0 ≤ Demo.cloudTick.subs.pose
    ∧ 0 ≤ Demo.cloudTick.subs.odom ∧ 0 ≤ Demo.cloudTick.subs.conf_img
    ∧ 0 ≤ Demo.cloudTick.subs.conf_map
    ∧ ∃ enable_depth enable_point_cloud,
      (device_poll_tick Demo.lib Demo.state Demo.cloudTick).events.filterMap Event.grabParams
          = [(enable_depth, enable_point_cloud)]
        ∧ (enable_depth = true ↔
            Demo.cloudTick.subs.depth ≥ 1 ∨ Demo.cloudTick.subs.disparity ≥ 1
              ∨ Demo.cloudTick.subs.cloud ≥ 1 ∨ Demo.cloudTick.subs.pose ≥ 1
              ∨ Demo.cloudTick.subs.odom ≥ 1 ∨ Demo.cloudTick.subs.conf_img ≥ 1
              ∨ Demo.cloudTick.subs.conf_map ≥ 1)
        ∧ (enable_point_cloud = true ↔ Demo.cloudTick.subs.cloud ≥ 1) :=
  ⟨by decide, by decide, by decide, by decide, by decide, by decide, by decide, by decide,
    grab_runtime_parameters Demo.lib Demo.state Demo.cloudTick (by decide) (by decide)
      (by decide) (by decide) (by decide) (by decide) (by decide) (by decide)⟩

/-- C8 (counterexample). A grab returning "not a new frame" ten seconds after the last
successful one closes and re-opens the session; and one returning it within a second, in a
tick that starts tracking before the grab, ends with `tracking_activated` changed. -/
theorem no_new_frame_reconnects_or_switches :
    Demo.staleNoFrame.grab_status = GrabStatus.notANewFrame
    ∧ ¬ (∀ e ∈ (device_poll_tick Demo.lib Demo.tracking Demo.staleNoFrame).events,
          e.isSession = false)
    ∧ (device_poll_tick Demo.lib Demo.tracking Demo.staleNoFrame).events
        = [Event.grab true false, Event.close, Event.openCamera 1,
            Event.enableTracking SlTransform.identity]
    ∧ Demo.freshNoFrame.grab_status = GrabStatus.notANewFrame
    ∧ Demo.state.tracking_activated = false
    ∧ (device_poll_tick Demo.lib Demo.state Demo.freshNoFrame).state.tracking_activated
        = true := by
  decide

/-- C8 (amended). When the grab of an Active tick returns "not a new frame" at most five
seconds (image time) after the last successful grab, the session is neither closed nor
re-opened, nothing is published or broadcast, the loop goes on, and `tracking_activated`,
`base_to_odom` and `odom_to_map` are as the tracking switch before the grab left them:
unchanged when that switch neither started nor stopped tracking. -/
theorem no_new_frame_is_ignored (lib : Tf2 V Rot) (s : State V Rot) (i : TickInput V Rot)
    (hrun : i.subs.runLoop = true) (hst : i.grab_status = GrabStatus.notANewFrame)
    (hfresh : i.t - s.old_t ≤ 5000000000) :
    (∀ e ∈ (device_poll_tick lib s i).events,
        e.isSession = false ∧ e.isBroadcast = false ∧ e.channel = none
          ∧ e.infoChannel = none)
      ∧ (device_poll_tick lib s i).flow = Flow.next
      ∧ (device_poll_tick lib s i).state.tracking_activated
          = (tracking_switch lib s i.subs).state.tracking_activated
      ∧ (device_poll_tick lib s i).state.base_to_odom_transform
          = (tracking_switch lib s i.subs).state.base_to_odom_transform
      ∧ (device_poll_tick lib s i).state.odom_to_map_transform
          = (tracking_switch lib s i.subs).state.odom_to_map_transform
      ∧ ((tracking_switch lib s i.subs).events = [] →
          (device_poll_tick lib s i).state.tracking_activated = s.tracking_activated
          ∧ (device_poll_tick lib s i).state.base_to_odom_transform = s.base_to_odom_transform
          ∧ (device_poll_tick lib s i).state.odom_to_map_transform
              = s.odom_to_map_transform) := by
  have hfail : i.grab_status ≠ GrabStatus.success := by rw [hst]; decide
  rw [tick_failure_fresh lib s i hrun hfail hfresh]
  refine ⟨fun e he => pre_grab_kind lib s _ i e he, rfl, rfl, rfl, rfl, ?_⟩
  intro hnone
  have hsame : (tracking_switch lib s i.subs).state = s := by
    rw [tracking_switch_events] at hnone
    unfold tracking_switch
    split_ifs at hnone ⊢
    rfl
  show (tracking_switch lib s i.subs).state.tracking_activated = s.tracking_activated
    ∧ (tracking_switch lib s i.subs).state.base_to_odom_transform = s.base_to_odom_transform
    ∧ (tracking_switch lib s i.subs).state.odom_to_map_transform = s.odom_to_map_transform
  rw [hsame]
  exact ⟨rfl, rfl, rfl⟩

/-- Witness of C8 (amended): tracking runs and the pose channel is subscribed, so the
tracking switch does nothing and the three values are unchanged. -/
theorem no_new_frame_is_ignored_witness :
    Demo.freshNoFramePose.subs.runLoop = true
    ∧ Demo.freshNoFramePose.grab_status = GrabStatus.notANewFrame
    ∧ Demo.freshNoFramePose.t - Demo.tracking.old_t ≤ 5000000000
    ∧ (tracking_switch Demo.lib Demo.tracking Demo.freshNoFramePose.subs).events = []
    ∧ (device_poll_tick Demo.lib Demo.tracking Demo.freshNoFramePose).flow = Flow.next
    ∧ ((device_poll_tick Demo.lib Demo.tracking Demo.freshNoFramePose).state.tracking_activated
          = Demo.tracking.tracking_activated
        ∧ (device_poll_tick Demo.lib Demo.tracking
            Demo.freshNoFramePose).state.base_to_odom_transform
          = Demo.tracking.base_to_odom_transform
        ∧ (device_poll_tick Demo.lib Demo.tracking
            Demo.freshNoFramePose).state.odom_to_map_transform
          = Demo.tracking.odom_to_map_transform) :=
  ⟨by decide, rfl, by decide, by decide,
    (no_new_frame_is_ignored Demo.lib Demo.tracking Demo.freshNoFramePose (by decide) rfl
      (by decide)).2.1,
    (no_new_frame_is_ignored Demo.lib Demo.tracking Demo.freshNoFramePose (by decide) rfl
      (by decide)).2.2.2.2.2 (by decide)⟩

/-- C9 (failing input). Only the point-cloud channel is subscribed and the grab fails ten
seconds after the last successful one: the session is closed and re-opened, the demand
asks for tracking, and the tick ends with `tracking_activated` false. -/
theorem tracking_off_after_reconnect_under_cloud_demand :
    (device_poll_tick Demo.lib Demo.state Demo.staleFailure).events
        = [Event.enableTracking SlTransform.identity, Event.grab true true, Event.close,
            Event.openCamera 1]
    ∧ (device_poll_tick Demo.lib Demo.state Demo.staleFailure).flow = Flow.next
    ∧ (Demo.state.depth_stabilization = true ∨ Demo.staleFailure.subs.pose > 0
        ∨ Demo.staleFailure.subs.odom > 0 ∨ Demo.staleFailure.subs.depth > 0
        ∨ Demo.staleFailure.subs.cloud > 0)
    ∧ (device_poll_tick Demo.lib Demo.state Demo.staleFailure).state.tracking_activated
        = false := by
  decide

/-- C10. For every prior state and every `(x, y, z, roll, pitch, yaw)`: after `set_pose`,
after `on_set_pose` with that request, and after `on_reset_tracking` with tracking active
and a configured vector of these six entries, `base_to_odom` and `odom_to_map` are the same
transform, the one with translation `(x, y, z)` and rotation `RPY(roll, pitch, yaw)`. -/
theorem set_pose_overrides (lib : Tf2 V Rot) (s : State V Rot) (x y z roll pitch yaw : ℚ) :
    ((set_pose lib s x y z roll pitch yaw).base_to_odom_transform
        = ⟨lib.rotation (lib.setRPY roll pitch yaw), lib.vector3 x y z⟩
      ∧ (set_pose lib s x y z roll pitch yaw).odom_to_map_transform
        = ⟨lib.rotation (lib.setRPY roll pitch yaw), lib.vector3 x y z⟩)
    ∧ (∀ res : SetPoseResponse,
        (on_set_pose lib s ⟨x, y, z, roll, pitch, yaw⟩ res).state.base_to_odom_transform
          = ⟨lib.rotation (lib.setRPY roll pitch yaw), lib.vector3 x y z⟩
        ∧ (on_set_pose lib s ⟨x, y, z, roll, pitch, yaw⟩ res).state.odom_to_map_transform
          = ⟨lib.rotation (lib.setRPY roll pitch yaw), lib.vector3 x y z⟩)
    ∧ (∀ (param : Option (List ℚ)) (res : ResetTrackingResponse),
        s.tracking_activated = true →
        param.getD s.initial_track_pose = [x, y, z, roll, pitch, yaw] →
        (on_reset_tracking lib s param res).state.base_to_odom_transform
          = ⟨lib.rotation (lib.setRPY roll pitch yaw), lib.vector3 x y z⟩
        ∧ (on_reset_tracking lib s param res).state.odom_to_map_transform
          = ⟨lib.rotation (lib.setRPY roll pitch yaw), lib.vector3 x y z⟩) := by
  refine ⟨⟨rfl, rfl⟩, fun _ => ⟨rfl, rfl⟩, ?_⟩
  intro param res htr hvec
  simp only [on_reset_tracking, htr, hvec]
  exact ⟨rfl, rfl⟩

/-- Witness of C10: a reset while tracking, with a configured pose of six entries. -/
theorem set_pose_overrides_witness :
    Demo.tracking.tracking_activated = true
    ∧ (some Demo.configuredPose).getD Demo.tracking.initial_track_pose = [1, 2, 3, 0, 0, 0]
    ∧ (on_reset_tracking Demo.lib Demo.tracking (some Demo.configuredPose)
          ⟨false⟩).state.base_to_odom_transform
        = ⟨Demo.lib.rotation (Demo.lib.setRPY 0 0 0), Demo.lib.vector3 1 2 3⟩
    ∧ (on_reset_tracking Demo.lib Demo.tracking (some Demo.configuredPose)
          ⟨false⟩).state.odom_to_map_transform
        = ⟨Demo.lib.rotation (Demo.lib.setRPY 0 0 0), Demo.lib.vector3 1 2 3⟩ :=
  ⟨rfl, rfl,
    ((set_pose_overrides Demo.lib Demo.tracking 1 2 3 0 0 0).2.2 (some Demo.configuredPose)
      ⟨false⟩ rfl rfl).1,
    ((set_pose_overrides Demo.lib Demo.tracking 1 2 3 0 0 0).2.2 (some Demo.configuredPose)
      ⟨false⟩ rfl rfl).2⟩

end Claims

section ServiceClaims

variable {V Rot : Type} [Group Rot] [AddGroup V] [DistribMulAction Rot V]

/-- C11. With tracking inactive, `on_reset_tracking` returns false with `reset_done` false,
calls nothing in the SDK, and leaves the whole state as it was, whatever the parameter
server holds for the initial pose: `base_to_odom`, `odom_to_map`, `initial_pose_sl` and
`initial_track_pose` are untouched. -/
theorem reset_tracking_refused (lib : Tf2 V Rot) (s : State V Rot) (param : Option (List ℚ))
    (res : ResetTrackingResponse) (hoff : s.tracking_activated = false) :
    (on_reset_tracking lib s param res).ret = false
      ∧ (on_reset_tracking lib s param res).res.reset_done = false
      ∧ (on_reset_tracking lib s param res).events = []
      ∧ (on_reset_tracking lib s param res).state = s
      ∧ (on_reset_tracking lib s param res).state.base_to_odom_transform
          = s.base_to_odom_transform
      ∧ (on_reset_tracking lib s param res).state.odom_to_map_transform
          = s.odom_to_map_transform
      ∧ (on_reset_tracking lib s param res).state.initial_pose_sl = s.initial_pose_sl
      ∧ (on_reset_tracking lib s param res).state.initial_track_pose
          = s.initial_track_pose := by
  simp [on_reset_tracking, hoff]

/-- Witness of C11: tracking is off and the parameter server holds a new pose. -/
theorem reset_tracking_refused_witness :
    Demo.state.tracking_activated = false
    ∧ (on_reset_tracking Demo.lib Demo.state (some Demo.configuredPose) ⟨true⟩).ret = false
    ∧ (on_reset_tracking Demo.lib Demo.state (some Demo.configuredPose)
        ⟨true⟩).res.reset_done = false
    ∧ (on_reset_tracking Demo.lib Demo.state (some Demo.configuredPose) ⟨true⟩).events = []
    ∧ (on_reset_tracking Demo.lib Demo.state (some Demo.configuredPose) ⟨true⟩).state
        = Demo.state :=
  ⟨rfl,
    (reset_tracking_refused Demo.lib Demo.state (some Demo.configuredPose) ⟨true⟩ rfl).1,
    (reset_tracking_refused Demo.lib Demo.state (some Demo.configuredPose) ⟨true⟩ rfl).2.1,
    (reset_tracking_refused Demo.lib Demo.state (some Demo.configuredPose) ⟨true⟩ rfl).2.2.1,
    (reset_tracking_refused Demo.lib Demo.state (some Demo.configuredPose)
      ⟨true⟩ rfl).2.2.2.1⟩

/-- C12. With tracking active and a re-read initial pose vector whose length is not 6,
`on_reset_tracking` sets `base_to_odom`, `odom_to_map` and the SDK initial pose to
identity, calls `resetTracking` once, with that identity pose, and returns true. -/
theorem reset_tracking_falls_back_to_identity (lib : Tf2 V Rot) (s : State V Rot)
    (param : Option (List ℚ)) (res : ResetTrackingResponse)
    (hon : s.tracking_activated = true)
    (hlen : (param.getD s.initial_track_pose).length ≠ 6) :
    (on_reset_tracking lib s param res).state.base_to_odom_transform = Transform.identity
      ∧ (on_reset_tracking lib s param res).state.odom_to_map_transform = Transform.identity
      ∧ (on_reset_tracking lib s param res).state.initial_pose_sl = SlTransform.identity
      ∧ (on_reset_tracking lib s param res).events
          = [Event.resetTracking SlTransform.identity]
      ∧ (on_reset_tracking lib s param res).ret = true := by
  simp [on_reset_tracking, hon, hlen]

/-- Witness of C12: tracking runs and the parameter server holds three numbers. -/
theorem reset_tracking_falls_back_to_identity_witness :
    Demo.tracking.tracking_activated = true
    ∧ ((some [1, 2, 3]).getD Demo.tracking.initial_track_pose).length ≠ 6
    ∧ (on_reset_tracking Demo.lib Demo.tracking (some [1, 2, 3]) ⟨false⟩).events
        = [Event.resetTracking SlTransform.identity]
    ∧ (on_reset_tracking Demo.lib Demo.tracking (some [1, 2, 3])
        ⟨false⟩).state.base_to_odom_transform = Transform.identity :=
  ⟨rfl, by decide,
    (reset_tracking_falls_back_to_identity Demo.lib Demo.tracking (some [1, 2, 3]) ⟨false⟩
      rfl (by decide)).2.2.2.1,
    (reset_tracking_falls_back_to_identity Demo.lib Demo.tracking (some [1, 2, 3]) ⟨false⟩
      rfl (by decide)).1⟩

/-- C14 (failing input). The initial pose vector has three entries and `base_to_odom` has
moved to `(1, 2, 3)`: `start_tracking` sets `odom_to_map` and the SDK initial pose to
identity and `tracking_activated` to true, but leaves `base_to_odom` at `(1, 2, 3)`. -/
theorem start_tracking_keeps_base_to_odom :
    Demo.shortPose.initial_track_pose.length ≠ 6
    ∧ (start_tracking Demo.lib Demo.shortPose).state.tracking_activated = true
    ∧ (start_tracking Demo.lib Demo.shortPose).state.odom_to_map_transform
        = Transform.identity
    ∧ (start_tracking Demo.lib Demo.shortPose).state.base_to_odom_transform
        = ⟨1, (1, 2, 3)⟩
    ∧ (start_tracking Demo.lib Demo.shortPose).state.base_to_odom_transform
        ≠ Transform.identity
    ∧ (start_tracking Demo.lib Demo.shortPose).events
        = [Event.enableTracking SlTransform.identity] := by
  decide

end ServiceClaims

/-- C13. For every request and state, `on_set_pose` returns true with `done` true, stores
the six request values as `initial_track_pose`, leaves `tracking_activated` as it was, and
calls `resetTracking` exactly when tracking is active, with the initial pose just built
from the request. -/
theorem set_pose_service {V Rot : Type} (lib : Tf2 V Rot) (s : State V Rot)
    (req : SetPoseRequest) (res : SetPoseResponse) :
    (on_set_pose lib s req res).ret = true
      ∧ (on_set_pose lib s req res).res.done = true
      ∧ (on_set_pose lib s req res).state.initial_track_pose
          = [req.x, req.y, req.z, req.R, req.P, req.Y]
      ∧ (on_set_pose lib s req res).state.tracking_activated = s.tracking_activated
      ∧ (on_set_pose lib s req res).state.initial_pose_sl
          = ⟨req.x, req.y, req.z,
              ⟨(lib.setRPY req.R req.P req.Y).x, (lib.setRPY req.R req.P req.Y).y,
                (lib.setRPY req.R req.P req.Y).z, (lib.setRPY req.R req.P req.Y).w⟩⟩
      ∧ (on_set_pose lib s req res).events
          = (if s.tracking_activated then
              [Event.resetTracking (on_set_pose lib s req res).state.initial_pose_sl]
             else [])
      ∧ ((∃ p, Event.resetTracking p ∈ (on_set_pose lib s req res).events)
          ↔ s.tracking_activated = true) := by
  refine ⟨rfl, rfl, rfl, rfl, rfl, rfl, ?_⟩
  cases h : s.tracking_activated <;> simp [on_set_pose, set_pose, h]

section CoordinateClaims

variable {V Rot : Type}

/-- C15. For every SDK version the tuple selected in `onInit` has
`{x_idx, y_idx, z_idx} = {0, 1, 2}` and each of its signs is -1 or +1. -/
theorem selected_axes_signed_permutation (s : State V Rot) (ver_major ver_minor : Int) :
    ({(onInit_coordinates s ver_major ver_minor).2.x_idx,
        (onInit_coordinates s ver_major ver_minor).2.y_idx,
        (onInit_coordinates s ver_major ver_minor).2.z_idx} : Finset Nat) = {0, 1, 2}
      ∧ ((onInit_coordinates s ver_major ver_minor).2.x_sign = -1
          ∨ (onInit_coordinates s ver_major ver_minor).2.x_sign = 1)
      ∧ ((onInit_coordinates s ver_major ver_minor).2.y_sign = -1
          ∨ (onInit_coordinates s ver_major ver_minor).2.y_sign = 1)
      ∧ ((onInit_coordinates s ver_major ver_minor).2.z_sign = -1
          ∨ (onInit_coordinates s ver_major ver_minor).2.z_sign = 1) := by
  unfold onInit_coordinates
  split_ifs <;> dsimp only <;> decide

/-- C16. The selection in `onInit` is defined for all integers `(ver_major, ver_minor)`:
`ver_major < 2` gives `(2, 0, 1, +1, -1, -1)`; `ver_major = 2` with `ver_minor < 5` gives
`(1, 0, 2, +1, -1, +1)`; every other version, so every `ver_major > 2`, gives
`(0, 1, 2, +1, +1, +1)`. -/
theorem selected_axes_by_version (s : State V Rot) (ver_major ver_minor : Int) :
    (ver_major < 2 →
        (onInit_coordinates s ver_major ver_minor).2.axes = (2, 0, 1, 1, -1, -1)
        ∧ (onInit_coordinates s ver_major ver_minor).1 = CoordinateSystem.image)
      ∧ (ver_major = 2 ∧ ver_minor < 5 →
        (onInit_coordinates s ver_major ver_minor).2.axes = (1, 0, 2, 1, -1, 1)
        ∧ (onInit_coordinates s ver_major ver_minor).1 = CoordinateSystem.rightHandedZUp)
      ∧ (¬ ver_major < 2 ∧ ¬ (ver_major = 2 ∧ ver_minor < 5) →
        (onInit_coordinates s ver_major ver_minor).2.axes = (0, 1, 2, 1, 1, 1)
        ∧ (onInit_coordinates s ver_major ver_minor).1
            = CoordinateSystem.rightHandedZUpXFwd)
      ∧ (ver_major > 2 →
        (onInit_coordinates s ver_major ver_minor).2.axes = (0, 1, 2, 1, 1, 1)) := by
  refine ⟨?_, ?_, ?_, ?_⟩
  · intro h
    simp [onInit_coordinates, h, State.axes]
  · intro h
    have h2 : ¬ ver_major < 2 := by omega
    simp [onInit_coordinates, h, State.axes]
  · intro h
    simp [onInit_coordinates, h.1, h.2, State.axes]
  · intro h
    have h1 : ¬ ver_major < 2 := by omega
    have h2 : ¬ ver_major = 2 := by omega
    simp [onInit_coordinates, h1, h2, State.axes]


/-- The point map of `publishPointCloud` is multiplication by the remap matrix, for
indices below 3. -/
theorem cloud_point_eq_mulVec (s : State V Rot) (p : Nat → ℚ)
    (hx : s.x_idx < 3) (hy : s.y_idx < 3) (hz : s.z_idx < 3) :
    cloud_point s p
      = { x := (remapMatrix s).mulVec (fun j : Fin 3 => p j) 0
          y := (remapMatrix s).mulVec (fun j : Fin 3 => p j) 1
          z := (remapMatrix s).mulVec (fun j : Fin 3 => p j) 2
          rgb := p 3 } := by
  have key : ∀ (k : Nat) (c : ℚ), k < 3 →
      c * p k = ((if 0 = k then c * p 0 else 0) + if 1 = k then c * p 1 else 0)
        + if 2 = k then c * p 2 else 0 := by
    intro k c hk
    interval_cases k <;> simp
  simp only [cloud_point, remapMatrix, Matrix.mulVec, Matrix.dotProduct, Fin.sum_univ_three,
    Matrix.of_apply]
  simp
  exact ⟨key _ _ hx, key _ _ hy, key _ _ hz⟩

/-- C17. For each tuple that `onInit` can select, the signed permutation matrix `M` of the
tuple has determinant +1, every point written by `publishPointCloud` is `M` applied to the
SDK point (the fourth component copied), and the transpose of `M` undoes `M` on every
vector. -/
theorem selected_remap_is_rotation (s : State V Rot) (ver_major ver_minor : Int) :
    (remapMatrix (onInit_coordinates s ver_major ver_minor).2).det = 1
      ∧ (∀ (cloud : Nat → Nat → ℚ) (width height : Int),
          (publishPointCloud (onInit_coordinates s ver_major ver_minor).2 cloud width
              height).points
            = (List.range (width * height).toNat).map fun i =>
                { x := (remapMatrix (onInit_coordinates s ver_major ver_minor).2).mulVec
                    (fun j : Fin 3 => cloud i j) 0
                  y := (remapMatrix (onInit_coordinates s ver_major ver_minor).2).mulVec
                    (fun j : Fin 3 => cloud i j) 1
                  z := (remapMatrix (onInit_coordinates s ver_major ver_minor).2).mulVec
                    (fun j : Fin 3 => cloud i j) 2
                  rgb := cloud i 3 })
      ∧ (∀ v : Fin 3 → ℚ,
          (remapMatrix (onInit_coordinates s ver_major ver_minor).2).transpose.mulVec
            ((remapMatrix (onInit_coordinates s ver_major ver_minor).2).mulVec v) = v) := by
  have hidx : (onInit_coordinates s ver_major ver_minor).2.x_idx < 3
      ∧ (onInit_coordinates s ver_major ver_minor).2.y_idx < 3
      ∧ (onInit_coordinates s ver_major ver_minor).2.z_idx < 3 := by
    unfold onInit_coordinates
    split_ifs <;> dsimp only <;> decide
  refine ⟨?_, ?_, ?_⟩
  · unfold onInit_coordinates
    split_ifs <;> simp [remapMatrix, Matrix.det_fin_three]
  · intro cloud width height
    simp only [publishPointCloud]
    apply List.map_congr_left
    intro i _
    exact cloud_point_eq_mulVec _ _ hidx.1 hidx.2.1 hidx.2.2
  · intro v
    unfold onInit_coordinates
    split_ifs <;>
      (funext j
       fin_cases j <;>
         simp [remapMatrix, Matrix.mulVec, Matrix.dotProduct, Fin.sum_univ_three])

end CoordinateClaims

/-- Witness of C16: versions 1.0, 2.4, 2.5 and 3.0. -/
theorem selected_axes_by_version_witness :
    (1 : Int) < 2 ∧ ((2 : Int) = 2 ∧ (4 : Int) < 5)
    ∧ (¬ (2 : Int) < 2 ∧ ¬ ((2 : Int) = 2 ∧ (5 : Int) < 5)) ∧ (3 : Int) > 2
    ∧ (onInit_coordinates Demo.state 1 0).2.axes = (2, 0, 1, 1, -1, -1)
    ∧ (onInit_coordinates Demo.state 2 4).2.axes = (1, 0, 2, 1, -1, 1)
    ∧ (onInit_coordinates Demo.state 2 5).2.axes = (0, 1, 2, 1, 1, 1)
    ∧ (onInit_coordinates Demo.state 3 0).2.axes = (0, 1, 2, 1, 1, 1) :=
  ⟨by decide, by decide, by decide, by decide,
    ((selected_axes_by_version Demo.state 1 0).1 (by decide)).1,
    ((selected_axes_by_version Demo.state 2 4).2.1 (by decide)).1,
    ((selected_axes_by_version Demo.state 2 5).2.2.1 (by decide)).1,
    (selected_axes_by_version Demo.state 3 0).2.2.2 (by decide)⟩

section RemapClaims

variable {V Rot : Type} [Group Rot] [AddGroup V] [DistribMulAction Rot V]

/-- C18. For every remap tuple, SDK translation `t` and SDK quaternion `q`: the transform
message built from an SDK pose has translation
`(x_sign * t[x_idx], y_sign * t[y_idx], z_sign * t[z_idx])` and rotation
`(x_sign * q[x_idx], y_sign * q[y_idx], z_sign * q[z_idx], q[3])`; the odometry block
composes the message of the incremental pose, the pose block the message of the world pose;
and the IMU message, published when the IMU channel is subscribed, carries the orientation
remapped in the same way, its scalar component read from index 3. -/
theorem remapped_poses (lib : Tf2 V Rot) (ql : Tf2Quat Rot) (s : State V Rot)
    (i : TickInput V Rot) (d : IMUData) :
    (∀ p : SlPose, remapPose s p
        = { tx := s.x_sign * p.translation s.x_idx
            ty := s.y_sign * p.translation s.y_idx
            tz := s.z_sign * p.translation s.z_idx
            rotation := ⟨s.x_sign * p.orientation s.x_idx, s.y_sign * p.orientation s.y_idx,
              s.z_sign * p.orientation s.z_idx, p.orientation 3⟩ })
      ∧ (odom_update lib s i).state.base_to_odom_transform
          = (if i.subs.pose > 0 ∨ i.subs.odom > 0 ∨ i.subs.cloud > 0 ∨ i.subs.depth > 0 then
              s.base_to_odom_transform
                * (sensor_to_base i * fromMsg lib (remapPose s i.deltaOdom)
                    * (sensor_to_base i)⁻¹)
             else s.base_to_odom_transform)
      ∧ (pose_update lib s i).state.odom_to_map_transform
          = (if i.subs.pose > 0 ∨ i.subs.cloud > 0 ∨ i.subs.depth > 0 then
              sensor_to_base i * fromMsg lib (remapPose s i.zed_pose) * (sensor_to_base i)⁻¹
                * s.base_to_odom_transform⁻¹
             else s.odom_to_map_transform)
      ∧ (imu_msg s d).orientation
          = ⟨s.x_sign * d.orientation s.x_idx, s.y_sign * d.orientation s.y_idx,
              s.z_sign * d.orientation s.z_idx, d.orientation 3⟩
      ∧ (∀ (imu_SubNumber imu_RawSubNumber : Int) (b2m : Option (Transform V Rot)),
          imu_SubNumber > 0 →
          (imuPubCallback lib ql s imu_SubNumber imu_RawSubNumber d b2m).head?
            = some (ImuEvent.publishImu (imu_msg s d))) := by
  refine ⟨fun _ => rfl, ?_, ?_, rfl, ?_⟩
  · rw [odom_update_state]
  · rw [pose_update_state]
  · intro n r b2m hn
    have h1 : ¬ (n < 1 ∧ r < 1) := by omega
    simp [imuPubCallback, h1, hn]

/-- Witness of C18: the IMU channel has one subscriber. -/
theorem remapped_poses_witness :
    (1 : Int) > 0
    ∧ (imuPubCallback Demo.lib Demo.quatLib Demo.state 1 0 Demo.imuData none).head?
        = some (ImuEvent.publishImu (imu_msg Demo.state Demo.imuData))
    ∧ (imu_msg Demo.state Demo.imuData).orientation
        = ⟨Demo.state.x_sign * Demo.imuData.orientation Demo.state.x_idx,
            Demo.state.y_sign * Demo.imuData.orientation Demo.state.y_idx,
            Demo.state.z_sign * Demo.imuData.orientation Demo.state.z_idx,
            Demo.imuData.orientation 3⟩ :=
  ⟨by decide,
    (remapped_poses Demo.lib Demo.quatLib Demo.state Demo.cloudTick Demo.imuData).2.2.2.2
      1 0 none (by decide),
    (remapped_poses Demo.lib Demo.quatLib Demo.state Demo.cloudTick Demo.imuData).2.2.2.1⟩

/-- C19 (failing input). With the newest convention `(0, 1, 2, +1, +1, +1)` and covariance
arrays holding `1 .. 9`, the published IMU message carries `1, 2, 3` in the first row of
each covariance and zero in the two other rows: its entry `[1][1]` is 0 where the SDK
entry `[1][1]` is 5. -/
theorem imu_covariance_first_row_only :
    Demo.state.axes = (0, 1, 2, 1, 1, 1)
    ∧ for_indices 3 3 = [0]
    ∧ (imu_msg Demo.state Demo.imuData).orientation_covariance
        = [1, 2, 3, 0, 0, 0, 0, 0, 0]
    ∧ (imu_msg Demo.state Demo.imuData).angular_velocity_covariance
        = [1, 2, 3, 0, 0, 0, 0, 0, 0]
    ∧ (imu_msg Demo.state Demo.imuData).linear_acceleration_covariance
        = [1, 2, 3, 0, 0, 0, 0, 0, 0]
    ∧ Demo.imuData.orientation_covariance (1 * 3 + 1) = 5
    ∧ (imu_msg Demo.state Demo.imuData).orientation_covariance.getD (1 * 3 + 1) 0 = 0
    ∧ (imuPubCallback Demo.lib Demo.quatLib Demo.state 1 0 Demo.imuData none).head?
        = some (ImuEvent.publishImu (imu_msg Demo.state Demo.imuData)) := by
  refine ⟨by decide, by decide, by decide, by decide, by decide, by decide, by decide, ?_⟩
  rfl

end RemapClaims

section ReconfigureClaims

variable {V Rot : Type}

/-- C22. For every config, `dynamicReconfCallback` at levels 0 to 10 copies from the config
the one setting the level names and leaves every other member and, outside level 4, every
camera-info message as it was; levels 3 and 10 also set their latch when the new flag is
true; at level 4 the only members that change are `mat_resize_factor`, copied from the
config, and the output size `mat_width`, `mat_height`, and the camera-info messages are
regenerated for the new size; every level above 10 leaves state and messages unchanged;
and at no level does the handler call the SDK with an effect. -/
theorem reconfigure_changes_named_setting (convertRodrigues : (Nat → ℚ) → Nat → ℚ)
    (zed : Int → Int → CameraInformation) (scaled : Int → ℚ → Int) (config : ZedConfig)
    (s : State V Rot) (m : CamInfoMsgs) :
    dynamicReconfCallback convertRodrigues zed scaled config 0 s m
        = { state := { s with confidence := config.confidence }, infos := m, events := [] }
      ∧ dynamicReconfCallback convertRodrigues zed scaled config 1 s m
        = { state := { s with exposure := config.exposure }, infos := m, events := [] }
      ∧ dynamicReconfCallback convertRodrigues zed scaled config 2 s m
        = { state := { s with gain := config.gain }, infos := m, events := [] }
      ∧ dynamicReconfCallback convertRodrigues zed scaled config 3 s m
        = { state :=
              { s with
                autoExposure := config.auto_exposure
                triggerAutoExposure := s.triggerAutoExposure || config.auto_exposure }
            infos := m
            events := [] }
      ∧ (dynamicReconfCallback convertRodrigues zed scaled config 4 s m).state
        = { s with
            mat_resize_factor := config.mat_resize_factor
            mat_width := (dynamicReconfCallback convertRodrigues zed scaled config 4 s m).state.mat_width
            mat_height := (dynamicReconfCallback convertRodrigues zed scaled config 4 s m).state.mat_height }
      ∧ (dynamicReconfCallback convertRodrigues zed scaled config 4 s m).infos
        = { left_cam_info_msg :=
              (fillCamInfo convertRodrigues
                (dynamicReconfCallback convertRodrigues zed scaled config 4 s m).state zed
                m.left_cam_info_msg m.right_cam_info_msg false).1
            right_cam_info_msg :=
              (fillCamInfo convertRodrigues
                (dynamicReconfCallback convertRodrigues zed scaled config 4 s m).state zed
                m.left_cam_info_msg m.right_cam_info_msg false).2
            left_cam_info_raw_msg :=
              (fillCamInfo convertRodrigues
                (dynamicReconfCallback convertRodrigues zed scaled config 4 s m).state zed
                m.left_cam_info_raw_msg m.right_cam_info_raw_msg true).1
            right_cam_info_raw_msg :=
              (fillCamInfo convertRodrigues
                (dynamicReconfCallback convertRodrigues zed scaled config 4 s m).state zed
                m.left_cam_info_raw_msg m.right_cam_info_raw_msg true).2
            rgb_cam_info_msg :=
              (fillCamInfo convertRodrigues
                (dynamicReconfCallback convertRodrigues zed scaled config 4 s m).state zed
                m.left_cam_info_msg m.right_cam_info_msg false).1
            rgb_cam_info_raw_msg :=
              (fillCamInfo convertRodrigues
                (dynamicReconfCallback convertRodrigues zed scaled config 4 s m).state zed
                m.left_cam_info_raw_msg m.right_cam_info_raw_msg true).1
            depth_cam_info_msg :=
              (fillCamInfo convertRodrigues
                (dynamicReconfCallback convertRodrigues zed scaled config 4 s m).state zed
                m.left_cam_info_msg m.right_cam_info_msg false).1 }
      ∧ dynamicReconfCallback convertRodrigues zed scaled config 5 s m
        = { state := { s with brightness := config.brightness }, infos := m, events := [] }
      ∧ dynamicReconfCallback convertRodrigues zed scaled config 6 s m
        = { state := { s with contrast := config.contrast }, infos := m, events := [] }
      ∧ dynamicReconfCallback convertRodrigues zed scaled config 7 s m
        = { state := { s with hue := config.hue }, infos := m, events := [] }
      ∧ dynamicReconfCallback convertRodrigues zed scaled config 8 s m
        = { state := { s with saturation := config.saturation }, infos := m, events := [] }
      ∧ dynamicReconfCallback convertRodrigues zed scaled config 9 s m
        = { state := { s with whitebalance := config.whitebalance }, infos := m, events := [] }
      ∧ dynamicReconfCallback convertRodrigues zed scaled config 10 s m
        = { state :=
              { s with
                autoWhitebalance := config.auto_whitebalance
                triggerAutoWhitebalance :=
                  s.triggerAutoWhitebalance || config.auto_whitebalance }
            infos := m
            events := [] }
      ∧ (∀ k : Nat, dynamicReconfCallback convertRodrigues zed scaled config (k + 11) s m
          = { state := s, infos := m, events := [] })
      ∧ (∀ level : Nat, (dynamicReconfCallback convertRodrigues zed scaled config level s m).events = []) := by
  refine ⟨rfl, rfl, rfl, ?_, rfl, rfl, rfl, rfl, rfl, rfl, rfl, ?_, fun _ => rfl, ?_⟩
  · cases h : config.auto_exposure <;> simp [dynamicReconfCallback, h]
  · cases h : config.auto_whitebalance <;> simp [dynamicReconfCallback, h]
  · intro level
    by_cases hl : level ≤ 10
    · interval_cases level <;> rfl
    · obtain ⟨k, rfl⟩ : ∃ k, level = k + 11 := ⟨level - 11, by omega⟩
      rfl

end ReconfigureClaims

section MessageClaims

variable {V Rot : Type}

/-- C23. The disparity message carries the focal length `fx` of the left camera and the
baseline `T`; with a non-zero depth range its `min_disparity` is `fx * T / max_depth` and
its `max_disparity` is `fx * T / min_depth`, so each bound times its depth is `fx * T`. -/
theorem disparity_bounds (s : State V Rot) (zed : Int → Int → CameraInformation)
    (max_depth min_depth : ℚ) (hmax : max_depth ≠ 0) (hmin : min_depth ≠ 0) :
    (publishDisparity s zed max_depth min_depth).f
        = (zed s.mat_width s.mat_height).calibration_parameters.left_cam.fx
      ∧ (publishDisparity s zed max_depth min_depth).T
        = (zed s.mat_width s.mat_height).calibration_parameters.T 0
      ∧ (publishDisparity s zed max_depth min_depth).min_disparity
        = (zed s.mat_width s.mat_height).calibration_parameters.left_cam.fx
          * (zed s.mat_width s.mat_height).calibration_parameters.T 0 / max_depth
      ∧ (publishDisparity s zed max_depth min_depth).max_disparity
        = (zed s.mat_width s.mat_height).calibration_parameters.left_cam.fx
          * (zed s.mat_width s.mat_height).calibration_parameters.T 0 / min_depth
      ∧ (publishDisparity s zed max_depth min_depth).min_disparity * max_depth
        = (zed s.mat_width s.mat_height).calibration_parameters.left_cam.fx
          * (zed s.mat_width s.mat_height).calibration_parameters.T 0
      ∧ (publishDisparity s zed max_depth min_depth).max_disparity * min_depth
        = (zed s.mat_width s.mat_height).calibration_parameters.left_cam.fx
          * (zed s.mat_width s.mat_height).calibration_parameters.T 0 := by
  refine ⟨rfl, rfl, rfl, rfl, ?_, ?_⟩
  · simp only [publishDisparity]
    exact div_mul_cancel₀ _ hmax
  · simp only [publishDisparity]
    exact div_mul_cancel₀ _ hmin

/-- Witness of C23: focal length 700, baseline 120, depth range from 1/2 to 20. -/
theorem disparity_bounds_witness :
    (20 : ℚ) ≠ 0 ∧ (1 / 2 : ℚ) ≠ 0
    ∧ (publishDisparity Demo.state Demo.camera 20 (1 / 2)).f = 700
    ∧ (publishDisparity Demo.state Demo.camera 20 (1 / 2)).T = 120
    ∧ (publishDisparity Demo.state Demo.camera 20 (1 / 2)).min_disparity * 20 = 700 * 120
    ∧ (publishDisparity Demo.state Demo.camera 20 (1 / 2)).max_disparity * (1 / 2)
        = 700 * 120 :=
  ⟨by norm_num, by norm_num,
    (disparity_bounds Demo.state Demo.camera 20 (1 / 2) (by norm_num) (by norm_num)).1,
    (disparity_bounds Demo.state Demo.camera 20 (1 / 2) (by norm_num) (by norm_num)).2.1,
    (disparity_bounds Demo.state Demo.camera 20 (1 / 2) (by norm_num)
      (by norm_num)).2.2.2.2.1,
    (disparity_bounds Demo.state Demo.camera 20 (1 / 2) (by norm_num)
      (by norm_num)).2.2.2.2.2⟩

/-- Five writes at indices 0 to 4 after `resize(5)` fix the whole vector. -/
theorem resize_five_set (l : List ℚ) (a b c d e : ℚ) :
    (((((resize l 5).set 0 a).set 1 b).set 2 c).set 3 d).set 4 e = [a, b, c, d, e] := by
  rcases l with _ | ⟨x0, _ | ⟨x1, _ | ⟨x2, _ | ⟨x3, _ | ⟨x4, l⟩⟩⟩⟩⟩ <;> rfl

/-- C24. For both values of `raw_param`, whatever the messages held before, `fillCamInfo`
writes for the left and for the right camera a `D` of five entries
`(d[0], d[1], d[4], d[2], d[3])`, with `d` the distortion vector of that camera in the
selected calibration; the index list `0, 1, 4, 2, 3` is a permutation of `0 .. 4`, so `D`
is a permutation of `d[0] .. d[4]`. -/
theorem distortion_reordered (convertRodrigues : (Nat → ℚ) → Nat → ℚ) (s : State V Rot)
    (zed : Int → Int → CameraInformation) (left right : CameraInfo) (raw_param : Bool) :
    (fillCamInfo convertRodrigues s zed left right raw_param).1.D
        = [0, 1, 4, 2, 3].map
            (if raw_param then (zed s.mat_width s.mat_height).calibration_parameters_raw
             else (zed s.mat_width s.mat_height).calibration_parameters).left_cam.disto
      ∧ (fillCamInfo convertRodrigues s zed left right raw_param).2.D
        = [0, 1, 4, 2, 3].map
            (if raw_param then (zed s.mat_width s.mat_height).calibration_parameters_raw
             else (zed s.mat_width s.mat_height).calibration_parameters).right_cam.disto
      ∧ [0, 1, 4, 2, 3].Perm (List.range 5)
      ∧ ((fillCamInfo convertRodrigues s zed left right raw_param).1.D).Perm
          ((List.range 5).map
            (if raw_param then (zed s.mat_width s.mat_height).calibration_parameters_raw
             else (zed s.mat_width s.mat_height).calibration_parameters).left_cam.disto)
      ∧ ((fillCamInfo convertRodrigues s zed left right raw_param).2.D).Perm
          ((List.range 5).map
            (if raw_param then (zed s.mat_width s.mat_height).calibration_parameters_raw
             else (zed s.mat_width s.mat_height).calibration_parameters).right_cam.disto) := by
  have hl : (fillCamInfo convertRodrigues s zed left right raw_param).1.D
      = [0, 1, 4, 2, 3].map
          (if raw_param then (zed s.mat_width s.mat_height).calibration_parameters_raw
           else (zed s.mat_width s.mat_height).calibration_parameters).left_cam.disto := by
    simp only [fillCamInfo, resize_five_set]
    rfl
  have hr : (fillCamInfo convertRodrigues s zed left right raw_param).2.D
      = [0, 1, 4, 2, 3].map
          (if raw_param then (zed s.mat_width s.mat_height).calibration_parameters_raw
           else (zed s.mat_width s.mat_height).calibration_parameters).right_cam.disto := by
    simp only [fillCamInfo, resize_five_set]
    rfl
  have hp : [0, 1, 4, 2, 3].Perm (List.range 5) := by decide
  refine ⟨hl, hr, hp, ?_, ?_⟩
  · rw [hl]
    exact hp.map _
  · rw [hr]
    exact hp.map _

/-- C25. For every calibration and both values of `raw_param`, `fillCamInfo` writes for each
camera `K = [fx, 0, cx; 0, fy, cy; 0, 0, 1]` and `P = [fx, 0, cx, Tx; 0, fy, cy, 0; 0, 0, 1, 0]`
from that camera's own parameters, with `Tx = 0` for the left camera and
`Tx = -(left fx) * baseline` for the right one; the left `R` is the identity; the right
`R` is the identity when `raw_param` is false and the nine converted entries of the SDK
rotation vector when it is true. -/
theorem intrinsics_filled (convertRodrigues : (Nat → ℚ) → Nat → ℚ) (s : State V Rot)
    (zed : Int → Int → CameraInformation) (left right : CameraInfo) (raw_param : Bool) :
    (fillCamInfo convertRodrigues s zed left right raw_param).1.K
        = [(if raw_param then (zed s.mat_width s.mat_height).calibration_parameters_raw
              else (zed s.mat_width s.mat_height).calibration_parameters).left_cam.fx, 0,
            (if raw_param then (zed s.mat_width s.mat_height).calibration_parameters_raw
              else (zed s.mat_width s.mat_height).calibration_parameters).left_cam.cx,
            0,
            (if raw_param then (zed s.mat_width s.mat_height).calibration_parameters_raw
              else (zed s.mat_width s.mat_height).calibration_parameters).left_cam.fy,
            (if raw_param then (zed s.mat_width s.mat_height).calibration_parameters_raw
              else (zed s.mat_width s.mat_height).calibration_parameters).left_cam.cy,
            0, 0, 1]
      ∧ (fillCamInfo convertRodrigues s zed left right raw_param).2.K
        = [(if raw_param then (zed s.mat_width s.mat_height).calibration_parameters_raw
              else (zed s.mat_width s.mat_height).calibration_parameters).right_cam.fx, 0,
            (if raw_param then (zed s.mat_width s.mat_height).calibration_parameters_raw
              else (zed s.mat_width s.mat_height).calibration_parameters).right_cam.cx,
            0,
            (if raw_param then (zed s.mat_width s.mat_height).calibration_parameters_raw
              else (zed s.mat_width s.mat_height).calibration_parameters).right_cam.fy,
            (if raw_param then (zed s.mat_width s.mat_height).calibration_parameters_raw
              else (zed s.mat_width s.mat_height).calibration_parameters).right_cam.cy,
            0, 0, 1]
      ∧ (fillCamInfo convertRodrigues s zed left right raw_param).1.P
        = [(if raw_param then (zed s.mat_width s.mat_height).calibration_parameters_raw
              else (zed s.mat_width s.mat_height).calibration_parameters).left_cam.fx, 0,
            (if raw_param then (zed s.mat_width s.mat_height).calibration_parameters_raw
              else (zed s.mat_width s.mat_height).calibration_parameters).left_cam.cx,
            0,
            0,
            (if raw_param then (zed s.mat_width s.mat_height).calibration_parameters_raw
              else (zed s.mat_width s.mat_height).calibration_parameters).left_cam.fy,
            (if raw_param then (zed s.mat_width s.mat_height).calibration_parameters_raw
              else (zed s.mat_width s.mat_height).calibration_parameters).left_cam.cy,
            0,
            0, 0, 1, 0]
      ∧ (fillCamInfo convertRodrigues s zed left right raw_param).2.P
        = [(if raw_param then (zed s.mat_width s.mat_height).calibration_parameters_raw
              else (zed s.mat_width s.mat_height).calibration_parameters).right_cam.fx, 0,
            (if raw_param then (zed s.mat_width s.mat_height).calibration_parameters_raw
              else (zed s.mat_width s.mat_height).calibration_parameters).right_cam.cx,
            -(if raw_param then (zed s.mat_width s.mat_height).calibration_parameters_raw
                else (zed s.mat_width s.mat_height).calibration_parameters).left_cam.fx
              * (if raw_param then (zed s.mat_width s.mat_height).calibration_parameters_raw
                  else (zed s.mat_width s.mat_height).calibration_parameters).T 0,
            0,
            (if raw_param then (zed s.mat_width s.mat_height).calibration_parameters_raw
              else (zed s.mat_width s.mat_height).calibration_parameters).right_cam.fy,
            (if raw_param then (zed s.mat_width s.mat_height).calibration_parameters_raw
              else (zed s.mat_width s.mat_height).calibration_parameters).right_cam.cy,
            0,
            0, 0, 1, 0]
      ∧ (fillCamInfo convertRodrigues s zed left right raw_param).1.R
        = [1, 0, 0, 0, 1, 0, 0, 0, 1]
      ∧ (fillCamInfo convertRodrigues s zed left right raw_param).2.R
        = (if raw_param then
            (List.range 9).map
              (convertRodrigues (zed s.mat_width s.mat_height).calibration_parameters_raw.R)
           else [1, 0, 0, 0, 1, 0, 0, 0, 1]) := by
  cases raw_param
  · refine ⟨rfl, rfl, rfl, ?_, rfl, rfl⟩
    simp [fillCamInfo]
  · refine ⟨rfl, rfl, rfl, ?_, rfl, rfl⟩
    simp [fillCamInfo]

end MessageClaims

section ImuClaims

variable {V Rot : Type} [Group Rot] [AddGroup V] [DistribMulAction Rot V]

/-- C26. For every IMU sample and remap tuple, a raw IMU message is published exactly when
the raw channel has a subscriber, and every raw message published by `imuPubCallback`
carries the remapped angular velocity and linear acceleration, an all-zero orientation,
and -1 in entry 0 of an otherwise zero orientation covariance. -/
theorem raw_imu_message (lib : Tf2 V Rot) (ql : Tf2Quat Rot) (s : State V Rot)
    (imu_SubNumber imu_RawSubNumber : Int) (d : IMUData) (b2m : Option (Transform V Rot)) :
    (∀ msg, ImuEvent.publishImuRaw msg
          ∈ imuPubCallback lib ql s imu_SubNumber imu_RawSubNumber d b2m →
        msg.angular_velocity
            = ⟨s.x_sign * d.angular_velocity s.x_idx, s.y_sign * d.angular_velocity s.y_idx,
                s.z_sign * d.angular_velocity s.z_idx⟩
          ∧ msg.linear_acceleration
            = ⟨s.x_sign * d.linear_acceleration s.x_idx,
                s.y_sign * d.linear_acceleration s.y_idx,
                s.z_sign * d.linear_acceleration s.z_idx⟩
          ∧ msg.orientation = ⟨0, 0, 0, 0⟩
          ∧ msg.orientation_covariance = [-1, 0, 0, 0, 0, 0, 0, 0, 0])
      ∧ ((∃ msg, ImuEvent.publishImuRaw msg
            ∈ imuPubCallback lib ql s imu_SubNumber imu_RawSubNumber d b2m)
          ↔ imu_RawSubNumber > 0) := by
  have hmem : ∀ msg, ImuEvent.publishImuRaw msg
        ∈ imuPubCallback lib ql s imu_SubNumber imu_RawSubNumber d b2m →
      msg = imu_raw_msg s d ∧ imu_RawSubNumber > 0 := by
    intro msg h
    unfold imuPubCallback at h
    split_ifs at h <;> simp_all
  constructor
  · intro msg h
    rw [(hmem msg h).1]
    exact ⟨rfl, rfl, rfl, rfl⟩
  · constructor
    · rintro ⟨msg, h⟩
      exact (hmem msg h).2
    · intro h
      have h1 : ¬ (imu_SubNumber < 1 ∧ imu_RawSubNumber < 1) := by omega
      exact ⟨imu_raw_msg s d, by simp [imuPubCallback, h1, h]⟩

/-- Witness of C26: one subscriber on the raw channel. -/
theorem raw_imu_message_witness :
    ImuEvent.publishImuRaw (imu_raw_msg Demo.state Demo.imuData)
        ∈ imuPubCallback Demo.lib Demo.quatLib Demo.state 0 1 Demo.imuData none
    ∧ (imu_raw_msg Demo.state Demo.imuData).orientation = ⟨0, 0, 0, 0⟩
    ∧ (imu_raw_msg Demo.state Demo.imuData).orientation_covariance
        = [-1, 0, 0, 0, 0, 0, 0, 0, 0] :=
  ⟨List.mem_cons_self _ _,
    ((raw_imu_message Demo.lib Demo.quatLib Demo.state 0 1 Demo.imuData none).1
      (imu_raw_msg Demo.state Demo.imuData) (List.mem_cons_self _ _)).2.2.1,
    ((raw_imu_message Demo.lib Demo.quatLib Demo.state 0 1 Demo.imuData none).1
      (imu_raw_msg Demo.state Demo.imuData) (List.mem_cons_self _ _)).2.2.2⟩

/-- C27 (failing input). Frames are broadcast and neither IMU channel has a subscriber:
`imuPubCallback` returns at once and broadcasts nothing; with one subscriber on the IMU
channel the same call ends with the broadcast of the base -> imu frame. -/
theorem imu_frame_needs_subscriber :
    Demo.state.publish_tf = true
    ∧ imuPubCallback Demo.lib Demo.quatLib Demo.state 0 0 Demo.imuData none = []
    ∧ (imuPubCallback Demo.lib Demo.quatLib Demo.state 1 0 Demo.imuData none).getLast?
        = some (ImuEvent.publishImuFrame
            (imu_pose Demo.lib Demo.quatLib Demo.state Demo.imuData none)) := by
  refine ⟨rfl, by decide, rfl⟩

/-- C30. With tracking active `on_reset_tracking` returns true and hands back the response
it was given: `reset_done` keeps its value on entry, false for a default-constructed
response; in every case `reset_done` ends as its value on entry when tracking is active and
as false when it is not. -/
theorem reset_tracking_keeps_response (lib : Tf2 V Rot) (s : State V Rot)
    (param : Option (List ℚ)) (res : ResetTrackingResponse)
    (hon : s.tracking_activated = true) :
    (on_reset_tracking lib s param res).ret = true
      ∧ (on_reset_tracking lib s param res).res = res
      ∧ (on_reset_tracking lib s param ⟨false⟩).res.reset_done = false
      ∧ (∀ (s1 : State V Rot) (res1 : ResetTrackingResponse),
          (on_reset_tracking lib s1 param res1).res.reset_done
            = (s1.tracking_activated && res1.reset_done)) := by
  refine ⟨?_, ?_, ?_, ?_⟩
  · simp [on_reset_tracking, hon]
  · simp [on_reset_tracking, hon]
  · simp [on_reset_tracking, hon]
  · intro s1 res1
    cases h : s1.tracking_activated <;> simp [on_reset_tracking, h]

/-- Witness of C30: tracking runs and the response enters with `reset_done` true. -/
theorem reset_tracking_keeps_response_witness :
    Demo.tracking.tracking_activated = true
    ∧ (on_reset_tracking Demo.lib Demo.tracking (some Demo.configuredPose) ⟨true⟩).ret = true
    ∧ (on_reset_tracking Demo.lib Demo.tracking (some Demo.configuredPose) ⟨true⟩).res
        = ⟨true⟩ :=
  ⟨rfl,
    (reset_tracking_keeps_response Demo.lib Demo.tracking (some Demo.configuredPose) ⟨true⟩
      rfl).1,
    (reset_tracking_keeps_response Demo.lib Demo.tracking (some Demo.configuredPose) ⟨true⟩
      rfl).2.1⟩

end ImuClaims

section TickLemmas

variable {V Rot : Type} [Group Rot] [AddGroup V] [DistribMulAction Rot V]

/-- The tracking switch leaves the launch parameters and the desired settings alone. -/
theorem tracking_switch_settings (lib : Tf2 V Rot) (s : State V Rot) (n : Subs) :
    (tracking_switch lib s n).state.publish_tf = s.publish_tf
      ∧ (tracking_switch lib s n).state.depth_stabilization = s.depth_stabilization
      ∧ (tracking_switch lib s n).state.autoExposure = s.autoExposure
      ∧ (tracking_switch lib s n).state.triggerAutoExposure = s.triggerAutoExposure
      ∧ (tracking_switch lib s n).state.autoWhitebalance = s.autoWhitebalance
      ∧ (tracking_switch lib s n).state.triggerAutoWhitebalance = s.triggerAutoWhitebalance
      ∧ (tracking_switch lib s n).state.initial_track_pose = s.initial_track_pose := by
  unfold tracking_switch
  split_ifs
  · rw [start_tracking_state]
    split_ifs <;> exact ⟨rfl, rfl, rfl, rfl, rfl, rfl, rfl⟩
  · exact ⟨rfl, rfl, rfl, rfl, rfl, rfl, rfl⟩
  · exact ⟨rfl, rfl, rfl, rfl, rfl, rfl, rfl⟩

/-- Without pose, cloud and depth subscribers a successful grab leaves `odom_to_map`. -/
theorem grab_succeeded_odom_to_map_kept (lib : Tf2 V Rot) (s : State V Rot)
    (i : TickInput V Rot) (h : ¬ (i.subs.pose > 0 ∨ i.subs.cloud > 0 ∨ i.subs.depth > 0)) :
    (grab_succeeded lib s i).state.odom_to_map_transform = s.odom_to_map_transform := by
  simp only [grab_succeeded_state, publish_frames_state, pose_update_state, odom_update_state,
    publish_cloud_state, apply_whitebalance_state, apply_exposure_state, if_neg h]

/-- The frames broadcast after a successful grab carry the two transforms the iteration
ends with. -/
theorem grab_succeeded_broadcasts (lib : Tf2 V Rot) (s : State V Rot) (i : TickInput V Rot) :
    (grab_succeeded lib s i).events.filter Event.isBroadcast
      = if s.publish_tf then
          [Event.publishOdomFrame (grab_succeeded lib s i).state.base_to_odom_transform,
            Event.publishPoseFrame (grab_succeeded lib s i).state.odom_to_map_transform]
        else [] := by
  simp only [grab_succeeded_events, apply_exposure_events, apply_whitebalance_events,
    publish_cloud_events, odom_update_events, pose_update_events, publish_frames_events,
    apply_color, push_setting, publish_left, publish_left_raw, publish_right, publish_depth,
    List.filter_append, apply_ite (List.filter Event.isBroadcast), List.filter_cons,
    List.filter_nil, Event.isBroadcast, ite_self, List.append_nil, List.nil_append,
    Bool.false_eq_true, if_false, if_true,
    grab_succeeded_state, publish_frames_state, pose_update_state, odom_update_state,
    publish_cloud_state, apply_whitebalance_state, apply_exposure_state]

/-- The frames broadcast by a successful iteration. -/
theorem tick_success_broadcasts (lib : Tf2 V Rot) (s : State V Rot) (i : TickInput V Rot)
    (hrun : i.subs.runLoop = true) (hok : i.grab_status = GrabStatus.success) :
    (device_poll_tick lib s i).events.filter Event.isBroadcast
      = if s.publish_tf then
          [Event.publishOdomFrame (device_poll_tick lib s i).state.base_to_odom_transform,
            Event.publishPoseFrame (device_poll_tick lib s i).state.odom_to_map_transform]
        else [] := by
  have hpre : ((tracking_switch lib s i.subs).events
      ++ (grab_call (tracking_switch lib s i.subs).state i).events).filter Event.isBroadcast
        = [] := by
    rw [List.filter_eq_nil_iff]
    intro e he
    rw [(pre_grab_kind lib s _ i e he).2.1]
    exact Bool.false_ne_true
  rw [tick_success_events lib s i hrun hok, List.filter_append, hpre, List.nil_append,
    grab_succeeded_broadcasts, tick_success_state lib s i hrun hok]
  have : (grab_call (tracking_switch lib s i.subs).state i).state.publish_tf = s.publish_tf :=
    (tracking_switch_settings lib s i.subs).1
  rw [this]

end TickLemmas

section LatchLemmas

variable {V Rot : Type} [Group Rot] [AddGroup V] [DistribMulAction Rot V]

/-- The two flags and the two latches after a successful grab. -/
theorem grab_succeeded_latches (lib : Tf2 V Rot) (s : State V Rot) (i : TickInput V Rot) :
    (grab_succeeded lib s i).state.autoExposure = s.autoExposure
      ∧ (grab_succeeded lib s i).state.triggerAutoExposure
          = (s.triggerAutoExposure && !s.autoExposure)
      ∧ (grab_succeeded lib s i).state.autoWhitebalance = s.autoWhitebalance
      ∧ (grab_succeeded lib s i).state.triggerAutoWhitebalance
          = (s.triggerAutoWhitebalance && !s.autoWhitebalance) := by
  simp only [grab_succeeded_state, publish_frames_state, pose_update_state, odom_update_state,
    publish_cloud_state, apply_whitebalance_state, apply_exposure_state, and_self]

/-- The switches to automatic control made after a successful grab. -/
theorem grab_succeeded_auto_switches (lib : Tf2 V Rot) (s : State V Rot)
    (i : TickInput V Rot) :
    (grab_succeeded lib s i).events.filter (Event.isAutoSwitch Setting.exposure)
        = (if s.autoExposure && s.triggerAutoExposure then
            [Event.setCameraSettings Setting.exposure 0 true] else [])
      ∧ (grab_succeeded lib s i).events.filter (Event.isAutoSwitch Setting.whitebalance)
        = (if s.autoWhitebalance && s.triggerAutoWhitebalance then
            [Event.setCameraSettings Setting.whitebalance 0 true] else []) := by
  constructor
  · simp only [grab_succeeded_events, apply_exposure_events, apply_whitebalance_events,
      publish_cloud_events, odom_update_events, pose_update_events, publish_frames_events,
      apply_color, push_setting, publish_left, publish_left_raw, publish_right, publish_depth,
      List.filter_append, apply_ite (List.filter (Event.isAutoSwitch Setting.exposure)),
      List.filter_cons, List.filter_nil, Event.isAutoSwitch, ite_self, List.append_nil,
      List.nil_append, Bool.false_eq_true, if_false, Bool.and_false, Bool.and_true,
      reduceCtorEq, decide_False, decide_True, Bool.false_and, Bool.true_and, if_true,
      decide_eq_true_eq]
    cases s.autoExposure <;> cases s.triggerAutoExposure <;> simp
  · simp only [grab_succeeded_events, apply_exposure_events, apply_whitebalance_events,
      publish_cloud_events, odom_update_events, pose_update_events, publish_frames_events,
      apply_color, push_setting, publish_left, publish_left_raw, publish_right, publish_depth,
      List.filter_append, apply_ite (List.filter (Event.isAutoSwitch Setting.whitebalance)),
      List.filter_cons, List.filter_nil, Event.isAutoSwitch, ite_self, List.append_nil,
      List.nil_append, Bool.false_eq_true, if_false, Bool.and_false, Bool.and_true,
      reduceCtorEq, decide_False, decide_True, Bool.false_and, Bool.true_and, if_true,
      decide_eq_true_eq, apply_exposure_state]
    cases s.autoWhitebalance <;> cases s.triggerAutoWhitebalance <;> simp


/-- The flags and latches after a successful iteration. -/
theorem tick_success_latches (lib : Tf2 V Rot) (s : State V Rot) (i : TickInput V Rot)
    (hrun : i.subs.runLoop = true) (hok : i.grab_status = GrabStatus.success) :
    (device_poll_tick lib s i).state.autoExposure = s.autoExposure
      ∧ (device_poll_tick lib s i).state.triggerAutoExposure
          = (s.triggerAutoExposure && !s.autoExposure)
      ∧ (device_poll_tick lib s i).state.autoWhitebalance = s.autoWhitebalance
      ∧ (device_poll_tick lib s i).state.triggerAutoWhitebalance
          = (s.triggerAutoWhitebalance && !s.autoWhitebalance) := by
  obtain ⟨-, -, h1, h2, h3, h4, -⟩ := tracking_switch_settings lib s i.subs
  obtain ⟨g1, g2, g3, g4⟩ := grab_succeeded_latches lib
    (grab_call (tracking_switch lib s i.subs).state i).state i
  rw [tick_success_state lib s i hrun hok, g1, g2, g3, g4]
  simp only [grab_call_state, h1, h2, h3, h4, and_self]

/-- The switches to automatic control made by a successful iteration. -/
theorem tick_success_auto_switches (lib : Tf2 V Rot) (s : State V Rot) (i : TickInput V Rot)
    (hrun : i.subs.runLoop = true) (hok : i.grab_status = GrabStatus.success) :
    (device_poll_tick lib s i).events.filter (Event.isAutoSwitch Setting.exposure)
        = (if s.autoExposure && s.triggerAutoExposure then
            [Event.setCameraSettings Setting.exposure 0 true] else [])
      ∧ (device_poll_tick lib s i).events.filter (Event.isAutoSwitch Setting.whitebalance)
        = (if s.autoWhitebalance && s.triggerAutoWhitebalance then
            [Event.setCameraSettings Setting.whitebalance 0 true] else []) := by
  obtain ⟨-, -, h1, h2, h3, h4, -⟩ := tracking_switch_settings lib s i.subs
  obtain ⟨g1, g2⟩ := grab_succeeded_auto_switches lib
    (grab_call (tracking_switch lib s i.subs).state i).state i
  have hpre : ∀ k : Setting, ((tracking_switch lib s i.subs).events
      ++ (grab_call (tracking_switch lib s i.subs).state i).events).filter
        (Event.isAutoSwitch k) = [] := by
    intro k
    simp only [tracking_switch_events, grab_call_events, List.filter_append,
      apply_ite (List.filter (Event.isAutoSwitch k)), List.filter_cons, List.filter_nil,
      Event.isAutoSwitch, ite_self, List.append_nil, Bool.false_eq_true, if_false]
  rw [tick_success_events lib s i hrun hok]
  constructor
  · rw [List.filter_append, hpre, g1]
    simp only [grab_call_state, h1, h2, List.nil_append]
  · rw [List.filter_append, hpre, g2]
    simp only [grab_call_state, h3, h4, List.nil_append]

end LatchLemmas

section ReconfigureLemmas

variable {V Rot : Type}

/-- The flags and latches after a reconfiguration request, which records no effect. -/
theorem reconfigure_latches (convertRodrigues : (Nat → ℚ) → Nat → ℚ)
    (zed : Int → Int → CameraInformation) (scaled : Int → ℚ → Int) (config : ZedConfig)
    (level : Nat) (s : State V Rot) (m : CamInfoMsgs) :
    ((dynamicReconfCallback convertRodrigues zed scaled config level s m).state.autoExposure,
        (dynamicReconfCallback convertRodrigues zed scaled config level s m).state.triggerAutoExposure)
        = (if level = 3 then
            (config.auto_exposure, s.triggerAutoExposure || config.auto_exposure)
           else (s.autoExposure, s.triggerAutoExposure))
      ∧ ((dynamicReconfCallback convertRodrigues zed scaled config level s m).state.autoWhitebalance,
          (dynamicReconfCallback convertRodrigues zed scaled config level s m).state.triggerAutoWhitebalance)
        = (if level = 10 then
            (config.auto_whitebalance, s.triggerAutoWhitebalance || config.auto_whitebalance)
           else (s.autoWhitebalance, s.triggerAutoWhitebalance))
      ∧ (dynamicReconfCallback convertRodrigues zed scaled config level s m).events = [] := by
  by_cases hl : level ≤ 10
  · interval_cases level <;>
      first
        | exact ⟨rfl, rfl, rfl⟩
        | (cases h : config.auto_exposure <;> cases h2 : config.auto_whitebalance <;>
            simp [dynamicReconfCallback, h, h2])
  · obtain ⟨k, rfl⟩ : ∃ k, level = k + 11 := ⟨level - 11, by omega⟩
    have h3 : ¬ (k + 11 = 3) := by omega
    have h10 : ¬ (k + 11 = 10) := by omega
    rw [if_neg h3, if_neg h10]
    exact ⟨rfl, rfl, rfl⟩

end ReconfigureLemmas

section LatchClaims

variable {V Rot : Type} [Group Rot] [AddGroup V] [DistribMulAction Rot V]

/-- C21 (counterexample). From the state left by start-up with automatic exposure on: a
successful tick, a level-3 request with `auto_exposure` true, and a second successful
tick.  `autoExposure` is true before and after every event, so it never goes from false to
true, yet both ticks switch the exposure to automatic.  And from start-up with automatic
exposure off: a level-3 request for automatic, a level-3 request back to manual, and a
successful tick; `autoExposure` goes from false to true once, and no tick makes the
switch. -/
theorem auto_switch_not_per_transition :
    (∀ e ∈ Demo.repeatedRequest, e.grabSucceeds = true)
    ∧ Demo.node.state.autoExposure = true
    ∧ (node_run Demo.lib Demo.convertRodrigues Demo.camera Demo.scaled Demo.node
        Demo.repeatedRequest).map (fun r => r.1.state.autoExposure) = [true, true, true]
    ∧ auto_switch_counts Setting.exposure
        (node_run Demo.lib Demo.convertRodrigues Demo.camera Demo.scaled Demo.node Demo.repeatedRequest)
        = [1, 0, 1]
    ∧ (∀ e ∈ Demo.withdrawnRequest, e.grabSucceeds = true)
    ∧ Demo.manualNode.state.autoExposure = false
    ∧ (node_run Demo.lib Demo.convertRodrigues Demo.camera Demo.scaled Demo.manualNode
        Demo.withdrawnRequest).map (fun r => r.1.state.autoExposure) = [true, false, false]
    ∧ auto_switch_counts Setting.exposure
        (node_run Demo.lib Demo.convertRodrigues Demo.camera Demo.scaled Demo.manualNode
          Demo.withdrawnRequest)
        = [0, 0, 0] := by
  decide

/-- C21 (amended). Over every sequence of reconfiguration requests and successful ticks, from
every state with the loop running, the switches to automatic exposure follow the latch
rule for level 3 and `auto_exposure`, started at `autoExposure` and `triggerAutoExposure`:
a tick makes the switch, once, exactly when the flag is true and the latch is set, and
clears the latch; a level-3 request sets the latch whenever its flag is true.  The same
holds for white balance with level 10 and `auto_whitebalance`; and start-up with a flag
true leaves the flag and its latch set. -/
theorem auto_switch_follows_latch (lib : Tf2 V Rot) (convertRodrigues : (Nat → ℚ) → Nat → ℚ)
    (zed : Int → Int → CameraInformation) (scaled : Int → ℚ → Int) (n : Node V Rot)
    (evs : List (NodeEvent V Rot))
    (hpoll : n.polling = true) (hok : ∀ e ∈ evs, e.grabSucceeds = true) :
    auto_switch_counts Setting.exposure (node_run lib convertRodrigues zed scaled n evs)
        = latch_rule 3 ZedConfig.auto_exposure
            (n.state.autoExposure, n.state.triggerAutoExposure) evs
      ∧ auto_switch_counts Setting.whitebalance (node_run lib convertRodrigues zed scaled n evs)
        = latch_rule 10 ZedConfig.auto_whitebalance
            (n.state.autoWhitebalance, n.state.triggerAutoWhitebalance) evs
      ∧ (∀ (s : State V Rot) (p : SettingsParams),
          (p.auto_exposure = some true →
            (onInit_settings s p).autoExposure = true
              ∧ (onInit_settings s p).triggerAutoExposure = true)
          ∧ (p.auto_whitebalance = some true →
            (onInit_settings s p).autoWhitebalance = true
              ∧ (onInit_settings s p).triggerAutoWhitebalance = true)) := by
  refine ⟨?_, ?_, ?_⟩
  · induction evs generalizing n with
    | nil => rfl
    | cons e rest ih =>
      have hrest : ∀ e ∈ rest, e.grabSucceeds = true :=
        fun e he => hok e (List.mem_cons_of_mem _ he)
      cases e with
      | reconfigure config level =>
        have h := (reconfigure_latches convertRodrigues zed scaled config level n.state
          n.infos).1
        have hev := (reconfigure_latches convertRodrigues zed scaled config level n.state
          n.infos).2.2
        simp only [node_run, auto_switch_counts, List.map_cons, latch_rule, node_step, hev,
          List.filter_nil, List.length_nil]
        rw [← h]
        exact congrArg _ (ih _ hpoll hrest)
      | tick i =>
        have hi := hok _ (List.mem_cons_self _ _)
        simp only [NodeEvent.grabSucceeds, Bool.and_eq_true, decide_eq_true_eq] at hi
        obtain ⟨l1, l2, -, -⟩ := tick_success_latches lib n.state i hi.1 hi.2
        have hsw := (tick_success_auto_switches lib n.state i hi.1 hi.2).1
        have hflow := tick_success_flow lib n.state i hi.1 hi.2
        have hnext := ih
          { n with
            state := (device_poll_tick lib n.state i).state
            polling := decide ((device_poll_tick lib n.state i).flow = Flow.next) }
          (by simp [hflow]) hrest
        simp only [l1, l2] at hnext
        have hhead : (if (n.state.autoExposure && n.state.triggerAutoExposure) = true then
              [Event.setCameraSettings Setting.exposure 0 true]
              else ([] : List (Event V Rot))).length
            = if (n.state.autoExposure && n.state.triggerAutoExposure) = true then 1 else 0 := by
          split_ifs <;> rfl
        simp only [node_run, auto_switch_counts, List.map_cons, latch_rule, node_step, hpoll,
          if_true, hsw, hhead]
        exact congrArg _ hnext
  · induction evs generalizing n with
    | nil => rfl
    | cons e rest ih =>
      have hrest : ∀ e ∈ rest, e.grabSucceeds = true :=
        fun e he => hok e (List.mem_cons_of_mem _ he)
      cases e with
      | reconfigure config level =>
        have h := (reconfigure_latches convertRodrigues zed scaled config level n.state
          n.infos).2.1
        have hev := (reconfigure_latches convertRodrigues zed scaled config level n.state
          n.infos).2.2
        simp only [node_run, auto_switch_counts, List.map_cons, latch_rule, node_step, hev,
          List.filter_nil, List.length_nil]
        rw [← h]
        exact congrArg _ (ih _ hpoll hrest)
      | tick i =>
        have hi := hok _ (List.mem_cons_self _ _)
        simp only [NodeEvent.grabSucceeds, Bool.and_eq_true, decide_eq_true_eq] at hi
        obtain ⟨-, -, l1, l2⟩ := tick_success_latches lib n.state i hi.1 hi.2
        have hsw := (tick_success_auto_switches lib n.state i hi.1 hi.2).2
        have hflow := tick_success_flow lib n.state i hi.1 hi.2
        have hnext := ih
          { n with
            state := (device_poll_tick lib n.state i).state
            polling := decide ((device_poll_tick lib n.state i).flow = Flow.next) }
          (by simp [hflow]) hrest
        simp only [l1, l2] at hnext
        have hhead : (if (n.state.autoWhitebalance && n.state.triggerAutoWhitebalance) = true then
              [Event.setCameraSettings Setting.whitebalance 0 true]
              else ([] : List (Event V Rot))).length
            = if (n.state.autoWhitebalance && n.state.triggerAutoWhitebalance) = true then 1 else 0 := by
          split_ifs <;> rfl
        simp only [node_run, auto_switch_counts, List.map_cons, latch_rule, node_step, hpoll,
          if_true, hsw, hhead]
        exact congrArg _ hnext
  · intro s p
    constructor
    · intro h
      cases hw : p.auto_whitebalance.getD s.autoWhitebalance <;>
        simp [onInit_settings, h, hw]
    · intro h
      cases he : p.auto_exposure.getD s.autoExposure <;>
        simp [onInit_settings, h, he]

end LatchClaims

/-- Witness of C21 (amended): start-up with automatic exposure on, a successful tick, a
level-3 request for automatic exposure, and a second successful tick. -/
theorem auto_switch_follows_latch_witness :
    Demo.node.polling = true
    ∧ (∀ e ∈ Demo.repeatedRequest, e.grabSucceeds = true)
    ∧ auto_switch_counts Setting.exposure
        (node_run Demo.lib Demo.convertRodrigues Demo.camera Demo.scaled Demo.node Demo.repeatedRequest)
        = latch_rule 3 ZedConfig.auto_exposure
            (Demo.node.state.autoExposure, Demo.node.state.triggerAutoExposure)
            Demo.repeatedRequest
    ∧ latch_rule 3 ZedConfig.auto_exposure
        (Demo.node.state.autoExposure, Demo.node.state.triggerAutoExposure)
        Demo.repeatedRequest = [1, 0, 1] :=
  ⟨rfl, by decide,
    (auto_switch_follows_latch Demo.lib Demo.convertRodrigues Demo.camera Demo.scaled Demo.node
      Demo.repeatedRequest rfl (by decide)).1,
    by decide⟩

section AlternationClaims

variable {V Rot : Type} [Group Rot] [AddGroup V] [DistribMulAction Rot V]

/-- Under a demand of cloud or depth subscribers only, without depth stabilization, the
tracking switch stops a running tracking and starts a stopped one; a start with an initial
pose of six entries sets both transforms to that pose; and a successful tick ends with
`tracking_activated` negated. -/
theorem tracking_toggles_under_cloud_demand (lib : Tf2 V Rot) (s : State V Rot)
    (i : TickInput V Rot) (hstab : s.depth_stabilization = false) (hpose : i.subs.pose = 0)
    (hodom : i.subs.odom = 0) (hdemand : i.subs.cloud ≥ 1 ∨ i.subs.depth ≥ 1) :
    (s.tracking_activated = true →
        (tracking_switch lib s i.subs).events = [Event.disableTracking]
          ∧ (tracking_switch lib s i.subs).state.tracking_activated = false)
      ∧ (s.tracking_activated = false →
        (tracking_switch lib s i.subs).events
            = [Event.enableTracking (start_tracking lib s).state.initial_pose_sl]
          ∧ (tracking_switch lib s i.subs).state.tracking_activated = true
          ∧ (s.initial_track_pose.length = 6 →
              (tracking_switch lib s i.subs).state.base_to_odom_transform
                  = ⟨lib.rotation (lib.setRPY (s.initial_track_pose.getD 3 0)
                        (s.initial_track_pose.getD 4 0) (s.initial_track_pose.getD 5 0)),
                      lib.vector3 (s.initial_track_pose.getD 0 0)
                        (s.initial_track_pose.getD 1 0) (s.initial_track_pose.getD 2 0)⟩
                ∧ (tracking_switch lib s i.subs).state.odom_to_map_transform
                  = (tracking_switch lib s i.subs).state.base_to_odom_transform))
      ∧ (i.subs.runLoop = true → i.grab_status = GrabStatus.success →
        (device_poll_tick lib s i).state.tracking_activated = !s.tracking_activated) := by
  have hstart : s.tracking_activated = false →
      (s.depth_stabilization ∨ i.subs.pose > 0 ∨ i.subs.odom > 0 ∨ i.subs.cloud > 0
        ∨ i.subs.depth > 0) ∧ ¬ s.tracking_activated := by
    intro h
    refine ⟨?_, by simp [h]⟩
    rcases hdemand with h1 | h1
    · exact Or.inr (Or.inr (Or.inr (Or.inl (by omega))))
    · exact Or.inr (Or.inr (Or.inr (Or.inr (by omega))))
  have hnostart : s.tracking_activated = true →
      ¬ ((s.depth_stabilization ∨ i.subs.pose > 0 ∨ i.subs.odom > 0 ∨ i.subs.cloud > 0
        ∨ i.subs.depth > 0) ∧ ¬ s.tracking_activated) := by
    intro h
    simp [h]
  have hstop : s.tracking_activated = true →
      ¬ s.depth_stabilization ∧ i.subs.pose = 0 ∧ i.subs.odom = 0 ∧ s.tracking_activated := by
    intro h
    exact ⟨by simp [hstab], hpose, hodom, h⟩
  have hoff : s.tracking_activated = true →
      (tracking_switch lib s i.subs).state.tracking_activated = false := by
    intro h
    simp only [tracking_switch, if_neg (hnostart h), if_pos (hstop h)]
  have hon : s.tracking_activated = false →
      (tracking_switch lib s i.subs).state.tracking_activated = true := by
    intro h
    simp only [tracking_switch, if_pos (hstart h), start_tracking_state]
    split_ifs <;> rfl
  refine ⟨?_, ?_, ?_⟩
  · intro h
    refine ⟨?_, hoff h⟩
    rw [tracking_switch_events, if_neg (hnostart h), if_pos (hstop h)]
  · intro h
    refine ⟨?_, hon h, ?_⟩
    · rw [tracking_switch_events, if_pos (hstart h)]
    · intro hlen
      have hlen' : ¬ (s.initial_track_pose.length ≠ 6) := by simp [hlen]
      simp only [tracking_switch, if_pos (hstart h), start_tracking_state, if_neg hlen']
      exact ⟨rfl, rfl⟩
  · intro hrun hok
    rw [tick_success_state lib s i hrun hok, grab_succeeded_tracking, grab_call_state]
    show (tracking_switch lib s i.subs).state.tracking_activated = !s.tracking_activated
    cases h : s.tracking_activated
    · exact hon h
    · exact hoff h

end AlternationClaims

/-- The state of the model after a first successful cloud-only tick from a running
tracking: `base_to_odom` has moved from `(1, 2, 3)` to `(2, 4, 6)`. -/
theorem shortTracking_first_tick :
    (device_poll_tick Demo.lib Demo.shortTracking
        Demo.cloudTick).state.base_to_odom_transform = ⟨1, (2, 4, 6)⟩ := by
  rw [tick_base_to_odom Demo.lib _ _ (by decide) rfl, if_pos (by decide)]
  have h1 : (tracking_switch Demo.lib Demo.shortTracking
      Demo.cloudTick.subs).state.base_to_odom_transform = ⟨1, (1, 2, 3)⟩ := by decide
  have h2 : fromMsg Demo.lib (remapPose Demo.shortTracking Demo.cloudTick.deltaOdom)
      = ⟨1, (1, 2, 3)⟩ := by
    simp [fromMsg, remapPose, Demo.lib, Demo.shortTracking, Demo.shortPose, Demo.state,
      Demo.cloudTick, Demo.input, Demo.pose]
    norm_num
  have h3 : sensor_to_base Demo.cloudTick = (1 : Transform Demo.Vec Demo.Rot) := rfl
  rw [h1, h2, h3, one_mul, inv_one, mul_one]
  show Transform.comp _ _ = _
  simp [Transform.comp]
  norm_num

/-- C28 (failing input). Tracking runs, depth stabilization is off, the initial pose vector
has three entries, and only the cloud channel is subscribed.  The first tick disables
tracking and the second starts it again, so `tracking_activated` alternates; but the
restart sets only `odom_to_map` to the identity pose it passes to the SDK: `base_to_odom`
stays at `(2, 4, 6)`, where the first tick left it. -/
theorem restart_keeps_base_to_odom :
    Demo.shortTracking.tracking_activated = true
    ∧ Demo.shortTracking.depth_stabilization = false
    ∧ Demo.cloudTick.subs.pose = 0 ∧ Demo.cloudTick.subs.odom = 0
    ∧ Demo.cloudTick.subs.cloud ≥ 1
    ∧ Demo.shortTracking.initial_track_pose.length ≠ 6
    ∧ (device_poll_tick Demo.lib Demo.shortTracking Demo.cloudTick).events.head?
        = some Event.disableTracking
    ∧ (device_poll_tick Demo.lib Demo.shortTracking Demo.cloudTick).state.tracking_activated
        = false
    ∧ (device_poll_tick Demo.lib
        (device_poll_tick Demo.lib Demo.shortTracking Demo.cloudTick).state
        Demo.cloudTick).events.head? = some (Event.enableTracking SlTransform.identity)
    ∧ (device_poll_tick Demo.lib
        (device_poll_tick Demo.lib Demo.shortTracking Demo.cloudTick).state
        Demo.cloudTick).state.tracking_activated = true
    ∧ (tracking_switch Demo.lib
        (device_poll_tick Demo.lib Demo.shortTracking Demo.cloudTick).state
        Demo.cloudTick.subs).state.odom_to_map_transform = Transform.identity
    ∧ (tracking_switch Demo.lib
        (device_poll_tick Demo.lib Demo.shortTracking Demo.cloudTick).state
        Demo.cloudTick.subs).state.base_to_odom_transform = ⟨1, (2, 4, 6)⟩
    ∧ (⟨1, (2, 4, 6)⟩ : Transform Demo.Vec Demo.Rot) ≠ Transform.identity := by
  refine ⟨rfl, rfl, rfl, rfl, by decide, by decide, by decide, by decide, by decide,
    by decide, by decide, ?_, by decide⟩
  have h : (tracking_switch Demo.lib
      (device_poll_tick Demo.lib Demo.shortTracking Demo.cloudTick).state
      Demo.cloudTick.subs).state.base_to_odom_transform
      = (device_poll_tick Demo.lib Demo.shortTracking
          Demo.cloudTick).state.base_to_odom_transform := rfl
  rw [h, shortTracking_first_tick]

section OdomOnlyClaims

variable {V Rot : Type} [Group Rot] [AddGroup V] [DistribMulAction Rot V]

/-- C29 (counterexample). Tracking is off and `odom_to_map` stands at `(1, 2, 3)`; a
successful tick with one odometry subscriber and no pose, cloud or depth subscriber starts
tracking, and `odom_to_map` ends, and is broadcast, as the initial pose `(0, 0, 0)`, not as
its previous value. -/
theorem odom_to_map_reset_at_tracking_start :
    Demo.odomTick.subs.runLoop = true
    ∧ Demo.odomTick.grab_status = GrabStatus.success
    ∧ Demo.odomTick.subs.odom ≥ 1 ∧ Demo.odomTick.subs.pose = 0
    ∧ Demo.odomTick.subs.cloud = 0 ∧ Demo.odomTick.subs.depth = 0
    ∧ Demo.movedMap.odom_to_map_transform = ⟨1, (1, 2, 3)⟩
    ∧ (device_poll_tick Demo.lib Demo.movedMap Demo.odomTick).state.odom_to_map_transform
        = ⟨1, (0, 0, 0)⟩
    ∧ (device_poll_tick Demo.lib Demo.movedMap Demo.odomTick).state.odom_to_map_transform
        ≠ Demo.movedMap.odom_to_map_transform
    ∧ (device_poll_tick Demo.lib Demo.movedMap Demo.odomTick).events.getLast?
        = some (Event.publishPoseFrame ⟨1, (0, 0, 0)⟩) := by
  decide

/-- C29 (amended). In a successful tick with an odometry subscriber and no pose, cloud or
depth subscriber, `base_to_odom` is the value the tracking switch of the tick left,
advanced by the conjugated incremental pose, `odom_to_map` is the value that switch left,
and the frames broadcast when `publish_tf` is set carry these two; when tracking is
already active the switch does nothing, so `base_to_odom` is the previous value advanced,
`odom_to_map` is the previous value, and that previous value is the one broadcast. -/
theorem odom_only_tick (lib : Tf2 V Rot) (s : State V Rot) (i : TickInput V Rot)
    (hrun : i.subs.runLoop = true) (hok : i.grab_status = GrabStatus.success)
    (hodom : i.subs.odom ≥ 1) (hpose : i.subs.pose = 0) (hcloud : i.subs.cloud = 0)
    (hdepth : i.subs.depth = 0) :
    (device_poll_tick lib s i).state.base_to_odom_transform
        = (tracking_switch lib s i.subs).state.base_to_odom_transform
          * (sensor_to_base i * fromMsg lib (remapPose s i.deltaOdom) * (sensor_to_base i)⁻¹)
      ∧ (device_poll_tick lib s i).state.odom_to_map_transform
        = (tracking_switch lib s i.subs).state.odom_to_map_transform
      ∧ (device_poll_tick lib s i).events.filter Event.isBroadcast
        = (if s.publish_tf then
            [Event.publishOdomFrame (device_poll_tick lib s i).state.base_to_odom_transform,
              Event.publishPoseFrame
                (tracking_switch lib s i.subs).state.odom_to_map_transform]
           else [])
      ∧ (s.tracking_activated = true →
          (device_poll_tick lib s i).state.base_to_odom_transform
              = s.base_to_odom_transform
                * (sensor_to_base i * fromMsg lib (remapPose s i.deltaOdom)
                    * (sensor_to_base i)⁻¹)
            ∧ (device_poll_tick lib s i).state.odom_to_map_transform
              = s.odom_to_map_transform
            ∧ (device_poll_tick lib s i).events.filter Event.isBroadcast
              = (if s.publish_tf then
                  [Event.publishOdomFrame
                      (s.base_to_odom_transform
                        * (sensor_to_base i * fromMsg lib (remapPose s i.deltaOdom)
                            * (sensor_to_base i)⁻¹)),
                    Event.publishPoseFrame s.odom_to_map_transform]
                 else [])) := by
  have hblock : i.subs.pose > 0 ∨ i.subs.odom > 0 ∨ i.subs.cloud > 0 ∨ i.subs.depth > 0 :=
    Or.inr (Or.inl (by omega))
  have hnopose : ¬ (i.subs.pose > 0 ∨ i.subs.cloud > 0 ∨ i.subs.depth > 0) := by omega
  have hb : (device_poll_tick lib s i).state.base_to_odom_transform
      = (tracking_switch lib s i.subs).state.base_to_odom_transform
        * (sensor_to_base i * fromMsg lib (remapPose s i.deltaOdom)
            * (sensor_to_base i)⁻¹) := by
    rw [tick_base_to_odom lib s i hrun hok, if_pos hblock]
  have hm : (device_poll_tick lib s i).state.odom_to_map_transform
      = (tracking_switch lib s i.subs).state.odom_to_map_transform := by
    rw [tick_success_state lib s i hrun hok, grab_succeeded_odom_to_map_kept lib _ i hnopose]
    rfl
  have hf : (device_poll_tick lib s i).events.filter Event.isBroadcast
      = (if s.publish_tf then
          [Event.publishOdomFrame (device_poll_tick lib s i).state.base_to_odom_transform,
            Event.publishPoseFrame
              (tracking_switch lib s i.subs).state.odom_to_map_transform]
         else []) := by
    rw [tick_success_broadcasts lib s i hrun hok, hm]
  refine ⟨hb, hm, hf, ?_⟩
  intro htr
  have hsw : (tracking_switch lib s i.subs).state = s := by
    have h1 : ¬ ((s.depth_stabilization ∨ i.subs.pose > 0 ∨ i.subs.odom > 0
        ∨ i.subs.cloud > 0 ∨ i.subs.depth > 0) ∧ ¬ s.tracking_activated) := by
      simp [htr]
    have h2 : ¬ (¬ s.depth_stabilization ∧ i.subs.pose = 0 ∧ i.subs.odom = 0
        ∧ s.tracking_activated) := by
      intro h
      omega
    simp only [tracking_switch, if_neg h1, if_neg h2]
  rw [hsw] at hb hm hf
  rw [hb] at hf
  exact ⟨hb, hm, hf⟩

/-- Witness of C29 (amended): tracking runs, `odom_to_map` stands at `(1, 2, 3)`, and only the
odometry channel is subscribed. -/
theorem odom_only_tick_witness :
    Demo.odomTick.subs.runLoop = true
    ∧ Demo.odomTick.grab_status = GrabStatus.success
    ∧ Demo.odomTick.subs.odom ≥ 1 ∧ Demo.odomTick.subs.pose = 0
    ∧ Demo.odomTick.subs.cloud = 0 ∧ Demo.odomTick.subs.depth = 0
    ∧ Demo.trackingMoved.tracking_activated = true
    ∧ (device_poll_tick Demo.lib Demo.trackingMoved Demo.odomTick).state.base_to_odom_transform
        = Demo.trackingMoved.base_to_odom_transform
          * (sensor_to_base Demo.odomTick
              * fromMsg Demo.lib (remapPose Demo.trackingMoved Demo.odomTick.deltaOdom)
              * (sensor_to_base Demo.odomTick)⁻¹)
    ∧ (device_poll_tick Demo.lib Demo.trackingMoved Demo.odomTick).state.odom_to_map_transform
        = Demo.trackingMoved.odom_to_map_transform :=
  ⟨by decide, rfl, by decide, rfl, rfl, rfl, rfl,
    ((odom_only_tick Demo.lib Demo.trackingMoved Demo.odomTick (by decide) rfl (by decide)
      rfl rfl rfl).2.2.2 rfl).1,
    ((odom_only_tick Demo.lib Demo.trackingMoved Demo.odomTick (by decide) rfl (by decide)
      rfl rfl rfl).2.2.2 rfl).2.1⟩

end OdomOnlyClaims

end ZedWrapper
